import Mathlib

/-!
ADMAIF register classification, mixer controls, stream parameters and RCPI translation.

A shallow embedding of parts of `sound/soc/tegra/tegra210_admaif.c` and of
`drivers/net/wireless/realtek/rtl8852ce/core/rtw_rm_util.c`.

Conventions:
* C `unsigned int` values are natural numbers; every operation that can wrap carries an
  explicit reduction modulo `2^32` (`u32`).
* The headers `tegra210_admaif.h` and `tegra_cif.h` are not part of the sources at hand, so
  the constants they define are fields of `admaif_hdr`, and every function that uses one of
  them takes the header as its first argument.
* Calls into regmap are recorded as a list of `reg_op` events, in program order.
-/

set_option autoImplicit false

namespace Admaif

/-! ## Machine integers -/

/-- Reduction of a natural number to a C `unsigned int` (32 bits). -/
def u32 (n : Nat) : Nat := n % 4294967296

/-- Conversion of an integer to a C `unsigned int`: reduction modulo `2^32`. -/
def int_to_u32 (v : Int) : Nat := (v % 4294967296).toNat

/-- Conversion of an integer to a C `int` (32 bits, two's complement wrap-around), as done by
`int value = ucontrol->value.integer.value[0]` on a target whose `long` is 64 bits wide. -/
def to_s32 (v : Int) : Int := (v + 2147483648) % 4294967296 - 2147483648

/-! ## Constants of the absent headers -/

/-- The constants of `tegra210_admaif.h` and `tegra_cif.h` that the embedded functions use.
The headers are absent, so the values are parameters. -/
structure admaif_hdr where
  TEGRA_ADMAIF_CHANNEL_REG_STRIDE : Nat
  TEGRA_ADMAIF_GLOBAL_ENABLE : Nat
  TEGRA_ADMAIF_GLOBAL_CG_0 : Nat
  TEGRA_ADMAIF_GLOBAL_STATUS : Nat
  TEGRA_ADMAIF_GLOBAL_RX_ENABLE_STATUS : Nat
  TEGRA_ADMAIF_GLOBAL_TX_ENABLE_STATUS : Nat
  TEGRA_ADMAIF_RX_ENABLE : Nat
  TEGRA_ADMAIF_RX_SOFT_RESET : Nat
  TEGRA_ADMAIF_RX_STATUS : Nat
  TEGRA_ADMAIF_RX_INT_STATUS : Nat
  TEGRA_ADMAIF_CH_ACIF_RX_CTRL : Nat
  TEGRA_ADMAIF_RX_FIFO_CTRL : Nat
  TEGRA_ADMAIF_RX_FIFO_READ : Nat
  TEGRA_ADMAIF_TX_ENABLE : Nat
  TEGRA_ADMAIF_TX_SOFT_RESET : Nat
  TEGRA_ADMAIF_TX_STATUS : Nat
  TEGRA_ADMAIF_TX_INT_STATUS : Nat
  TEGRA_ADMAIF_CH_ACIF_TX_CTRL : Nat
  TEGRA_ADMAIF_TX_FIFO_CTRL : Nat
  TEGRA_ADMAIF_TX_FIFO_WRITE : Nat
  PACK8_EN_MASK : Nat
  PACK8_EN : Nat
  PACK16_EN_MASK : Nat
  PACK16_EN : Nat
  DATA_8BIT : Int
  DATA_16BIT : Int
  DATA_32BIT : Int
  TX_ENABLE_MASK : Nat
  TX_ENABLE : Nat
  RX_ENABLE_MASK : Nat
  RX_ENABLE : Nat
  SW_RESET_MASK : Nat
  SW_RESET : Nat
  TEGRA_ACIF_BITS_8 : Nat
  TEGRA_ACIF_BITS_16 : Nat
  TEGRA_ACIF_BITS_24 : Nat
  TEGRA_ACIF_BITS_32 : Nat

/-- The fields of `struct tegra_admaif_soc_data` that the register code reads, together with
`regmap_conf->max_register`. -/
structure tegra_admaif_soc_data where
  num_ch : Nat
  global_base : Nat
  tx_base : Nat
  rx_base : Nat
  max_register : Nat

/-- The macro `CH_REG(offset, reg, id)`, evaluated in `unsigned int`. -/
def CH_REG (h : admaif_hdr) (offset reg id : Nat) : Nat :=
  u32 (offset + reg + h.TEGRA_ADMAIF_CHANNEL_REG_STRIDE * id)

/-- The macro `CH_TX_REG(reg, id)`. -/
def CH_TX_REG (h : admaif_hdr) (soc : tegra_admaif_soc_data) (reg id : Nat) : Nat :=
  CH_REG h soc.tx_base reg id

/-- The macro `CH_RX_REG(reg, id)`. -/
def CH_RX_REG (h : admaif_hdr) (soc : tegra_admaif_soc_data) (reg id : Nat) : Nat :=
  CH_REG h soc.rx_base reg id

/-! ## Register classification -/

/-- The local `rx_max` of the three classifiers. -/
def rx_max (h : admaif_hdr) (soc : tegra_admaif_soc_data) : Nat :=
  u32 (soc.rx_base + u32 (soc.num_ch * h.TEGRA_ADMAIF_CHANNEL_REG_STRIDE))

/-- The local `tx_max` of the three classifiers. -/
def tx_max (h : admaif_hdr) (soc : tegra_admaif_soc_data) : Nat :=
  u32 (soc.tx_base + u32 (soc.num_ch * h.TEGRA_ADMAIF_CHANNEL_REG_STRIDE))

/-- Embedding of `tegra_admaif_wr_reg`. -/
def tegra_admaif_wr_reg (h : admaif_hdr) (soc : tegra_admaif_soc_data) (reg : Nat) : Bool :=
  let ch_stride := h.TEGRA_ADMAIF_CHANNEL_REG_STRIDE
  let rx_base := soc.rx_base
  let tx_base := soc.tx_base
  let global_base := soc.global_base
  let reg_max := soc.max_register
  if rx_base ≤ reg ∧ reg < rx_max h soc then
    let reg := u32 (reg - rx_base) % ch_stride
    if reg = h.TEGRA_ADMAIF_RX_ENABLE ∨
       reg = h.TEGRA_ADMAIF_RX_FIFO_CTRL ∨
       reg = h.TEGRA_ADMAIF_RX_SOFT_RESET ∨
       reg = h.TEGRA_ADMAIF_CH_ACIF_RX_CTRL then true else false
  else if tx_base ≤ reg ∧ reg < tx_max h soc then
    let reg := u32 (reg - tx_base) % ch_stride
    if reg = h.TEGRA_ADMAIF_TX_ENABLE ∨
       reg = h.TEGRA_ADMAIF_TX_FIFO_CTRL ∨
       reg = h.TEGRA_ADMAIF_TX_SOFT_RESET ∨
       reg = h.TEGRA_ADMAIF_CH_ACIF_TX_CTRL then true else false
  else if global_base ≤ reg ∧ reg < reg_max then
    if reg = u32 (global_base + h.TEGRA_ADMAIF_GLOBAL_ENABLE) then true else false
  else false

/-- Embedding of `tegra_admaif_rd_reg`. -/
def tegra_admaif_rd_reg (h : admaif_hdr) (soc : tegra_admaif_soc_data) (reg : Nat) : Bool :=
  let ch_stride := h.TEGRA_ADMAIF_CHANNEL_REG_STRIDE
  let rx_base := soc.rx_base
  let tx_base := soc.tx_base
  let global_base := soc.global_base
  let reg_max := soc.max_register
  if rx_base ≤ reg ∧ reg < rx_max h soc then
    let reg := u32 (reg - rx_base) % ch_stride
    if reg = h.TEGRA_ADMAIF_RX_ENABLE ∨
       reg = h.TEGRA_ADMAIF_RX_STATUS ∨
       reg = h.TEGRA_ADMAIF_RX_INT_STATUS ∨
       reg = h.TEGRA_ADMAIF_RX_FIFO_CTRL ∨
       reg = h.TEGRA_ADMAIF_RX_SOFT_RESET ∨
       reg = h.TEGRA_ADMAIF_CH_ACIF_RX_CTRL then true else false
  else if tx_base ≤ reg ∧ reg < tx_max h soc then
    let reg := u32 (reg - tx_base) % ch_stride
    if reg = h.TEGRA_ADMAIF_TX_ENABLE ∨
       reg = h.TEGRA_ADMAIF_TX_STATUS ∨
       reg = h.TEGRA_ADMAIF_TX_INT_STATUS ∨
       reg = h.TEGRA_ADMAIF_TX_FIFO_CTRL ∨
       reg = h.TEGRA_ADMAIF_TX_SOFT_RESET ∨
       reg = h.TEGRA_ADMAIF_CH_ACIF_TX_CTRL then true else false
  else if global_base ≤ reg ∧ reg < reg_max then
    if reg = u32 (global_base + h.TEGRA_ADMAIF_GLOBAL_ENABLE) ∨
       reg = u32 (global_base + h.TEGRA_ADMAIF_GLOBAL_CG_0) ∨
       reg = u32 (global_base + h.TEGRA_ADMAIF_GLOBAL_STATUS) ∨
       reg = u32 (global_base + h.TEGRA_ADMAIF_GLOBAL_RX_ENABLE_STATUS) ∨
       reg = u32 (global_base + h.TEGRA_ADMAIF_GLOBAL_TX_ENABLE_STATUS) then true else false
  else false

/-- Embedding of `tegra_admaif_volatile_reg`. -/
def tegra_admaif_volatile_reg (h : admaif_hdr) (soc : tegra_admaif_soc_data) (reg : Nat) :
    Bool :=
  let ch_stride := h.TEGRA_ADMAIF_CHANNEL_REG_STRIDE
  let rx_base := soc.rx_base
  let tx_base := soc.tx_base
  let global_base := soc.global_base
  let reg_max := soc.max_register
  if rx_base ≤ reg ∧ reg < rx_max h soc then
    let reg := u32 (reg - rx_base) % ch_stride
    if reg = h.TEGRA_ADMAIF_RX_ENABLE ∨
       reg = h.TEGRA_ADMAIF_RX_STATUS ∨
       reg = h.TEGRA_ADMAIF_RX_INT_STATUS ∨
       reg = h.TEGRA_ADMAIF_RX_SOFT_RESET then true else false
  else if tx_base ≤ reg ∧ reg < tx_max h soc then
    let reg := u32 (reg - tx_base) % ch_stride
    if reg = h.TEGRA_ADMAIF_TX_ENABLE ∨
       reg = h.TEGRA_ADMAIF_TX_STATUS ∨
       reg = h.TEGRA_ADMAIF_TX_INT_STATUS ∨
       reg = h.TEGRA_ADMAIF_TX_SOFT_RESET then true else false
  else if global_base ≤ reg ∧ reg < reg_max then
    if reg = u32 (global_base + h.TEGRA_ADMAIF_GLOBAL_STATUS) ∨
       reg = u32 (global_base + h.TEGRA_ADMAIF_GLOBAL_RX_ENABLE_STATUS) ∨
       reg = u32 (global_base + h.TEGRA_ADMAIF_GLOBAL_TX_ENABLE_STATUS) then true else false
  else false

/-- A register number lies in the RX channel range tested by the classifiers. -/
def in_rx_range (h : admaif_hdr) (soc : tegra_admaif_soc_data) (reg : Nat) : Prop :=
  soc.rx_base ≤ reg ∧ reg < rx_max h soc

/-- A register number lies in the TX channel range tested by the classifiers. -/
def in_tx_range (h : admaif_hdr) (soc : tegra_admaif_soc_data) (reg : Nat) : Prop :=
  soc.tx_base ≤ reg ∧ reg < tx_max h soc

/-- A register number lies in the global range tested by the classifiers. -/
def in_global_range (soc : tegra_admaif_soc_data) (reg : Nat) : Prop :=
  soc.global_base ≤ reg ∧ reg < soc.max_register

instance (h : admaif_hdr) (soc : tegra_admaif_soc_data) (reg : Nat) :
    Decidable (in_rx_range h soc reg) := by unfold in_rx_range; infer_instance

instance (h : admaif_hdr) (soc : tegra_admaif_soc_data) (reg : Nat) :
    Decidable (in_tx_range h soc reg) := by unfold in_tx_range; infer_instance

instance (soc : tegra_admaif_soc_data) (reg : Nat) :
    Decidable (in_global_range soc reg) := by unfold in_global_range; infer_instance

/-- The conditions on a register layout under which the channel macros address the channel
ranges as intended: every per-channel offset used by the driver is below the channel stride,
the two channel ranges do not wrap around `2^32`, the RX, TX and global ranges are pairwise
disjoint, and the global enable register lies in the global range. -/
structure layout_ok (h : admaif_hdr) (soc : tegra_admaif_soc_data) : Prop where
  rx_enable_lt : h.TEGRA_ADMAIF_RX_ENABLE < h.TEGRA_ADMAIF_CHANNEL_REG_STRIDE
  rx_soft_reset_lt : h.TEGRA_ADMAIF_RX_SOFT_RESET < h.TEGRA_ADMAIF_CHANNEL_REG_STRIDE
  rx_status_lt : h.TEGRA_ADMAIF_RX_STATUS < h.TEGRA_ADMAIF_CHANNEL_REG_STRIDE
  rx_cif_ctrl_lt : h.TEGRA_ADMAIF_CH_ACIF_RX_CTRL < h.TEGRA_ADMAIF_CHANNEL_REG_STRIDE
  tx_enable_lt : h.TEGRA_ADMAIF_TX_ENABLE < h.TEGRA_ADMAIF_CHANNEL_REG_STRIDE
  tx_soft_reset_lt : h.TEGRA_ADMAIF_TX_SOFT_RESET < h.TEGRA_ADMAIF_CHANNEL_REG_STRIDE
  tx_status_lt : h.TEGRA_ADMAIF_TX_STATUS < h.TEGRA_ADMAIF_CHANNEL_REG_STRIDE
  tx_cif_ctrl_lt : h.TEGRA_ADMAIF_CH_ACIF_TX_CTRL < h.TEGRA_ADMAIF_CHANNEL_REG_STRIDE
  rx_no_wrap : soc.rx_base + soc.num_ch * h.TEGRA_ADMAIF_CHANNEL_REG_STRIDE < 4294967296
  tx_no_wrap : soc.tx_base + soc.num_ch * h.TEGRA_ADMAIF_CHANNEL_REG_STRIDE < 4294967296
  rx_tx_disjoint : ∀ r, ¬ (in_rx_range h soc r ∧ in_tx_range h soc r)
  global_disjoint : ∀ r, in_global_range soc r → ¬ in_rx_range h soc r ∧ ¬ in_tx_range h soc r
  global_enable_in_range :
    in_global_range soc (u32 (soc.global_base + h.TEGRA_ADMAIF_GLOBAL_ENABLE))

/-- A register layout for worked instances: stride `0x40` and the per-channel and global
offsets of the Tegra210 generation of the ADMAIF block. -/
def sample_hdr : admaif_hdr where
  TEGRA_ADMAIF_CHANNEL_REG_STRIDE := 0x40
  TEGRA_ADMAIF_GLOBAL_ENABLE := 0x0
  TEGRA_ADMAIF_GLOBAL_CG_0 := 0x8
  TEGRA_ADMAIF_GLOBAL_STATUS := 0x10
  TEGRA_ADMAIF_GLOBAL_RX_ENABLE_STATUS := 0x20
  TEGRA_ADMAIF_GLOBAL_TX_ENABLE_STATUS := 0x24
  TEGRA_ADMAIF_RX_ENABLE := 0x0
  TEGRA_ADMAIF_RX_SOFT_RESET := 0x4
  TEGRA_ADMAIF_RX_STATUS := 0xc
  TEGRA_ADMAIF_RX_INT_STATUS := 0x10
  TEGRA_ADMAIF_CH_ACIF_RX_CTRL := 0x20
  TEGRA_ADMAIF_RX_FIFO_CTRL := 0x28
  TEGRA_ADMAIF_RX_FIFO_READ := 0x2c
  TEGRA_ADMAIF_TX_ENABLE := 0x0
  TEGRA_ADMAIF_TX_SOFT_RESET := 0x4
  TEGRA_ADMAIF_TX_STATUS := 0xc
  TEGRA_ADMAIF_TX_INT_STATUS := 0x10
  TEGRA_ADMAIF_CH_ACIF_TX_CTRL := 0x20
  TEGRA_ADMAIF_TX_FIFO_CTRL := 0x28
  TEGRA_ADMAIF_TX_FIFO_WRITE := 0x2c
  PACK8_EN_MASK := 0x80000000
  PACK8_EN := 0x80000000
  PACK16_EN_MASK := 0x40000000
  PACK16_EN := 0x40000000
  DATA_8BIT := 0
  DATA_16BIT := 1
  DATA_32BIT := 2
  TX_ENABLE_MASK := 1
  TX_ENABLE := 1
  RX_ENABLE_MASK := 1
  RX_ENABLE := 1
  SW_RESET_MASK := 1
  SW_RESET := 1
  TEGRA_ACIF_BITS_8 := 1
  TEGRA_ACIF_BITS_16 := 3
  TEGRA_ACIF_BITS_24 := 5
  TEGRA_ACIF_BITS_32 := 7

/-- A ten-channel SoC description for worked instances: RX channels from `0x0`, TX channels
from `0x300`, global registers from `0x700`, last register `0x75f`. -/
def sample_soc : tegra_admaif_soc_data where
  num_ch := 10
  global_base := 0x700
  tx_base := 0x300
  rx_base := 0x0
  max_register := 0x75f

/-! ## Driver state and mixer controls -/

/-- The two indices of the per-path arrays (`ADMAIF_RX_PATH`, `ADMAIF_TX_PATH`). Only their
identity matters here, not their numeric values. -/
inductive admaif_path where
  | ADMAIF_RX_PATH
  | ADMAIF_TX_PATH
  deriving DecidableEq, Repr

/-- The part of `struct tegra_admaif` used by the mixer callbacks and by
`tegra_admaif_hw_params`. Each per-path array is an `unsigned int` array of `num_ch` entries
(allocated, zeroed, in `tegra_admaif_probe`); `reg_dump_flag` is taken to be an `int`, the
type of the local it is compared with. -/
structure tegra_admaif where
  soc_data : tegra_admaif_soc_data
  audio_ch_override : admaif_path → List Nat
  client_ch_override : admaif_path → List Nat
  mono_to_stereo : admaif_path → List Nat
  stereo_to_mono : admaif_path → List Nat
  reg_dump_flag : Int

/-- Read of `arr[path][idx]`. -/
def load (arr : admaif_path → List Nat) (path : admaif_path) (idx : Nat) : Nat :=
  (arr path).getD idx 0

/-- Write `arr[path][idx] = v`. -/
def store (arr : admaif_path → List Nat) (path : admaif_path) (idx : Nat) (v : Nat) :
    admaif_path → List Nat :=
  fun q => if q = path then (arr q).set idx v else arr q

/-- The state right after the allocations of `tegra_admaif_probe`: every array zeroed. -/
def probe_state (soc : tegra_admaif_soc_data) : tegra_admaif where
  soc_data := soc
  audio_ch_override := fun _ => List.replicate soc.num_ch 0
  client_ch_override := fun _ => List.replicate soc.num_ch 0
  mono_to_stereo := fun _ => List.replicate soc.num_ch 0
  stereo_to_mono := fun _ => List.replicate soc.num_ch 0
  reg_dump_flag := 0

/-- Every per-path array of the state has `n` entries. -/
def arrays_sized (a : tegra_admaif) (n : Nat) : Prop :=
  ∀ p, (a.audio_ch_override p).length = n ∧ (a.client_ch_override p).length = n ∧
    (a.mono_to_stereo p).length = n ∧ (a.stereo_to_mono p).length = n

open admaif_path

/-- Embedding of `tegra210_admaif_pget_audio_ch`: the value left in
`ucontrol->value.integer.value[0]` (a `long`) and the return code. `mc_reg` is `mc->reg`. -/
def tegra210_admaif_pget_audio_ch (admaif : tegra_admaif) (mc_reg : Nat) : Int × Int :=
  ((load admaif.audio_ch_override ADMAIF_TX_PATH mc_reg : Nat), 0)

/-- Embedding of `tegra210_admaif_pput_audio_ch`; `uvalue` is
`ucontrol->value.integer.value[0]`. Returns the new state and the return code. -/
def tegra210_admaif_pput_audio_ch (admaif : tegra_admaif) (mc_reg : Nat) (uvalue : Int) :
    tegra_admaif × Int :=
  let value := to_s32 uvalue
  if int_to_u32 value = load admaif.audio_ch_override ADMAIF_TX_PATH mc_reg then (admaif, 0)
  else
    let arr := store admaif.audio_ch_override ADMAIF_TX_PATH mc_reg (int_to_u32 value)
    ({ admaif with audio_ch_override := arr }, 1)

/-- Embedding of `tegra210_admaif_cget_audio_ch`. -/
def tegra210_admaif_cget_audio_ch (admaif : tegra_admaif) (mc_reg : Nat) : Int × Int :=
  ((load admaif.audio_ch_override ADMAIF_RX_PATH mc_reg : Nat), 0)

/-- Embedding of `tegra210_admaif_cput_audio_ch`. -/
def tegra210_admaif_cput_audio_ch (admaif : tegra_admaif) (mc_reg : Nat) (uvalue : Int) :
    tegra_admaif × Int :=
  let value := to_s32 uvalue
  if load admaif.audio_ch_override ADMAIF_RX_PATH mc_reg = int_to_u32 value then (admaif, 0)
  else
    let arr := store admaif.audio_ch_override ADMAIF_RX_PATH mc_reg (int_to_u32 value)
    ({ admaif with audio_ch_override := arr }, 1)

/-- Embedding of `tegra210_admaif_pget_client_ch`. -/
def tegra210_admaif_pget_client_ch (admaif : tegra_admaif) (mc_reg : Nat) : Int × Int :=
  ((load admaif.client_ch_override ADMAIF_TX_PATH mc_reg : Nat), 0)

/-- Embedding of `tegra210_admaif_pput_client_ch`. -/
def tegra210_admaif_pput_client_ch (admaif : tegra_admaif) (mc_reg : Nat) (uvalue : Int) :
    tegra_admaif × Int :=
  let value := to_s32 uvalue
  if load admaif.client_ch_override ADMAIF_TX_PATH mc_reg = int_to_u32 value then (admaif, 0)
  else
    let arr := store admaif.client_ch_override ADMAIF_TX_PATH mc_reg (int_to_u32 value)
    ({ admaif with client_ch_override := arr }, 1)

/-- Embedding of `tegra210_admaif_cget_client_ch`. -/
def tegra210_admaif_cget_client_ch (admaif : tegra_admaif) (mc_reg : Nat) : Int × Int :=
  ((load admaif.client_ch_override ADMAIF_RX_PATH mc_reg : Nat), 0)

/-- Embedding of `tegra210_admaif_cput_client_ch`. -/
def tegra210_admaif_cput_client_ch (admaif : tegra_admaif) (mc_reg : Nat) (uvalue : Int) :
    tegra_admaif × Int :=
  let value := to_s32 uvalue
  if load admaif.client_ch_override ADMAIF_RX_PATH mc_reg = int_to_u32 value then (admaif, 0)
  else
    let arr := store admaif.client_ch_override ADMAIF_RX_PATH mc_reg (int_to_u32 value)
    ({ admaif with client_ch_override := arr }, 1)

/-- Embedding of `tegra210_admaif_get_reg_dump`. -/
def tegra210_admaif_get_reg_dump (admaif : tegra_admaif) : Int × Int :=
  (admaif.reg_dump_flag, 0)

/-- Embedding of `tegra210_admaif_put_reg_dump`. When the new flag is non-zero the function
calls `tegra_admaif_reg_dump`, which only reads registers and prints them; that call leaves
the driver state as it is, so both arms of the inner `if` yield the same state. -/
def tegra210_admaif_put_reg_dump (admaif : tegra_admaif) (uvalue : Int) :
    tegra_admaif × Int :=
  let value := to_s32 uvalue
  if admaif.reg_dump_flag = value then (admaif, 0)
  else
    let admaif1 := { admaif with reg_dump_flag := to_s32 uvalue }
    if admaif1.reg_dump_flag ≠ 0 then (admaif1, 1) else (admaif1, 1)

/-- Embedding of `tegra210_admaif_pget_mono_to_stereo`: the value left in
`ucontrol->value.enumerated.item[0]` (an `unsigned int`) and the return code. `ec_reg` is
`ec->reg`. -/
def tegra210_admaif_pget_mono_to_stereo (admaif : tegra_admaif) (ec_reg : Nat) : Nat × Int :=
  (load admaif.mono_to_stereo ADMAIF_TX_PATH ec_reg, 0)

/-- Embedding of `tegra210_admaif_pput_mono_to_stereo`; `item` is
`ucontrol->value.enumerated.item[0]`, an `unsigned int`. -/
def tegra210_admaif_pput_mono_to_stereo (admaif : tegra_admaif) (ec_reg : Nat) (item : Nat) :
    tegra_admaif × Int :=
  let value := u32 item
  if value = load admaif.mono_to_stereo ADMAIF_TX_PATH ec_reg then (admaif, 0)
  else
    let arr := store admaif.mono_to_stereo ADMAIF_TX_PATH ec_reg value
    ({ admaif with mono_to_stereo := arr }, 1)

/-- Embedding of `tegra210_admaif_cget_mono_to_stereo`. -/
def tegra210_admaif_cget_mono_to_stereo (admaif : tegra_admaif) (ec_reg : Nat) : Nat × Int :=
  (load admaif.mono_to_stereo ADMAIF_RX_PATH ec_reg, 0)

/-- Embedding of `tegra210_admaif_cput_mono_to_stereo`. -/
def tegra210_admaif_cput_mono_to_stereo (admaif : tegra_admaif) (ec_reg : Nat) (item : Nat) :
    tegra_admaif × Int :=
  let value := u32 item
  if value = load admaif.mono_to_stereo ADMAIF_RX_PATH ec_reg then (admaif, 0)
  else
    let arr := store admaif.mono_to_stereo ADMAIF_RX_PATH ec_reg value
    ({ admaif with mono_to_stereo := arr }, 1)

/-- Embedding of `tegra210_admaif_pget_stereo_to_mono`. -/
def tegra210_admaif_pget_stereo_to_mono (admaif : tegra_admaif) (ec_reg : Nat) : Nat × Int :=
  (load admaif.stereo_to_mono ADMAIF_TX_PATH ec_reg, 0)

/-- Embedding of `tegra210_admaif_pput_stereo_to_mono`. -/
def tegra210_admaif_pput_stereo_to_mono (admaif : tegra_admaif) (ec_reg : Nat) (item : Nat) :
    tegra_admaif × Int :=
  let value := u32 item
  if value = load admaif.stereo_to_mono ADMAIF_TX_PATH ec_reg then (admaif, 0)
  else
    let arr := store admaif.stereo_to_mono ADMAIF_TX_PATH ec_reg value
    ({ admaif with stereo_to_mono := arr }, 1)

/-- Embedding of `tegra210_admaif_cget_stereo_to_mono`. -/
def tegra210_admaif_cget_stereo_to_mono (admaif : tegra_admaif) (ec_reg : Nat) : Nat × Int :=
  (load admaif.stereo_to_mono ADMAIF_RX_PATH ec_reg, 0)

/-- Embedding of `tegra210_admaif_cput_stereo_to_mono`. -/
def tegra210_admaif_cput_stereo_to_mono (admaif : tegra_admaif) (ec_reg : Nat) (item : Nat) :
    tegra_admaif × Int :=
  let value := u32 item
  if value = load admaif.stereo_to_mono ADMAIF_RX_PATH ec_reg then (admaif, 0)
  else
    let arr := store admaif.stereo_to_mono ADMAIF_RX_PATH ec_reg value
    ({ admaif with stereo_to_mono := arr }, 1)

/-- A put callback `put` reports change exactly at state `a` for the request `v`, where
`stored s` is the value the control reports in state `s` and `conv v` is the request as the
callback compares it: the return code is `1` exactly when `conv v` differs from the stored
value, otherwise the callback returns `0` and the state is the one it was given, and a second
put of the same request returns `0`. -/
def reports_change {α β : Type} (put : tegra_admaif → α → tegra_admaif × Int)
    (stored : tegra_admaif → β) (conv : α → β) (a : tegra_admaif) (v : α) : Prop :=
  ((put a v).2 = 1 ↔ conv v ≠ stored a) ∧
  (conv v = stored a → put a v = (a, 0)) ∧
  (put (put a v).1 v).2 = 0

/-! ## Stream parameters -/

/-- Kernel constant `SNDRV_PCM_FORMAT_S8`. -/
def SNDRV_PCM_FORMAT_S8 : Int := 0
/-- Kernel constant `SNDRV_PCM_FORMAT_S16_LE`. -/
def SNDRV_PCM_FORMAT_S16_LE : Int := 2
/-- Kernel constant `SNDRV_PCM_FORMAT_S24_LE`. -/
def SNDRV_PCM_FORMAT_S24_LE : Int := 6
/-- Kernel constant `SNDRV_PCM_FORMAT_S32_LE`. -/
def SNDRV_PCM_FORMAT_S32_LE : Int := 10
/-- Kernel constant `SNDRV_PCM_STREAM_PLAYBACK`. -/
def SNDRV_PCM_STREAM_PLAYBACK : Int := 0
/-- Kernel constant `SNDRV_PCM_STREAM_CAPTURE`. -/
def SNDRV_PCM_STREAM_CAPTURE : Int := 1
/-- Kernel error number `EINVAL`. -/
def EINVAL : Int := 22
/-- Kernel error number `EOPNOTSUPP`. -/
def EOPNOTSUPP : Int := 95

/-- The fields of `struct tegra_cif_conf` that `tegra_admaif_hw_params` assigns; the
remaining fields keep the zero written by `memset`. -/
structure tegra_cif_conf where
  audio_ch : Nat
  client_ch : Nat
  audio_bits : Nat
  client_bits : Nat
  mono_conv : Nat
  stereo_conv : Nat
  deriving DecidableEq, Repr

/-- A call into the register map, as issued by the driver. -/
inductive reg_op where
  | update_bits (reg mask val : Nat)
  | set_cif (reg : Nat) (conf : tegra_cif_conf)
  deriving DecidableEq, Repr

/-- The register a call is addressed to. -/
def reg_op.target : reg_op → Nat
  | .update_bits reg _ _ => reg
  | .set_cif reg _ => reg

/-- Embedding of `tegra_admaif_set_pack_mode`: the calls issued and the return code. The
`switch` over distinct case labels is read as a chain of comparisons. -/
def tegra_admaif_set_pack_mode (h : admaif_hdr) (reg : Nat) (valid_bit : Int) :
    List reg_op × Int :=
  if valid_bit = h.DATA_8BIT then
    ([.update_bits reg h.PACK8_EN_MASK h.PACK8_EN, .update_bits reg h.PACK16_EN_MASK 0], 0)
  else if valid_bit = h.DATA_16BIT then
    ([.update_bits reg h.PACK16_EN_MASK h.PACK16_EN, .update_bits reg h.PACK8_EN_MASK 0], 0)
  else if valid_bit = h.DATA_32BIT then
    ([.update_bits reg h.PACK16_EN_MASK 0, .update_bits reg h.PACK8_EN_MASK 0], 0)
  else ([], -EINVAL)

/-- The `switch (params_format(params))` of `tegra_admaif_hw_params`: `audio_bits`,
`client_bits` and `valid_bit` for a supported format, `none` for the `default` arm. -/
def hw_params_format (h : admaif_hdr) (format : Int) : Option (Nat × Nat × Int) :=
  if format = SNDRV_PCM_FORMAT_S8 then
    some (h.TEGRA_ACIF_BITS_8, h.TEGRA_ACIF_BITS_8, h.DATA_8BIT)
  else if format = SNDRV_PCM_FORMAT_S16_LE then
    some (h.TEGRA_ACIF_BITS_16, h.TEGRA_ACIF_BITS_16, h.DATA_16BIT)
  else if format = SNDRV_PCM_FORMAT_S24_LE then
    some (h.TEGRA_ACIF_BITS_32, h.TEGRA_ACIF_BITS_24, h.DATA_32BIT)
  else if format = SNDRV_PCM_FORMAT_S32_LE then
    some (h.TEGRA_ACIF_BITS_32, h.TEGRA_ACIF_BITS_32, h.DATA_32BIT)
  else none

/-- The path and the register chosen by `tegra_admaif_hw_params` for a substream. -/
def hw_params_path_reg (h : admaif_hdr) (admaif : tegra_admaif) (stream : Int) (id : Nat) :
    admaif_path × Nat :=
  if stream = SNDRV_PCM_STREAM_PLAYBACK then
    (ADMAIF_TX_PATH, CH_TX_REG h admaif.soc_data h.TEGRA_ADMAIF_CH_ACIF_TX_CTRL id)
  else
    (ADMAIF_RX_PATH, CH_RX_REG h admaif.soc_data h.TEGRA_ADMAIF_CH_ACIF_RX_CTRL id)

/-- Embedding of `tegra_admaif_hw_params`: the register-map calls issued, in order, and the
return code. `format` is `params_format(params)`, `channels` is `params_channels(params)`,
`stream` is `substream->stream` and `id` is `dai->id`. The return value of
`tegra_admaif_set_pack_mode` is dropped, as in the source. -/
def tegra_admaif_hw_params (h : admaif_hdr) (admaif : tegra_admaif) (format : Int)
    (channels : Nat) (stream : Int) (id : Nat) : List reg_op × Int :=
  match hw_params_format h format with
  | none => ([], -EOPNOTSUPP)
  | some (audio_bits, client_bits, valid_bit) =>
    let path := (hw_params_path_reg h admaif stream id).1
    let reg := (hw_params_path_reg h admaif stream id).2
    let audio_ch :=
      if load admaif.audio_ch_override path id ≠ 0 then load admaif.audio_ch_override path id
      else channels
    let client_ch :=
      if load admaif.client_ch_override path id ≠ 0 then load admaif.client_ch_override path id
      else channels
    let cif_conf : tegra_cif_conf :=
      { audio_ch := audio_ch
        client_ch := client_ch
        audio_bits := audio_bits
        client_bits := client_bits
        mono_conv := load admaif.mono_to_stereo path id
        stereo_conv := load admaif.stereo_to_mono path id }
    ((tegra_admaif_set_pack_mode h reg valid_bit).1 ++ [.set_cif reg cif_conf], 0)

/-! ## Probe: DMA slave data -/

/-- Kernel error number `ENODEV`. -/
def ENODEV : Int := 19

/-- Reduction of a natural number to a 64-bit unsigned value (`dma_addr_t`). -/
def u64 (n : Nat) : Nat := n % 18446744073709551616

/-- The fields of `struct snd_dmaengine_dai_dma_data` that `tegra_admaif_probe` assigns;
`chan_name` is `none` while it is the `NULL` left by the zeroing allocation. -/
structure snd_dmaengine_dai_dma_data where
  addr : Nat
  addr_width : Nat
  chan_name : Option String
  deriving DecidableEq, Repr

/-- The two DMA data arrays of the driver, and the indices passed so far to
`of_property_read_string_index(..., "dma-names", index, ...)`, in call order. -/
structure probe_dma where
  playback_dma_data : List snd_dmaengine_dai_dma_data
  capture_dma_data : List snd_dmaengine_dai_dma_data
  name_reads : List Nat

/-- Update of entry `i` of a DMA data array. -/
def modify_dma (arr : List snd_dmaengine_dai_dma_data) (i : Nat)
    (f : snd_dmaengine_dai_dma_data → snd_dmaengine_dai_dma_data) :
    List snd_dmaengine_dai_dma_data :=
  arr.set i (f (arr.getD i ⟨0, 0, none⟩))

/-- The loop `for (i = 0; i < admaif->soc_data->num_ch; i++)` of `tegra_admaif_probe`, with
`n` iterations left. `res_start` is `res->start` and `dma_names` the strings of the
`"dma-names"` property, so that `of_property_read_string_index` fails exactly when the index
is not one of the list. Returns `0` when the loop runs to its end and `-ENODEV` from the
iteration in which a name is missing, together with the state reached. -/
def probe_dma_loop (h : admaif_hdr) (soc : tegra_admaif_soc_data) (res_start : Nat)
    (dma_names : List String) : Nat → Nat → probe_dma → Int × probe_dma
  | 0, _, st => (0, st)
  | n + 1, i, st =>
    let pb1 := modify_dma st.playback_dma_data i (fun d =>
      { d with addr := u64 (res_start + CH_TX_REG h soc h.TEGRA_ADMAIF_TX_FIFO_WRITE i) })
    let cp1 := modify_dma st.capture_dma_data i (fun d =>
      { d with addr := u64 (res_start + CH_RX_REG h soc h.TEGRA_ADMAIF_RX_FIFO_READ i) })
    let pb2 := modify_dma pb1 i (fun d => { d with addr_width := 32 })
    let reads1 := st.name_reads ++ [i * 2 + 1]
    match dma_names.get? (i * 2 + 1) with
    | none => (-ENODEV, ⟨pb2, cp1, reads1⟩)
    | some pname =>
      let pb3 := modify_dma pb2 i (fun d => { d with chan_name := some pname })
      let cp2 := modify_dma cp1 i (fun d => { d with addr_width := 32 })
      let reads2 := reads1 ++ [i * 2]
      match dma_names.get? (i * 2) with
      | none => (-ENODEV, ⟨pb3, cp2, reads2⟩)
      | some cname =>
        let cp3 := modify_dma cp2 i (fun d => { d with chan_name := some cname })
        probe_dma_loop h soc res_start dma_names n (i + 1) ⟨pb3, cp3, reads2⟩

/-- The DMA part of `tegra_admaif_probe`: the two arrays as `devm_kcalloc` returns them,
`num_ch` zeroed entries each, then the loop over the channels. -/
def tegra_admaif_probe_dma (h : admaif_hdr) (soc : tegra_admaif_soc_data) (res_start : Nat)
    (dma_names : List String) : Int × probe_dma :=
  probe_dma_loop h soc res_start dma_names soc.num_ch 0
    ⟨List.replicate soc.num_ch ⟨0, 0, none⟩, List.replicate soc.num_ch ⟨0, 0, none⟩, []⟩

/-- A two-channel SoC description for worked instances of the probe loop. -/
def sample_soc2 : tegra_admaif_soc_data where
  num_ch := 2
  global_base := 0x700
  tx_base := 0x300
  rx_base := 0x0
  max_register := 0x75f

/-- A `"dma-names"` property for two channels. -/
def sample_dma_names : List String := ["rx1", "tx1", "rx2", "tx2"]

/-! ## Runtime power management -/

/-- The two flags of a `struct regmap` that the register-cache calls of the driver act on. -/
structure regmap_cache where
  cache_only : Bool
  cache_dirty : Bool
  deriving DecidableEq, Repr

/-- Kernel call `regcache_cache_only(map, enable)`: sets the cache-only flag. -/
def regcache_cache_only (map : regmap_cache) (enable : Bool) : regmap_cache :=
  { map with cache_only := enable }

/-- Kernel call `regcache_mark_dirty(map)`: marks the cache as differing from the
hardware. -/
def regcache_mark_dirty (map : regmap_cache) : regmap_cache :=
  { map with cache_dirty := true }

/-- Kernel call `regcache_sync(map)`, for a register map whose writes succeed (memory-mapped
registers): the cached values are written out and the cache is no longer dirty. -/
def regcache_sync (map : regmap_cache) : regmap_cache :=
  { map with cache_dirty := false }

/-- Embedding of `tegra_admaif_runtime_suspend`: the register map after the call and the
return code. -/
def tegra_admaif_runtime_suspend (regmap : regmap_cache) : regmap_cache × Int :=
  let m1 := regcache_cache_only regmap true
  let m2 := regcache_mark_dirty m1
  (m2, 0)

/-- Embedding of `tegra_admaif_runtime_resume`. -/
def tegra_admaif_runtime_resume (regmap : regmap_cache) : regmap_cache × Int :=
  let m1 := regcache_cache_only regmap false
  let m2 := regcache_sync m1
  (m2, 0)

/-- A runtime power-management callback invoked on the device. -/
inductive pm_call where
  | suspend
  | resume
  deriving DecidableEq, Repr

/-- The register map after one power-management callback. -/
def pm_step (regmap : regmap_cache) : pm_call → regmap_cache
  | .suspend => (tegra_admaif_runtime_suspend regmap).1
  | .resume => (tegra_admaif_runtime_resume regmap).1

/-- The register map after a sequence of power-management callbacks, first call first. -/
def pm_run (regmap : regmap_cache) (calls : List pm_call) : regmap_cache :=
  calls.foldl pm_step regmap

/-! ## Stopping a channel -/

/-- Bitwise complement of an `int` converted to `unsigned int`, as in the argument `~enable`
of `regmap_update_bits`. -/
def u32_not (x : Nat) : Nat := 4294967295 - u32 x

/-- What `tegra_admaif_stop` does towards the outside, in order: a write call into the
register map, a `regmap_read_poll_timeout_atomic` on a register, a `dev_warn` and a
`dev_err`. -/
inductive stop_event where
  | write (op : reg_op)
  | read_poll (reg : Nat)
  | dev_warn
  | dev_err
  deriving DecidableEq, Repr

/-- Embedding of `tegra_admaif_stop`: the events, in order, and the return code.
`direction` is the argument of that name and `id` is `dai->id`; `status_poll` and
`reset_poll` are the values returned by the first and by the second
`regmap_read_poll_timeout_atomic`. -/
def tegra_admaif_stop (h : admaif_hdr) (admaif : tegra_admaif) (direction : Int) (id : Nat)
    (status_poll reset_poll : Int) : List stop_event × Int :=
  let regs : Option (Nat × Nat × Nat × Nat × Nat) :=
    if direction = SNDRV_PCM_STREAM_PLAYBACK then
      some (h.TX_ENABLE_MASK, h.TX_ENABLE,
        CH_TX_REG h admaif.soc_data h.TEGRA_ADMAIF_TX_ENABLE id,
        CH_TX_REG h admaif.soc_data h.TEGRA_ADMAIF_TX_STATUS id,
        CH_TX_REG h admaif.soc_data h.TEGRA_ADMAIF_TX_SOFT_RESET id)
    else if direction = SNDRV_PCM_STREAM_CAPTURE then
      some (h.RX_ENABLE_MASK, h.RX_ENABLE,
        CH_RX_REG h admaif.soc_data h.TEGRA_ADMAIF_RX_ENABLE id,
        CH_RX_REG h admaif.soc_data h.TEGRA_ADMAIF_RX_STATUS id,
        CH_RX_REG h admaif.soc_data h.TEGRA_ADMAIF_RX_SOFT_RESET id)
    else none
  match regs with
  | none => ([], -EINVAL)
  | some (mask, enable, enable_reg, status_reg, reset_reg) =>
    let ev1 := [stop_event.write (.update_bits enable_reg mask (u32_not enable)),
      stop_event.read_poll status_reg]
    let ev2 := if status_poll < 0 then ev1 ++ [stop_event.dev_warn] else ev1
    let ev3 := ev2 ++ [stop_event.write (.update_bits reset_reg h.SW_RESET_MASK h.SW_RESET),
      stop_event.read_poll reset_reg]
    if reset_poll ≠ 0 then (ev3 ++ [stop_event.dev_err], reset_poll)
    else (ev3, 0)

/-- The register accesses among a list of events: the writes and the polls, without the
log messages. -/
def register_accesses (evs : List stop_event) : List stop_event :=
  evs.filter (fun e => e ≠ stop_event.dev_warn ∧ e ≠ stop_event.dev_err)

/-! ## Starting a channel and the enable write -/

/-- Embedding of `tegra_admaif_start`: the register-map calls and the return code. -/
def tegra_admaif_start (h : admaif_hdr) (admaif : tegra_admaif) (direction : Int) (id : Nat) :
    List reg_op × Int :=
  if direction = SNDRV_PCM_STREAM_PLAYBACK then
    ([.update_bits (CH_TX_REG h admaif.soc_data h.TEGRA_ADMAIF_TX_ENABLE id)
        h.TX_ENABLE_MASK h.TX_ENABLE], 0)
  else if direction = SNDRV_PCM_STREAM_CAPTURE then
    ([.update_bits (CH_RX_REG h admaif.soc_data h.TEGRA_ADMAIF_RX_ENABLE id)
        h.RX_ENABLE_MASK h.RX_ENABLE], 0)
  else ([], -EINVAL)

/-- Kernel call `regmap_update_bits(map, reg, mask, val)`, as the value it leaves in a
32-bit register that held `old`: `(old & ~mask) | (val & mask)`. -/
def regmap_update_bits (old mask val : Nat) : Nat :=
  (old &&& u32_not mask) ||| (val &&& mask)

/-! ## Sequences of mixer writes -/

/-- A call of one of the put callbacks of the mixer controls, with the index of the control
(`mc->reg` or `ec->reg`) and the requested value. -/
inductive put_call where
  | pput_audio_ch (mc_reg : Nat) (uvalue : Int)
  | cput_audio_ch (mc_reg : Nat) (uvalue : Int)
  | pput_client_ch (mc_reg : Nat) (uvalue : Int)
  | cput_client_ch (mc_reg : Nat) (uvalue : Int)
  | put_reg_dump (uvalue : Int)
  | pput_mono_to_stereo (ec_reg : Nat) (item : Nat)
  | cput_mono_to_stereo (ec_reg : Nat) (item : Nat)
  | pput_stereo_to_mono (ec_reg : Nat) (item : Nat)
  | cput_stereo_to_mono (ec_reg : Nat) (item : Nat)
  deriving DecidableEq, Repr

/-- The driver state after one put call. -/
def put_step (admaif : tegra_admaif) : put_call → tegra_admaif
  | .pput_audio_ch mc_reg uvalue => (tegra210_admaif_pput_audio_ch admaif mc_reg uvalue).1
  | .cput_audio_ch mc_reg uvalue => (tegra210_admaif_cput_audio_ch admaif mc_reg uvalue).1
  | .pput_client_ch mc_reg uvalue => (tegra210_admaif_pput_client_ch admaif mc_reg uvalue).1
  | .cput_client_ch mc_reg uvalue => (tegra210_admaif_cput_client_ch admaif mc_reg uvalue).1
  | .put_reg_dump uvalue => (tegra210_admaif_put_reg_dump admaif uvalue).1
  | .pput_mono_to_stereo ec_reg item =>
    (tegra210_admaif_pput_mono_to_stereo admaif ec_reg item).1
  | .cput_mono_to_stereo ec_reg item =>
    (tegra210_admaif_cput_mono_to_stereo admaif ec_reg item).1
  | .pput_stereo_to_mono ec_reg item =>
    (tegra210_admaif_pput_stereo_to_mono admaif ec_reg item).1
  | .cput_stereo_to_mono ec_reg item =>
    (tegra210_admaif_cput_stereo_to_mono admaif ec_reg item).1

/-- The driver state after a sequence of put calls, first call first. -/
def run_puts (admaif : tegra_admaif) (calls : List put_call) : tegra_admaif :=
  calls.foldl put_step admaif

/-- The requested value of a call lies in the range `0..16` that the "Audio Channels" and
"Client Channels" controls declare; calls of the other controls are not constrained. -/
def put_call.in_channel_range : put_call → Prop
  | .pput_audio_ch _ uvalue => 0 ≤ uvalue ∧ uvalue ≤ 16
  | .cput_audio_ch _ uvalue => 0 ≤ uvalue ∧ uvalue ≤ 16
  | .pput_client_ch _ uvalue => 0 ≤ uvalue ∧ uvalue ≤ 16
  | .cput_client_ch _ uvalue => 0 ≤ uvalue ∧ uvalue ≤ 16
  | _ => True

/-- Every entry of the audio-channel and client-channel override arrays is at most `n`. -/
def overrides_le (admaif : tegra_admaif) (n : Nat) : Prop :=
  ∀ p, (∀ x ∈ admaif.audio_ch_override p, x ≤ n) ∧ (∀ x ∈ admaif.client_ch_override p, x ≤ n)

/-- A put callback `put` of a channel control stores the request unchecked: after
`put a idx v` the entry `idx` of the array `arr` of the control on its `path` holds the
request `v` reduced modulo `2^32`, every other entry of that array (on either path) is as
before, and the array `other` of the other kind of override is as before. -/
def stores_request (put : tegra_admaif → Nat → Int → tegra_admaif × Int)
    (arr other : tegra_admaif → admaif_path → List Nat) (path : admaif_path)
    (a : tegra_admaif) (idx : Nat) (v : Int) : Prop :=
  ((load (arr (put a idx v).1) path idx : Nat) : Int) = v % 4294967296 ∧
  (∀ q j, q ≠ path ∨ j ≠ idx → load (arr (put a idx v).1) q j = load (arr a) q j) ∧
  other (put a idx v).1 = other a

end Admaif

namespace RtwRm

/-- Conversion of a C `int` to `u8`: reduction modulo `256`. -/
def int_to_u8 (v : Int) : Nat := (v % 256).toNat

/-- Embedding of `translate_dbm_to_rcpi`. The argument is an `s8`; it is promoted to `int`,
the arithmetic is done in `int`, and the result is converted to the `u8` return type. -/
def translate_dbm_to_rcpi (SignalPower : Int) : Nat :=
  int_to_u8 ((SignalPower + 110) * 2)

/-- Conversion of a C integer to `s8` (two's complement wrap-around), as done when a wider
value is passed for an `s8` parameter or stored in an `s8` variable. -/
def to_s8 (v : Int) : Int := (v + 128) % 256 - 128

/-- Embedding of `translate_percentage_to_rcpi`. The argument is a `u32`; the subtraction
`SignalStrengthIndex - 100` is done in `u32` and the difference is converted to the `s8`
parameter of `translate_dbm_to_rcpi`. -/
def translate_percentage_to_rcpi (SignalStrengthIndex : Nat) : Nat :=
  translate_dbm_to_rcpi (to_s8 (((SignalStrengthIndex : Int) - 100) % 4294967296))

/-- The fields of `pnetwork->network.PhyInfo` read by the beacon helpers. -/
structure wlan_phy_info where
  SignalStrength : Nat
  is_cck_rate : Nat
  rx_snr : List Int

/-- Embedding of `rm_get_bcn_rcpi`; `PhyInfo` is `pnetwork->network.PhyInfo`. -/
def rm_get_bcn_rcpi (PhyInfo : wlan_phy_info) : Nat :=
  translate_percentage_to_rcpi PhyInfo.SignalStrength

/-- The non-CCK arm of `rm_get_bcn_rsni` up to the division: `snr = 0`, the loop
`for (i = 0; i < rf_path; i++) snr += rx_snr[i]` on the `u8` accumulator, and
`snr = snr / rf_path`. -/
def bcn_avg_snr (PhyInfo : wlan_phy_info) (rf_path : Nat) : Nat :=
  let snr := (List.range rf_path).foldl
    (fun (snr : Nat) i => int_to_u8 ((snr : Int) + PhyInfo.rx_snr.getD i 0)) 0
  snr / rf_path

/-- Embedding of `rm_get_bcn_rsni`; `rf_path` is `GET_HAL_RFPATH_NUM(dvobj)`. In
`val8 = (u8)(snr + 10)*2` the cast applies to the sum, the product is an `int`, and the
assignment converts it to `u8`. -/
def rm_get_bcn_rsni (PhyInfo : wlan_phy_info) (rf_path : Nat) : Nat :=
  if PhyInfo.is_cck_rate ≠ 0 then 255
  else
    let snr := bcn_avg_snr PhyInfo rf_path
    int_to_u8 ((int_to_u8 ((snr : Int) + 10) : Int) * 2)

/-- The enumerators of `enum MGN_RATE` named in the `switch` of `rm_get_rx_sensitivity`,
and `MGN_other` for every other value of the enumeration (the `default` arm). Only the
identity of the enumerators matters, not their numeric values. -/
inductive MGN_RATE where
  | MGN_1M
  | MGN_2M
  | MGN_5_5M
  | MGN_11M
  | MGN_6M
  | MGN_9M
  | MGN_12M
  | MGN_18M
  | MGN_24M
  | MGN_36M
  | MGN_48M
  | MGN_54M
  | MGN_MCS0
  | MGN_MCS1
  | MGN_MCS2
  | MGN_MCS3
  | MGN_MCS4
  | MGN_MCS5
  | MGN_MCS6
  | MGN_MCS7
  | MGN_MCS8
  | MGN_MCS9
  | MGN_MCS10
  | MGN_MCS11
  | MGN_MCS12
  | MGN_MCS13
  | MGN_MCS14
  | MGN_MCS15
  | MGN_MCS16
  | MGN_MCS17
  | MGN_MCS18
  | MGN_MCS19
  | MGN_MCS20
  | MGN_MCS21
  | MGN_MCS22
  | MGN_MCS23
  | MGN_MCS24
  | MGN_MCS25
  | MGN_MCS26
  | MGN_MCS27
  | MGN_MCS28
  | MGN_MCS29
  | MGN_MCS30
  | MGN_MCS31
  | MGN_VHT1SS_MCS0
  | MGN_VHT1SS_MCS1
  | MGN_VHT1SS_MCS2
  | MGN_VHT1SS_MCS3
  | MGN_VHT1SS_MCS4
  | MGN_VHT1SS_MCS5
  | MGN_VHT1SS_MCS6
  | MGN_VHT1SS_MCS7
  | MGN_VHT1SS_MCS8
  | MGN_VHT1SS_MCS9
  | MGN_VHT2SS_MCS0
  | MGN_VHT2SS_MCS1
  | MGN_VHT2SS_MCS2
  | MGN_VHT2SS_MCS3
  | MGN_VHT2SS_MCS4
  | MGN_VHT2SS_MCS5
  | MGN_VHT2SS_MCS6
  | MGN_VHT2SS_MCS7
  | MGN_VHT2SS_MCS8
  | MGN_VHT2SS_MCS9
  | MGN_VHT3SS_MCS0
  | MGN_VHT3SS_MCS1
  | MGN_VHT3SS_MCS2
  | MGN_VHT3SS_MCS3
  | MGN_VHT3SS_MCS4
  | MGN_VHT3SS_MCS5
  | MGN_VHT3SS_MCS6
  | MGN_VHT3SS_MCS7
  | MGN_VHT3SS_MCS8
  | MGN_VHT3SS_MCS9
  | MGN_VHT4SS_MCS0
  | MGN_VHT4SS_MCS1
  | MGN_VHT4SS_MCS2
  | MGN_VHT4SS_MCS3
  | MGN_VHT4SS_MCS4
  | MGN_VHT4SS_MCS5
  | MGN_VHT4SS_MCS6
  | MGN_VHT4SS_MCS7
  | MGN_VHT4SS_MCS8
  | MGN_VHT4SS_MCS9
  | MGN_other
  deriving DecidableEq, Repr

/-- The enumerators of `enum channel_width` named in the second `switch` of
`rm_get_rx_sensitivity`, and `CHANNEL_WIDTH_other` for every other value (its `default`
arm). -/
inductive channel_width where
  | CHANNEL_WIDTH_20
  | CHANNEL_WIDTH_40
  | CHANNEL_WIDTH_80
  | CHANNEL_WIDTH_160
  | CHANNEL_WIDTH_5
  | CHANNEL_WIDTH_10
  | CHANNEL_WIDTH_80_80
  | CHANNEL_WIDTH_other
  deriving DecidableEq, Repr

open MGN_RATE channel_width

/-- The `switch (rate)` of `rm_get_rx_sensitivity`: the value assigned to `rx_sensitivity`,
or `none` for the `default` arm, which returns `-1`. -/
def rx_sensitivity_of_rate : MGN_RATE → Option Int
  | MGN_1M => some (-101)
  | MGN_2M => some (-98)
  | MGN_5_5M => some (-92)
  | MGN_11M => some (-89)
  | MGN_6M => some (-92)
  | MGN_9M => some (-92)
  | MGN_12M => some (-92)
  | MGN_18M => some (-90)
  | MGN_24M => some (-88)
  | MGN_36M => some (-84)
  | MGN_48M => some (-79)
  | MGN_54M => some (-78)
  -- BW20 BPSK 1/2
  | MGN_MCS0 | MGN_MCS8 | MGN_MCS16 | MGN_MCS24
  | MGN_VHT1SS_MCS0 | MGN_VHT2SS_MCS0 | MGN_VHT3SS_MCS0 | MGN_VHT4SS_MCS0 => some (-82)
  -- BW20 QPSK 1/2
  | MGN_MCS1 | MGN_MCS9 | MGN_MCS17 | MGN_MCS25
  | MGN_VHT1SS_MCS1 | MGN_VHT2SS_MCS1 | MGN_VHT3SS_MCS1 | MGN_VHT4SS_MCS1 => some (-79)
  -- BW20 QPSK 3/4
  | MGN_MCS2 | MGN_MCS10 | MGN_MCS18 | MGN_MCS26
  | MGN_VHT1SS_MCS2 | MGN_VHT2SS_MCS2 | MGN_VHT3SS_MCS2 | MGN_VHT4SS_MCS2 => some (-77)
  -- BW20 16-QAM 1/2
  | MGN_MCS3 | MGN_MCS11 | MGN_MCS19 | MGN_MCS27
  | MGN_VHT1SS_MCS3 | MGN_VHT2SS_MCS3 | MGN_VHT3SS_MCS3 | MGN_VHT4SS_MCS3 => some (-74)
  -- BW20 16-QAM 3/4
  | MGN_MCS4 | MGN_MCS12 | MGN_MCS20 | MGN_MCS28
  | MGN_VHT1SS_MCS4 | MGN_VHT2SS_MCS4 | MGN_VHT3SS_MCS4 | MGN_VHT4SS_MCS4 => some (-70)
  -- BW20 64-QAM 2/3
  | MGN_MCS5 | MGN_MCS13 | MGN_MCS21 | MGN_MCS29
  | MGN_VHT1SS_MCS5 | MGN_VHT2SS_MCS5 | MGN_VHT3SS_MCS5 | MGN_VHT4SS_MCS5 => some (-66)
  -- BW20 64-QAM 3/4
  | MGN_MCS6 | MGN_MCS14 | MGN_MCS22 | MGN_MCS30
  | MGN_VHT1SS_MCS6 | MGN_VHT2SS_MCS6 | MGN_VHT3SS_MCS6 | MGN_VHT4SS_MCS6 => some (-65)
  -- BW20 64-QAM 5/6
  | MGN_MCS7 | MGN_MCS15 | MGN_MCS23 | MGN_MCS31
  | MGN_VHT1SS_MCS7 | MGN_VHT2SS_MCS7 | MGN_VHT3SS_MCS7 | MGN_VHT4SS_MCS7 => some (-64)
  -- BW20 256-QAM 3/4
  | MGN_VHT1SS_MCS8 | MGN_VHT2SS_MCS8 | MGN_VHT3SS_MCS8 | MGN_VHT4SS_MCS8 => some (-59)
  -- BW20 256-QAM 5/6
  | MGN_VHT1SS_MCS9 | MGN_VHT2SS_MCS9 | MGN_VHT3SS_MCS9 | MGN_VHT4SS_MCS9 => some (-57)
  | MGN_other => none

/-- Embedding of `rm_get_rx_sensitivity`: the return code and the value of `*pwr` after the
call, given its value `pwr` before the call. The local is an `s8`, so each `-=` converts the
`int` difference back to `s8`. -/
def rm_get_rx_sensitivity (bw : channel_width) (rate : MGN_RATE) (pwr : Int) : Int × Int :=
  match rx_sensitivity_of_rate rate with
  | none => (-1, pwr)
  | some rx_sensitivity =>
    match bw with
    | CHANNEL_WIDTH_20 => (0, rx_sensitivity)
    | CHANNEL_WIDTH_40 => (0, to_s8 (rx_sensitivity - 3))
    | CHANNEL_WIDTH_80 => (0, to_s8 (rx_sensitivity - 6))
    | CHANNEL_WIDTH_160 => (0, to_s8 (rx_sensitivity - 9))
    | CHANNEL_WIDTH_5 => (-1, pwr)
    | CHANNEL_WIDTH_10 => (-1, pwr)
    | CHANNEL_WIDTH_80_80 => (-1, pwr)
    | CHANNEL_WIDTH_other => (-1, pwr)

/-- Stated sensitivities, legacy rates: `-101, -98, -92, -89` for 1, 2, 5.5 and 11M, `-92`
for 6, 9 and 12M, `-90, -88, -84, -79, -78` for 18, 24, 36, 48 and 54M. -/
def stated_legacy_base : MGN_RATE → Option Int
  | MGN_1M => some (-101)
  | MGN_2M => some (-98)
  | MGN_5_5M => some (-92)
  | MGN_11M => some (-89)
  | MGN_6M => some (-92)
  | MGN_9M => some (-92)
  | MGN_12M => some (-92)
  | MGN_18M => some (-90)
  | MGN_24M => some (-88)
  | MGN_36M => some (-84)
  | MGN_48M => some (-79)
  | MGN_54M => some (-78)
  | _ => none

/-- Stated sensitivities for MCS index `0..9`. -/
def stated_mcs_base : List Int := [-82, -79, -77, -74, -70, -66, -65, -64, -59, -57]

/-- The HT rates in index order, `MGN_MCS0` to `MGN_MCS31`. -/
def ht_rates : List MGN_RATE :=
  [MGN_MCS0, MGN_MCS1, MGN_MCS2, MGN_MCS3, MGN_MCS4, MGN_MCS5, MGN_MCS6, MGN_MCS7,
   MGN_MCS8, MGN_MCS9, MGN_MCS10, MGN_MCS11, MGN_MCS12, MGN_MCS13, MGN_MCS14, MGN_MCS15,
   MGN_MCS16, MGN_MCS17, MGN_MCS18, MGN_MCS19, MGN_MCS20, MGN_MCS21, MGN_MCS22, MGN_MCS23,
   MGN_MCS24, MGN_MCS25, MGN_MCS26, MGN_MCS27, MGN_MCS28, MGN_MCS29, MGN_MCS30, MGN_MCS31]

/-- The VHT rates: for each number of spatial streams, `MCS0` to `MCS9` in index order. -/
def vht_rates : List (List MGN_RATE) :=
  [[MGN_VHT1SS_MCS0, MGN_VHT1SS_MCS1, MGN_VHT1SS_MCS2, MGN_VHT1SS_MCS3, MGN_VHT1SS_MCS4,
    MGN_VHT1SS_MCS5, MGN_VHT1SS_MCS6, MGN_VHT1SS_MCS7, MGN_VHT1SS_MCS8, MGN_VHT1SS_MCS9],
   [MGN_VHT2SS_MCS0, MGN_VHT2SS_MCS1, MGN_VHT2SS_MCS2, MGN_VHT2SS_MCS3, MGN_VHT2SS_MCS4,
    MGN_VHT2SS_MCS5, MGN_VHT2SS_MCS6, MGN_VHT2SS_MCS7, MGN_VHT2SS_MCS8, MGN_VHT2SS_MCS9],
   [MGN_VHT3SS_MCS0, MGN_VHT3SS_MCS1, MGN_VHT3SS_MCS2, MGN_VHT3SS_MCS3, MGN_VHT3SS_MCS4,
    MGN_VHT3SS_MCS5, MGN_VHT3SS_MCS6, MGN_VHT3SS_MCS7, MGN_VHT3SS_MCS8, MGN_VHT3SS_MCS9],
   [MGN_VHT4SS_MCS0, MGN_VHT4SS_MCS1, MGN_VHT4SS_MCS2, MGN_VHT4SS_MCS3, MGN_VHT4SS_MCS4,
    MGN_VHT4SS_MCS5, MGN_VHT4SS_MCS6, MGN_VHT4SS_MCS7, MGN_VHT4SS_MCS8, MGN_VHT4SS_MCS9]]

/-- The MCS index of a VHT rate: its position in the list of its number of spatial streams,
whichever that number is. -/
def vht_mcs_index (rate : MGN_RATE) : Option Nat :=
  (vht_rates.find? (fun l => l.contains rate)).map (fun l => l.indexOf rate)

/-- Stated 20 MHz sensitivity of a rate: the legacy table; for an HT rate the MCS table at
the HT index modulo 8; for a VHT rate the MCS table at its MCS index, independent of the
number of spatial streams; nothing for any other rate. -/
def stated_base (rate : MGN_RATE) : Option Int :=
  match stated_legacy_base rate with
  | some b => some b
  | none =>
    if ht_rates.contains rate then stated_mcs_base.get? (ht_rates.indexOf rate % 8)
    else
      match vht_mcs_index rate with
      | some i => stated_mcs_base.get? i
      | none => none

/-- Stated number of bandwidth doublings: `0, 1, 2, 3` for 20, 40, 80, 160 MHz; nothing for
any other bandwidth. -/
def stated_bw_doublings : channel_width → Option Int
  | CHANNEL_WIDTH_20 => some 0
  | CHANNEL_WIDTH_40 => some 1
  | CHANNEL_WIDTH_80 => some 2
  | CHANNEL_WIDTH_160 => some 3
  | _ => none

/-- The values of `enum band_type` that the channel helpers distinguish. -/
inductive band_type where
  | BAND_ON_24G
  | BAND_ON_5G
  | BAND_ON_6G
  | BAND_MAX
  deriving DecidableEq, Repr

open band_type

/-- The fields of `struct rtw_ieee80211_channel` that the channel helpers assign. -/
structure rtw_ieee80211_channel where
  hw_value : Nat
  band : band_type
  deriving DecidableEq, Repr

/-- The caller's array `pch_set`, as a map from index to entry. The map is total so that a
write past the capacity the caller announced would show up as a change at that index. -/
abbrev ch_array := Nat → rtw_ieee80211_channel

/-- The assignment of both fields of `pch_set[k]`. -/
def store_ch (pch_set : ch_array) (k : Nat) (v : rtw_ieee80211_channel) : ch_array :=
  fun i => if i = k then v else pch_set i

/-- The fields of `struct _RT_OPERATING_CLASS`: an AP channel report. `Len` is the number
of channels listed in `Channel`. -/
structure RT_OPERATING_CLASS where
  global_op_class : Nat
  Len : Nat
  Channel : List Nat

/-- The fields of `struct bcn_req_opt` read by `rm_get_ch_set_from_bcn_req_opt`; a `NULL`
entry of `ap_ch_rpt` is `none`, and so is every entry past the ones given. -/
structure bcn_req_opt where
  ap_ch_rpt_num : Nat
  ap_ch_rpt : List (Option RT_OPERATING_CLASS)

/-- The inner loop of `rm_get_ch_set_from_bcn_req_opt`,
`for (j = 0; j < ap_ch_rpt->Len; j++) { pch_set[k] = ...; k++; }`, with `n` iterations left:
the final `k` and array. -/
def bcn_req_copy (ap_ch_rpt : RT_OPERATING_CLASS) (band : band_type) :
    Nat → Nat → Nat → ch_array → Nat × ch_array
  | 0, _, k, pch_set => (k, pch_set)
  | n + 1, j, k, pch_set =>
    bcn_req_copy ap_ch_rpt band n (j + 1) (k + 1)
      (store_ch pch_set k ⟨ap_ch_rpt.Channel.getD j 0, band⟩)

/-- The outer loop of `rm_get_ch_set_from_bcn_req_opt`,
`for (i = 0; i < opt->ap_ch_rpt_num; i++)`, with `n` iterations left: the value of `k` when
the function returns, and the array. `band_of` is `rtw_get_band_by_op_class`, which is not
part of the sources at hand. -/
def bcn_req_loop (band_of : Nat → band_type) (opt : bcn_req_opt) (pch_num : Nat) :
    Nat → Nat → Nat → ch_array → Nat × ch_array
  | 0, _, k, pch_set => (k, pch_set)
  | n + 1, i, k, pch_set =>
    match opt.ap_ch_rpt.getD i none with
    | none => (k, pch_set)
    | some ap_ch_rpt =>
      let band :=
        if band_of ap_ch_rpt.global_op_class = BAND_MAX then BAND_ON_24G
        else band_of ap_ch_rpt.global_op_class
      if k + ap_ch_rpt.Len > pch_num then (k, pch_set)
      else
        let r := bcn_req_copy ap_ch_rpt band ap_ch_rpt.Len 0 k pch_set
        bcn_req_loop band_of opt pch_num n (i + 1) r.1 r.2

/-- Embedding of `rm_get_ch_set_from_bcn_req_opt`: the `u8` return value, which is the
`int` counter `k` converted to `u8`, and the array after the call. -/
def rm_get_ch_set_from_bcn_req_opt (band_of : Nat → band_type) (opt : bcn_req_opt)
    (pch_set : ch_array) (pch_num : Nat) : Nat × ch_array :=
  let r := bcn_req_loop band_of opt pch_num opt.ap_ch_rpt_num 0 0 pch_set
  (r.1 % 256, r.2)

/-- Stated candidates: the reports before the first `NULL` entry, at most `ap_ch_rpt_num`
of them, in order. -/
def stated_candidates (opt : bcn_req_opt) : List RT_OPERATING_CLASS :=
  ((opt.ap_ch_rpt.take opt.ap_ch_rpt_num).takeWhile Option.isSome).reduceOption

/-- Stated selection: the reports taken in order, stopping at the first one whose `Len`
would make the running total exceed `pch_num`. -/
def stated_taken (pch_num : Nat) : Nat → List RT_OPERATING_CLASS → List RT_OPERATING_CLASS
  | _, [] => []
  | total, r :: rest =>
    if total + r.Len > pch_num then [] else r :: stated_taken pch_num (total + r.Len) rest

/-- Stated band of a report: the band of its operating class, or `BAND_ON_24G` when
`rtw_get_band_by_op_class` yields `BAND_MAX`. -/
def stated_band (band_of : Nat → band_type) (r : RT_OPERATING_CLASS) : band_type :=
  if band_of r.global_op_class = BAND_MAX then BAND_ON_24G else band_of r.global_op_class

/-- Stated entries of one report: its channels `Channel[0 .. Len-1]`, each with the band of
the report. -/
def stated_entries (band_of : Nat → band_type) (r : RT_OPERATING_CLASS) :
    List rtw_ieee80211_channel :=
  (List.range r.Len).map (fun j => ⟨r.Channel.getD j 0, stated_band band_of r⟩)

/-- The fields of `struct op_class_t` behind the macros used by `rm_get_ch_set`:
`OPC_CH_LIST_LEN` is the length of `ch_list` and `OPC_CH_LIST_CH(_, i)` its entry `i`. -/
structure op_class_t where
  band : band_type
  ch_list : List Nat

instance : Inhabited op_class_t := ⟨⟨BAND_MAX, []⟩⟩

/-- The loop of `rm_get_ch_set`, `for (i = 0; i < OPC_CH_LIST_LEN(...); i++)`, with `n`
iterations left: the final `i` and array. -/
def rm_get_ch_set_copy (e : op_class_t) : Nat → Nat → ch_array → Nat × ch_array
  | 0, i, pch_set => (i, pch_set)
  | n + 1, i, pch_set =>
    rm_get_ch_set_copy e n (i + 1) (store_ch pch_set i ⟨e.ch_list.getD i 0, e.band⟩)

/-- Embedding of `rm_get_ch_set`. `opc` is the pointer returned by
`get_global_op_class_by_id(op_class)`, given as its distance in bytes from the start of the
table `global_op_class` (a `NULL` pointer lies below the table, so its distance is
negative); `sizeof_op_class_t` is `sizeof(struct op_class_t)`. Returns the `u8` return
value and the array after the call. -/
def rm_get_ch_set (global_op_class : List op_class_t) (sizeof_op_class_t : Nat) (opc : Int)
    (pch_set : ch_array) (pch_num : Nat) : Nat × ch_array :=
  if opc < 0 ∨ opc % (sizeof_op_class_t : Int) ≠ 0 then (0, pch_set)
  else
    let array_idx := (opc / (sizeof_op_class_t : Int)).toNat
    let e := global_op_class.getD array_idx default
    if pch_num < e.ch_list.length then (0, pch_set)
    else
      let r := rm_get_ch_set_copy e e.ch_list.length 0 pch_set
      (r.1 % 256, r.2)

/-- An option set for worked instances: reports with 2, 1 and 3 channels, then a `NULL`
entry; the third report has an operating class without a band. -/
def sample_opt : bcn_req_opt where
  ap_ch_rpt_num := 4
  ap_ch_rpt := [some ⟨81, 2, [1, 6]⟩, some ⟨115, 1, [36]⟩, some ⟨0, 3, [40, 44, 48]⟩, none]

/-- A band lookup for worked instances. -/
def sample_band_of (op_class : Nat) : band_type :=
  if op_class = 81 then BAND_ON_24G else if op_class = 115 then BAND_ON_5G else BAND_MAX

/-- An array for worked instances, every entry `(0, BAND_MAX)`. -/
def sample_pch_set : ch_array := fun _ => ⟨0, BAND_MAX⟩

/-- A table of two operating classes for worked instances. -/
def sample_global_op_class : List op_class_t :=
  [⟨BAND_ON_24G, [1, 2, 3]⟩, ⟨BAND_ON_5G, [36, 40, 44, 48]⟩]

end RtwRm

namespace Admaif

open admaif_path

/-! ## Lemmas on the register arithmetic -/

theorem u32_of_lt {n : Nat} (hn : n < 4294967296) : u32 n = n := by
  unfold u32; omega

theorem u32_lt (n : Nat) : u32 n < 4294967296 := by
  unfold u32; omega

theorem rx_max_lt (h : admaif_hdr) (soc : tegra_admaif_soc_data) :
    rx_max h soc < 4294967296 := u32_lt _

theorem tx_max_lt (h : admaif_hdr) (soc : tegra_admaif_soc_data) :
    tx_max h soc < 4294967296 := u32_lt _

/-- Moving one stride up inside a channel range does not change the per-channel offset. -/
theorem offset_add_stride (s base reg : Nat) (hb : base ≤ reg)
    (hlt : reg + s < 4294967296) :
    u32 (reg + s - base) % s = u32 (reg - base) % s := by
  rw [u32_of_lt (by omega), u32_of_lt (by omega)]
  have : reg + s - base = (reg - base) + s := by omega
  rw [this, Nat.add_mod_right]

theorem wr_reg_periodic_rx (h : admaif_hdr) (soc : tegra_admaif_soc_data) (reg : Nat)
    (h1 : in_rx_range h soc reg)
    (h2 : in_rx_range h soc (reg + h.TEGRA_ADMAIF_CHANNEL_REG_STRIDE)) :
    tegra_admaif_wr_reg h soc (reg + h.TEGRA_ADMAIF_CHANNEL_REG_STRIDE)
      = tegra_admaif_wr_reg h soc reg := by
  have hlt := rx_max_lt h soc
  have key := offset_add_stride h.TEGRA_ADMAIF_CHANNEL_REG_STRIDE soc.rx_base reg h1.1
    (by have := h2.2; omega)
  unfold in_rx_range at h1 h2
  simp only [tegra_admaif_wr_reg, if_pos h1, if_pos h2, key]

theorem rd_reg_periodic_rx (h : admaif_hdr) (soc : tegra_admaif_soc_data) (reg : Nat)
    (h1 : in_rx_range h soc reg)
    (h2 : in_rx_range h soc (reg + h.TEGRA_ADMAIF_CHANNEL_REG_STRIDE)) :
    tegra_admaif_rd_reg h soc (reg + h.TEGRA_ADMAIF_CHANNEL_REG_STRIDE)
      = tegra_admaif_rd_reg h soc reg := by
  have hlt := rx_max_lt h soc
  have key := offset_add_stride h.TEGRA_ADMAIF_CHANNEL_REG_STRIDE soc.rx_base reg h1.1
    (by have := h2.2; omega)
  unfold in_rx_range at h1 h2
  simp only [tegra_admaif_rd_reg, if_pos h1, if_pos h2, key]

theorem volatile_reg_periodic_rx (h : admaif_hdr) (soc : tegra_admaif_soc_data) (reg : Nat)
    (h1 : in_rx_range h soc reg)
    (h2 : in_rx_range h soc (reg + h.TEGRA_ADMAIF_CHANNEL_REG_STRIDE)) :
    tegra_admaif_volatile_reg h soc (reg + h.TEGRA_ADMAIF_CHANNEL_REG_STRIDE)
      = tegra_admaif_volatile_reg h soc reg := by
  have hlt := rx_max_lt h soc
  have key := offset_add_stride h.TEGRA_ADMAIF_CHANNEL_REG_STRIDE soc.rx_base reg h1.1
    (by have := h2.2; omega)
  unfold in_rx_range at h1 h2
  simp only [tegra_admaif_volatile_reg, if_pos h1, if_pos h2, key]

theorem wr_reg_periodic_tx (h : admaif_hdr) (soc : tegra_admaif_soc_data) (reg : Nat)
    (n1 : ¬ in_rx_range h soc reg)
    (n2 : ¬ in_rx_range h soc (reg + h.TEGRA_ADMAIF_CHANNEL_REG_STRIDE))
    (h1 : in_tx_range h soc reg)
    (h2 : in_tx_range h soc (reg + h.TEGRA_ADMAIF_CHANNEL_REG_STRIDE)) :
    tegra_admaif_wr_reg h soc (reg + h.TEGRA_ADMAIF_CHANNEL_REG_STRIDE)
      = tegra_admaif_wr_reg h soc reg := by
  have hlt := tx_max_lt h soc
  have key := offset_add_stride h.TEGRA_ADMAIF_CHANNEL_REG_STRIDE soc.tx_base reg h1.1
    (by have := h2.2; omega)
  unfold in_rx_range at n1 n2
  unfold in_tx_range at h1 h2
  simp only [tegra_admaif_wr_reg, if_neg n1, if_neg n2, if_pos h1, if_pos h2, key]

theorem rd_reg_periodic_tx (h : admaif_hdr) (soc : tegra_admaif_soc_data) (reg : Nat)
    (n1 : ¬ in_rx_range h soc reg)
    (n2 : ¬ in_rx_range h soc (reg + h.TEGRA_ADMAIF_CHANNEL_REG_STRIDE))
    (h1 : in_tx_range h soc reg)
    (h2 : in_tx_range h soc (reg + h.TEGRA_ADMAIF_CHANNEL_REG_STRIDE)) :
    tegra_admaif_rd_reg h soc (reg + h.TEGRA_ADMAIF_CHANNEL_REG_STRIDE)
      = tegra_admaif_rd_reg h soc reg := by
  have hlt := tx_max_lt h soc
  have key := offset_add_stride h.TEGRA_ADMAIF_CHANNEL_REG_STRIDE soc.tx_base reg h1.1
    (by have := h2.2; omega)
  unfold in_rx_range at n1 n2
  unfold in_tx_range at h1 h2
  simp only [tegra_admaif_rd_reg, if_neg n1, if_neg n2, if_pos h1, if_pos h2, key]

theorem volatile_reg_periodic_tx (h : admaif_hdr) (soc : tegra_admaif_soc_data) (reg : Nat)
    (n1 : ¬ in_rx_range h soc reg)
    (n2 : ¬ in_rx_range h soc (reg + h.TEGRA_ADMAIF_CHANNEL_REG_STRIDE))
    (h1 : in_tx_range h soc reg)
    (h2 : in_tx_range h soc (reg + h.TEGRA_ADMAIF_CHANNEL_REG_STRIDE)) :
    tegra_admaif_volatile_reg h soc (reg + h.TEGRA_ADMAIF_CHANNEL_REG_STRIDE)
      = tegra_admaif_volatile_reg h soc reg := by
  have hlt := tx_max_lt h soc
  have key := offset_add_stride h.TEGRA_ADMAIF_CHANNEL_REG_STRIDE soc.tx_base reg h1.1
    (by have := h2.2; omega)
  unfold in_rx_range at n1 n2
  unfold in_tx_range at h1 h2
  simp only [tegra_admaif_volatile_reg, if_neg n1, if_neg n2, if_pos h1, if_pos h2, key]

/-- C1: the register classification is per-channel periodic. For each of
`tegra_admaif_wr_reg`, `tegra_admaif_rd_reg` and `tegra_admaif_volatile_reg`, for every SoC
data whose RX and TX channel ranges share no register, and every register `reg` such that
`reg` and `reg + TEGRA_ADMAIF_CHANNEL_REG_STRIDE` both lie in the RX channel range, or both
in the TX channel range, the classifier gives the same answer at `reg` and at
`reg + TEGRA_ADMAIF_CHANNEL_REG_STRIDE`. -/
theorem C1_classification_periodic (h : admaif_hdr) (soc : tegra_admaif_soc_data) (reg : Nat)
    (hdisj : ∀ r, ¬ (in_rx_range h soc r ∧ in_tx_range h soc r))
    (hrange :
      (in_rx_range h soc reg ∧ in_rx_range h soc (reg + h.TEGRA_ADMAIF_CHANNEL_REG_STRIDE)) ∨
      (in_tx_range h soc reg ∧ in_tx_range h soc (reg + h.TEGRA_ADMAIF_CHANNEL_REG_STRIDE))) :
    tegra_admaif_wr_reg h soc (reg + h.TEGRA_ADMAIF_CHANNEL_REG_STRIDE)
        = tegra_admaif_wr_reg h soc reg ∧
    tegra_admaif_rd_reg h soc (reg + h.TEGRA_ADMAIF_CHANNEL_REG_STRIDE)
        = tegra_admaif_rd_reg h soc reg ∧
    tegra_admaif_volatile_reg h soc (reg + h.TEGRA_ADMAIF_CHANNEL_REG_STRIDE)
        = tegra_admaif_volatile_reg h soc reg := by
  rcases hrange with ⟨h1, h2⟩ | ⟨h1, h2⟩
  · exact ⟨wr_reg_periodic_rx h soc reg h1 h2, rd_reg_periodic_rx h soc reg h1 h2,
      volatile_reg_periodic_rx h soc reg h1 h2⟩
  · have n1 : ¬ in_rx_range h soc reg := fun hr => hdisj _ ⟨hr, h1⟩
    have n2 : ¬ in_rx_range h soc (reg + h.TEGRA_ADMAIF_CHANNEL_REG_STRIDE) :=
      fun hr => hdisj _ ⟨hr, h2⟩
    exact ⟨wr_reg_periodic_tx h soc reg n1 n2 h1 h2, rd_reg_periodic_tx h soc reg n1 n2 h1 h2,
      volatile_reg_periodic_tx h soc reg n1 n2 h1 h2⟩

theorem sample_ranges (r : Nat) :
    (in_rx_range sample_hdr sample_soc r ↔ r < 0x280) ∧
    (in_tx_range sample_hdr sample_soc r ↔ 0x300 ≤ r ∧ r < 0x580) := by
  simp [in_rx_range, in_tx_range, rx_max, tx_max, sample_hdr, sample_soc, u32]

theorem sample_disjoint (r : Nat) :
    ¬ (in_rx_range sample_hdr sample_soc r ∧ in_tx_range sample_hdr sample_soc r) := by
  rw [(sample_ranges r).1, (sample_ranges r).2]; omega

/-- Instance of C1: the TX soft-reset register of channel 2 (`0x384`) against that of
channel 3 (`0x3c4`) in the sample layout; both are writeable, readable and volatile. -/
theorem C1_classification_periodic_witness :
    (tegra_admaif_wr_reg sample_hdr sample_soc (0x384 + 0x40)
        = tegra_admaif_wr_reg sample_hdr sample_soc 0x384 ∧
     tegra_admaif_rd_reg sample_hdr sample_soc (0x384 + 0x40)
        = tegra_admaif_rd_reg sample_hdr sample_soc 0x384 ∧
     tegra_admaif_volatile_reg sample_hdr sample_soc (0x384 + 0x40)
        = tegra_admaif_volatile_reg sample_hdr sample_soc 0x384) ∧
    tegra_admaif_wr_reg sample_hdr sample_soc 0x384 = true :=
  ⟨C1_classification_periodic sample_hdr sample_soc 0x384 sample_disjoint
      (Or.inr ⟨by decide, by decide⟩),
    by decide⟩

/-! ## Registers addressed by the channel macros -/

/-- Under the no-wrap conditions, `CH_REG(base, off, id)` of a channel `id < n` lies in
`[base, base + n * stride)` and its per-channel offset is `off`. -/
theorem ch_reg_spec (h : admaif_hdr) (base off id n : Nat)
    (hoff : off < h.TEGRA_ADMAIF_CHANNEL_REG_STRIDE) (hid : id < n)
    (hw : base + n * h.TEGRA_ADMAIF_CHANNEL_REG_STRIDE < 4294967296) :
    base ≤ CH_REG h base off id ∧
    CH_REG h base off id < u32 (base + u32 (n * h.TEGRA_ADMAIF_CHANNEL_REG_STRIDE)) ∧
    u32 (CH_REG h base off id - base) % h.TEGRA_ADMAIF_CHANNEL_REG_STRIDE = off := by
  have hm : h.TEGRA_ADMAIF_CHANNEL_REG_STRIDE * (id + 1)
      ≤ h.TEGRA_ADMAIF_CHANNEL_REG_STRIDE * n := Nat.mul_le_mul_left _ hid
  rw [Nat.mul_succ, Nat.mul_comm _ n] at hm
  have e1 : CH_REG h base off id = base + off + h.TEGRA_ADMAIF_CHANNEL_REG_STRIDE * id := by
    unfold CH_REG; exact u32_of_lt (by omega)
  have e2 : u32 (base + u32 (n * h.TEGRA_ADMAIF_CHANNEL_REG_STRIDE))
      = base + n * h.TEGRA_ADMAIF_CHANNEL_REG_STRIDE := by
    rw [u32_of_lt (n := n * h.TEGRA_ADMAIF_CHANNEL_REG_STRIDE) (by omega), u32_of_lt hw]
  have e3 : base + off + h.TEGRA_ADMAIF_CHANNEL_REG_STRIDE * id - base
      = off + h.TEGRA_ADMAIF_CHANNEL_REG_STRIDE * id := by omega
  refine ⟨by omega, by omega, ?_⟩
  rw [e1, e3, u32_of_lt (by omega), Nat.add_mul_mod_self_left, Nat.mod_eq_of_lt hoff]

theorem rx_reg_spec (h : admaif_hdr) (soc : tegra_admaif_soc_data) (off id : Nat)
    (hl : layout_ok h soc) (hoff : off < h.TEGRA_ADMAIF_CHANNEL_REG_STRIDE)
    (hid : id < soc.num_ch) :
    in_rx_range h soc (CH_RX_REG h soc off id) ∧
    u32 (CH_RX_REG h soc off id - soc.rx_base) % h.TEGRA_ADMAIF_CHANNEL_REG_STRIDE = off := by
  obtain ⟨a, b, c⟩ := ch_reg_spec h soc.rx_base off id soc.num_ch hoff hid hl.rx_no_wrap
  exact ⟨⟨a, b⟩, c⟩

theorem tx_reg_spec (h : admaif_hdr) (soc : tegra_admaif_soc_data) (off id : Nat)
    (hl : layout_ok h soc) (hoff : off < h.TEGRA_ADMAIF_CHANNEL_REG_STRIDE)
    (hid : id < soc.num_ch) :
    ¬ in_rx_range h soc (CH_TX_REG h soc off id) ∧
    in_tx_range h soc (CH_TX_REG h soc off id) ∧
    u32 (CH_TX_REG h soc off id - soc.tx_base) % h.TEGRA_ADMAIF_CHANNEL_REG_STRIDE = off := by
  obtain ⟨a, b, c⟩ := ch_reg_spec h soc.tx_base off id soc.num_ch hoff hid hl.tx_no_wrap
  have hin : in_tx_range h soc (CH_TX_REG h soc off id) := ⟨a, b⟩
  exact ⟨fun hr => hl.rx_tx_disjoint _ ⟨hr, hin⟩, hin, c⟩

theorem wr_reg_rx_offset (h : admaif_hdr) (soc : tegra_admaif_soc_data) (reg : Nat)
    (hin : in_rx_range h soc reg)
    (hoff : u32 (reg - soc.rx_base) % h.TEGRA_ADMAIF_CHANNEL_REG_STRIDE
        = h.TEGRA_ADMAIF_RX_ENABLE ∨
      u32 (reg - soc.rx_base) % h.TEGRA_ADMAIF_CHANNEL_REG_STRIDE
        = h.TEGRA_ADMAIF_RX_FIFO_CTRL ∨
      u32 (reg - soc.rx_base) % h.TEGRA_ADMAIF_CHANNEL_REG_STRIDE
        = h.TEGRA_ADMAIF_RX_SOFT_RESET ∨
      u32 (reg - soc.rx_base) % h.TEGRA_ADMAIF_CHANNEL_REG_STRIDE
        = h.TEGRA_ADMAIF_CH_ACIF_RX_CTRL) :
    tegra_admaif_wr_reg h soc reg = true := by
  unfold in_rx_range at hin
  simp only [tegra_admaif_wr_reg, if_pos hin, if_pos hoff]

theorem wr_reg_tx_offset (h : admaif_hdr) (soc : tegra_admaif_soc_data) (reg : Nat)
    (hn : ¬ in_rx_range h soc reg) (hin : in_tx_range h soc reg)
    (hoff : u32 (reg - soc.tx_base) % h.TEGRA_ADMAIF_CHANNEL_REG_STRIDE
        = h.TEGRA_ADMAIF_TX_ENABLE ∨
      u32 (reg - soc.tx_base) % h.TEGRA_ADMAIF_CHANNEL_REG_STRIDE
        = h.TEGRA_ADMAIF_TX_FIFO_CTRL ∨
      u32 (reg - soc.tx_base) % h.TEGRA_ADMAIF_CHANNEL_REG_STRIDE
        = h.TEGRA_ADMAIF_TX_SOFT_RESET ∨
      u32 (reg - soc.tx_base) % h.TEGRA_ADMAIF_CHANNEL_REG_STRIDE
        = h.TEGRA_ADMAIF_CH_ACIF_TX_CTRL) :
    tegra_admaif_wr_reg h soc reg = true := by
  unfold in_rx_range at hn
  unfold in_tx_range at hin
  simp only [tegra_admaif_wr_reg, if_neg hn, if_pos hin, if_pos hoff]

theorem wr_reg_global_enable (h : admaif_hdr) (soc : tegra_admaif_soc_data)
    (hl : layout_ok h soc) :
    tegra_admaif_wr_reg h soc (u32 (soc.global_base + h.TEGRA_ADMAIF_GLOBAL_ENABLE))
      = true := by
  have hg := hl.global_enable_in_range
  obtain ⟨n1, n2⟩ := hl.global_disjoint _ hg
  unfold in_rx_range at n1
  unfold in_tx_range at n2
  unfold in_global_range at hg
  simp only [tegra_admaif_wr_reg, if_neg n1, if_neg n2, if_pos hg, if_true]

/-- C2: every register the driver writes is classified writeable. For a register layout
with the properties of the Tegra210 and Tegra186 SoC data (per-channel offsets below the
channel stride, RX, TX and global ranges disjoint and not wrapping) and every channel
`id < num_ch`, `tegra_admaif_wr_reg` is true for the CIF control register written by
`tegra_admaif_hw_params`, the enable register written by `tegra_admaif_start` and
`tegra_admaif_stop`, the soft-reset register written by `tegra_admaif_stop`, each in the TX
and in the RX direction, and for `global_base + TEGRA_ADMAIF_GLOBAL_ENABLE` written by
`tegra_admaif_probe`. -/
theorem C2_written_registers_writeable (h : admaif_hdr) (soc : tegra_admaif_soc_data)
    (id : Nat) (hl : layout_ok h soc) (hid : id < soc.num_ch) :
    tegra_admaif_wr_reg h soc (CH_TX_REG h soc h.TEGRA_ADMAIF_CH_ACIF_TX_CTRL id) = true ∧
    tegra_admaif_wr_reg h soc (CH_RX_REG h soc h.TEGRA_ADMAIF_CH_ACIF_RX_CTRL id) = true ∧
    tegra_admaif_wr_reg h soc (CH_TX_REG h soc h.TEGRA_ADMAIF_TX_ENABLE id) = true ∧
    tegra_admaif_wr_reg h soc (CH_RX_REG h soc h.TEGRA_ADMAIF_RX_ENABLE id) = true ∧
    tegra_admaif_wr_reg h soc (CH_TX_REG h soc h.TEGRA_ADMAIF_TX_SOFT_RESET id) = true ∧
    tegra_admaif_wr_reg h soc (CH_RX_REG h soc h.TEGRA_ADMAIF_RX_SOFT_RESET id) = true ∧
    tegra_admaif_wr_reg h soc (u32 (soc.global_base + h.TEGRA_ADMAIF_GLOBAL_ENABLE))
      = true := by
  refine ⟨?_, ?_, ?_, ?_, ?_, ?_, wr_reg_global_enable h soc hl⟩
  · obtain ⟨a, b, c⟩ := tx_reg_spec h soc _ id hl hl.tx_cif_ctrl_lt hid
    exact wr_reg_tx_offset h soc _ a b (Or.inr (Or.inr (Or.inr c)))
  · obtain ⟨a, c⟩ := rx_reg_spec h soc _ id hl hl.rx_cif_ctrl_lt hid
    exact wr_reg_rx_offset h soc _ a (Or.inr (Or.inr (Or.inr c)))
  · obtain ⟨a, b, c⟩ := tx_reg_spec h soc _ id hl hl.tx_enable_lt hid
    exact wr_reg_tx_offset h soc _ a b (Or.inl c)
  · obtain ⟨a, c⟩ := rx_reg_spec h soc _ id hl hl.rx_enable_lt hid
    exact wr_reg_rx_offset h soc _ a (Or.inl c)
  · obtain ⟨a, b, c⟩ := tx_reg_spec h soc _ id hl hl.tx_soft_reset_lt hid
    exact wr_reg_tx_offset h soc _ a b (Or.inr (Or.inr (Or.inl c)))
  · obtain ⟨a, c⟩ := rx_reg_spec h soc _ id hl hl.rx_soft_reset_lt hid
    exact wr_reg_rx_offset h soc _ a (Or.inr (Or.inr (Or.inl c)))

theorem sample_layout_ok : layout_ok sample_hdr sample_soc where
  rx_enable_lt := by decide
  rx_soft_reset_lt := by decide
  rx_status_lt := by decide
  rx_cif_ctrl_lt := by decide
  tx_enable_lt := by decide
  tx_soft_reset_lt := by decide
  tx_status_lt := by decide
  tx_cif_ctrl_lt := by decide
  rx_no_wrap := by decide
  tx_no_wrap := by decide
  rx_tx_disjoint := sample_disjoint
  global_disjoint := by
    intro r hr
    rw [(sample_ranges r).1, (sample_ranges r).2]
    simp [in_global_range, sample_soc] at hr
    omega
  global_enable_in_range := by decide

/-- Instance of C2: channel 9, the last channel of the ten-channel sample layout. -/
theorem C2_written_registers_writeable_witness :
    9 < sample_soc.num_ch ∧
    CH_TX_REG sample_hdr sample_soc sample_hdr.TEGRA_ADMAIF_CH_ACIF_TX_CTRL 9 = 0x560 ∧
    tegra_admaif_wr_reg sample_hdr sample_soc 0x560 = true ∧
    (tegra_admaif_wr_reg sample_hdr sample_soc
        (CH_TX_REG sample_hdr sample_soc sample_hdr.TEGRA_ADMAIF_CH_ACIF_TX_CTRL 9) = true ∧
     tegra_admaif_wr_reg sample_hdr sample_soc
        (CH_RX_REG sample_hdr sample_soc sample_hdr.TEGRA_ADMAIF_CH_ACIF_RX_CTRL 9) = true ∧
     tegra_admaif_wr_reg sample_hdr sample_soc
        (CH_TX_REG sample_hdr sample_soc sample_hdr.TEGRA_ADMAIF_TX_ENABLE 9) = true ∧
     tegra_admaif_wr_reg sample_hdr sample_soc
        (CH_RX_REG sample_hdr sample_soc sample_hdr.TEGRA_ADMAIF_RX_ENABLE 9) = true ∧
     tegra_admaif_wr_reg sample_hdr sample_soc
        (CH_TX_REG sample_hdr sample_soc sample_hdr.TEGRA_ADMAIF_TX_SOFT_RESET 9) = true ∧
     tegra_admaif_wr_reg sample_hdr sample_soc
        (CH_RX_REG sample_hdr sample_soc sample_hdr.TEGRA_ADMAIF_RX_SOFT_RESET 9) = true ∧
     tegra_admaif_wr_reg sample_hdr sample_soc
        (u32 (sample_soc.global_base + sample_hdr.TEGRA_ADMAIF_GLOBAL_ENABLE)) = true) :=
  ⟨by decide, by decide, by decide,
    C2_written_registers_writeable sample_hdr sample_soc 9 sample_layout_ok (by decide)⟩

theorem rd_volatile_rx_offset (h : admaif_hdr) (soc : tegra_admaif_soc_data) (reg : Nat)
    (hin : in_rx_range h soc reg)
    (hoff : u32 (reg - soc.rx_base) % h.TEGRA_ADMAIF_CHANNEL_REG_STRIDE
        = h.TEGRA_ADMAIF_RX_STATUS ∨
      u32 (reg - soc.rx_base) % h.TEGRA_ADMAIF_CHANNEL_REG_STRIDE
        = h.TEGRA_ADMAIF_RX_SOFT_RESET) :
    tegra_admaif_rd_reg h soc reg = true ∧ tegra_admaif_volatile_reg h soc reg = true := by
  unfold in_rx_range at hin
  constructor
  · have hc : u32 (reg - soc.rx_base) % h.TEGRA_ADMAIF_CHANNEL_REG_STRIDE
          = h.TEGRA_ADMAIF_RX_ENABLE ∨
        u32 (reg - soc.rx_base) % h.TEGRA_ADMAIF_CHANNEL_REG_STRIDE
          = h.TEGRA_ADMAIF_RX_STATUS ∨
        u32 (reg - soc.rx_base) % h.TEGRA_ADMAIF_CHANNEL_REG_STRIDE
          = h.TEGRA_ADMAIF_RX_INT_STATUS ∨
        u32 (reg - soc.rx_base) % h.TEGRA_ADMAIF_CHANNEL_REG_STRIDE
          = h.TEGRA_ADMAIF_RX_FIFO_CTRL ∨
        u32 (reg - soc.rx_base) % h.TEGRA_ADMAIF_CHANNEL_REG_STRIDE
          = h.TEGRA_ADMAIF_RX_SOFT_RESET ∨
        u32 (reg - soc.rx_base) % h.TEGRA_ADMAIF_CHANNEL_REG_STRIDE
          = h.TEGRA_ADMAIF_CH_ACIF_RX_CTRL := by
      rcases hoff with e | e
      · exact Or.inr (Or.inl e)
      · exact Or.inr (Or.inr (Or.inr (Or.inr (Or.inl e))))
    simp only [tegra_admaif_rd_reg, if_pos hin, if_pos hc]
  · have hc : u32 (reg - soc.rx_base) % h.TEGRA_ADMAIF_CHANNEL_REG_STRIDE
          = h.TEGRA_ADMAIF_RX_ENABLE ∨
        u32 (reg - soc.rx_base) % h.TEGRA_ADMAIF_CHANNEL_REG_STRIDE
          = h.TEGRA_ADMAIF_RX_STATUS ∨
        u32 (reg - soc.rx_base) % h.TEGRA_ADMAIF_CHANNEL_REG_STRIDE
          = h.TEGRA_ADMAIF_RX_INT_STATUS ∨
        u32 (reg - soc.rx_base) % h.TEGRA_ADMAIF_CHANNEL_REG_STRIDE
          = h.TEGRA_ADMAIF_RX_SOFT_RESET := by
      rcases hoff with e | e
      · exact Or.inr (Or.inl e)
      · exact Or.inr (Or.inr (Or.inr e))
    simp only [tegra_admaif_volatile_reg, if_pos hin, if_pos hc]

theorem rd_volatile_tx_offset (h : admaif_hdr) (soc : tegra_admaif_soc_data) (reg : Nat)
    (hn : ¬ in_rx_range h soc reg) (hin : in_tx_range h soc reg)
    (hoff : u32 (reg - soc.tx_base) % h.TEGRA_ADMAIF_CHANNEL_REG_STRIDE
        = h.TEGRA_ADMAIF_TX_STATUS ∨
      u32 (reg - soc.tx_base) % h.TEGRA_ADMAIF_CHANNEL_REG_STRIDE
        = h.TEGRA_ADMAIF_TX_SOFT_RESET) :
    tegra_admaif_rd_reg h soc reg = true ∧ tegra_admaif_volatile_reg h soc reg = true := by
  unfold in_rx_range at hn
  unfold in_tx_range at hin
  constructor
  · have hc : u32 (reg - soc.tx_base) % h.TEGRA_ADMAIF_CHANNEL_REG_STRIDE
          = h.TEGRA_ADMAIF_TX_ENABLE ∨
        u32 (reg - soc.tx_base) % h.TEGRA_ADMAIF_CHANNEL_REG_STRIDE
          = h.TEGRA_ADMAIF_TX_STATUS ∨
        u32 (reg - soc.tx_base) % h.TEGRA_ADMAIF_CHANNEL_REG_STRIDE
          = h.TEGRA_ADMAIF_TX_INT_STATUS ∨
        u32 (reg - soc.tx_base) % h.TEGRA_ADMAIF_CHANNEL_REG_STRIDE
          = h.TEGRA_ADMAIF_TX_FIFO_CTRL ∨
        u32 (reg - soc.tx_base) % h.TEGRA_ADMAIF_CHANNEL_REG_STRIDE
          = h.TEGRA_ADMAIF_TX_SOFT_RESET ∨
        u32 (reg - soc.tx_base) % h.TEGRA_ADMAIF_CHANNEL_REG_STRIDE
          = h.TEGRA_ADMAIF_CH_ACIF_TX_CTRL := by
      rcases hoff with e | e
      · exact Or.inr (Or.inl e)
      · exact Or.inr (Or.inr (Or.inr (Or.inr (Or.inl e))))
    simp only [tegra_admaif_rd_reg, if_neg hn, if_pos hin, if_pos hc]
  · have hc : u32 (reg - soc.tx_base) % h.TEGRA_ADMAIF_CHANNEL_REG_STRIDE
          = h.TEGRA_ADMAIF_TX_ENABLE ∨
        u32 (reg - soc.tx_base) % h.TEGRA_ADMAIF_CHANNEL_REG_STRIDE
          = h.TEGRA_ADMAIF_TX_STATUS ∨
        u32 (reg - soc.tx_base) % h.TEGRA_ADMAIF_CHANNEL_REG_STRIDE
          = h.TEGRA_ADMAIF_TX_INT_STATUS ∨
        u32 (reg - soc.tx_base) % h.TEGRA_ADMAIF_CHANNEL_REG_STRIDE
          = h.TEGRA_ADMAIF_TX_SOFT_RESET := by
      rcases hoff with e | e
      · exact Or.inr (Or.inl e)
      · exact Or.inr (Or.inr (Or.inr e))
    simp only [tegra_admaif_volatile_reg, if_neg hn, if_pos hin, if_pos hc]

/-- C3: every register that `tegra_admaif_stop` polls is readable and volatile. For a
register layout with the properties of the Tegra210 and Tegra186 SoC data and every channel
`id < num_ch`, `tegra_admaif_rd_reg` and `tegra_admaif_volatile_reg` are both true for the
TX and RX status registers and for the TX and RX soft-reset registers of that channel. -/
theorem C3_polled_registers_readable_volatile (h : admaif_hdr) (soc : tegra_admaif_soc_data)
    (id : Nat) (hl : layout_ok h soc) (hid : id < soc.num_ch) :
    (tegra_admaif_rd_reg h soc (CH_TX_REG h soc h.TEGRA_ADMAIF_TX_STATUS id) = true ∧
      tegra_admaif_volatile_reg h soc (CH_TX_REG h soc h.TEGRA_ADMAIF_TX_STATUS id) = true) ∧
    (tegra_admaif_rd_reg h soc (CH_RX_REG h soc h.TEGRA_ADMAIF_RX_STATUS id) = true ∧
      tegra_admaif_volatile_reg h soc (CH_RX_REG h soc h.TEGRA_ADMAIF_RX_STATUS id) = true) ∧
    (tegra_admaif_rd_reg h soc (CH_TX_REG h soc h.TEGRA_ADMAIF_TX_SOFT_RESET id) = true ∧
      tegra_admaif_volatile_reg h soc (CH_TX_REG h soc h.TEGRA_ADMAIF_TX_SOFT_RESET id)
        = true) ∧
    (tegra_admaif_rd_reg h soc (CH_RX_REG h soc h.TEGRA_ADMAIF_RX_SOFT_RESET id) = true ∧
      tegra_admaif_volatile_reg h soc (CH_RX_REG h soc h.TEGRA_ADMAIF_RX_SOFT_RESET id)
        = true) := by
  refine ⟨?_, ?_, ?_, ?_⟩
  · obtain ⟨a, b, c⟩ := tx_reg_spec h soc _ id hl hl.tx_status_lt hid
    exact rd_volatile_tx_offset h soc _ a b (Or.inl c)
  · obtain ⟨a, c⟩ := rx_reg_spec h soc _ id hl hl.rx_status_lt hid
    exact rd_volatile_rx_offset h soc _ a (Or.inl c)
  · obtain ⟨a, b, c⟩ := tx_reg_spec h soc _ id hl hl.tx_soft_reset_lt hid
    exact rd_volatile_tx_offset h soc _ a b (Or.inr c)
  · obtain ⟨a, c⟩ := rx_reg_spec h soc _ id hl hl.rx_soft_reset_lt hid
    exact rd_volatile_rx_offset h soc _ a (Or.inr c)

/-- Instance of C3: channel 0 of the sample layout, whose TX status register is `0x30c`. -/
theorem C3_polled_registers_readable_volatile_witness :
    0 < sample_soc.num_ch ∧
    CH_TX_REG sample_hdr sample_soc sample_hdr.TEGRA_ADMAIF_TX_STATUS 0 = 0x30c ∧
    tegra_admaif_volatile_reg sample_hdr sample_soc 0x30c = true ∧
    ((tegra_admaif_rd_reg sample_hdr sample_soc
        (CH_TX_REG sample_hdr sample_soc sample_hdr.TEGRA_ADMAIF_TX_STATUS 0) = true ∧
      tegra_admaif_volatile_reg sample_hdr sample_soc
        (CH_TX_REG sample_hdr sample_soc sample_hdr.TEGRA_ADMAIF_TX_STATUS 0) = true) ∧
     (tegra_admaif_rd_reg sample_hdr sample_soc
        (CH_RX_REG sample_hdr sample_soc sample_hdr.TEGRA_ADMAIF_RX_STATUS 0) = true ∧
      tegra_admaif_volatile_reg sample_hdr sample_soc
        (CH_RX_REG sample_hdr sample_soc sample_hdr.TEGRA_ADMAIF_RX_STATUS 0) = true) ∧
     (tegra_admaif_rd_reg sample_hdr sample_soc
        (CH_TX_REG sample_hdr sample_soc sample_hdr.TEGRA_ADMAIF_TX_SOFT_RESET 0) = true ∧
      tegra_admaif_volatile_reg sample_hdr sample_soc
        (CH_TX_REG sample_hdr sample_soc sample_hdr.TEGRA_ADMAIF_TX_SOFT_RESET 0) = true) ∧
     (tegra_admaif_rd_reg sample_hdr sample_soc
        (CH_RX_REG sample_hdr sample_soc sample_hdr.TEGRA_ADMAIF_RX_SOFT_RESET 0) = true ∧
      tegra_admaif_volatile_reg sample_hdr sample_soc
        (CH_RX_REG sample_hdr sample_soc sample_hdr.TEGRA_ADMAIF_RX_SOFT_RESET 0) = true)) :=
  ⟨by decide, by decide, by decide,
    C3_polled_registers_readable_volatile sample_hdr sample_soc 0 sample_layout_ok
      (by decide)⟩

/-! ## Mixer controls -/

theorem load_store_same (arr : admaif_path → List Nat) (p : admaif_path) (i v : Nat)
    (hi : i < (arr p).length) : load (store arr p i v) p i = v := by
  simp [load, store, hi]

theorem int_to_u32_to_s32 (v : Int) : int_to_u32 (to_s32 v) = int_to_u32 v := by
  unfold int_to_u32 to_s32
  congr 1
  omega

theorem int_to_u32_cast (v : Int) : ((int_to_u32 v : Nat) : Int) = v % 4294967296 := by
  unfold int_to_u32
  omega

theorem cast_eq_mod_iff (v : Int) (n : Nat) :
    int_to_u32 (to_s32 v) = n ↔ v % 4294967296 = (n : Int) := by
  rw [int_to_u32_to_s32, ← int_to_u32_cast]
  exact Int.ofNat_inj.symm

theorem pput_audio_ch_stored (a : tegra_admaif) (idx : Nat) (v : Int)
    (hi : idx < (a.audio_ch_override ADMAIF_TX_PATH).length) :
    load (tegra210_admaif_pput_audio_ch a idx v).1.audio_ch_override ADMAIF_TX_PATH idx
      = int_to_u32 (to_s32 v) := by
  unfold tegra210_admaif_pput_audio_ch
  simp only []
  split
  · next e => exact e.symm
  · exact load_store_same _ _ _ _ hi

theorem pput_audio_ch_reports_change (a : tegra_admaif) (idx : Nat) (v : Int)
    (hi : idx < (a.audio_ch_override ADMAIF_TX_PATH).length) :
    reports_change (fun s x => tegra210_admaif_pput_audio_ch s idx x)
      (fun s => (tegra210_admaif_pget_audio_ch s idx).1) (fun x => x % 4294967296) a v := by
  have hst := pput_audio_ch_stored a idx v hi
  have hc := cast_eq_mod_iff v (load a.audio_ch_override ADMAIF_TX_PATH idx)
  refine ⟨?_, ?_, ?_⟩
  · simp only [tegra210_admaif_pput_audio_ch, tegra210_admaif_pget_audio_ch]
    split
    · next e => simpa using hc.mp (e)
    · next e => simpa using fun q => e ((hc.mpr q))
  · intro q
    have e := hc.mpr q
    simp only [tegra210_admaif_pput_audio_ch]
    rw [if_pos (e)]
  · show (tegra210_admaif_pput_audio_ch (tegra210_admaif_pput_audio_ch a idx v).1 idx v).2 = 0
    generalize hb : (tegra210_admaif_pput_audio_ch a idx v).1 = b at hst
    simp only [tegra210_admaif_pput_audio_ch]
    rw [if_pos (hst.symm)]

theorem cput_audio_ch_stored (a : tegra_admaif) (idx : Nat) (v : Int)
    (hi : idx < (a.audio_ch_override ADMAIF_RX_PATH).length) :
    load (tegra210_admaif_cput_audio_ch a idx v).1.audio_ch_override ADMAIF_RX_PATH idx
      = int_to_u32 (to_s32 v) := by
  unfold tegra210_admaif_cput_audio_ch
  simp only []
  split
  · next e => exact e
  · exact load_store_same _ _ _ _ hi

theorem cput_audio_ch_reports_change (a : tegra_admaif) (idx : Nat) (v : Int)
    (hi : idx < (a.audio_ch_override ADMAIF_RX_PATH).length) :
    reports_change (fun s x => tegra210_admaif_cput_audio_ch s idx x)
      (fun s => (tegra210_admaif_cget_audio_ch s idx).1) (fun x => x % 4294967296) a v := by
  have hst := cput_audio_ch_stored a idx v hi
  have hc := cast_eq_mod_iff v (load a.audio_ch_override ADMAIF_RX_PATH idx)
  refine ⟨?_, ?_, ?_⟩
  · simp only [tegra210_admaif_cput_audio_ch, tegra210_admaif_cget_audio_ch]
    split
    · next e => simpa using hc.mp (e.symm)
    · next e => simpa using fun q => e ((hc.mpr q).symm)
  · intro q
    have e := hc.mpr q
    simp only [tegra210_admaif_cput_audio_ch]
    rw [if_pos (e.symm)]
  · show (tegra210_admaif_cput_audio_ch (tegra210_admaif_cput_audio_ch a idx v).1 idx v).2 = 0
    generalize hb : (tegra210_admaif_cput_audio_ch a idx v).1 = b at hst
    simp only [tegra210_admaif_cput_audio_ch]
    rw [if_pos (hst)]

theorem pput_client_ch_stored (a : tegra_admaif) (idx : Nat) (v : Int)
    (hi : idx < (a.client_ch_override ADMAIF_TX_PATH).length) :
    load (tegra210_admaif_pput_client_ch a idx v).1.client_ch_override ADMAIF_TX_PATH idx
      = int_to_u32 (to_s32 v) := by
  unfold tegra210_admaif_pput_client_ch
  simp only []
  split
  · next e => exact e
  · exact load_store_same _ _ _ _ hi

theorem pput_client_ch_reports_change (a : tegra_admaif) (idx : Nat) (v : Int)
    (hi : idx < (a.client_ch_override ADMAIF_TX_PATH).length) :
    reports_change (fun s x => tegra210_admaif_pput_client_ch s idx x)
      (fun s => (tegra210_admaif_pget_client_ch s idx).1) (fun x => x % 4294967296) a v := by
  have hst := pput_client_ch_stored a idx v hi
  have hc := cast_eq_mod_iff v (load a.client_ch_override ADMAIF_TX_PATH idx)
  refine ⟨?_, ?_, ?_⟩
  · simp only [tegra210_admaif_pput_client_ch, tegra210_admaif_pget_client_ch]
    split
    · next e => simpa using hc.mp (e.symm)
    · next e => simpa using fun q => e ((hc.mpr q).symm)
  · intro q
    have e := hc.mpr q
    simp only [tegra210_admaif_pput_client_ch]
    rw [if_pos (e.symm)]
  · show (tegra210_admaif_pput_client_ch (tegra210_admaif_pput_client_ch a idx v).1 idx v).2 = 0
    generalize hb : (tegra210_admaif_pput_client_ch a idx v).1 = b at hst
    simp only [tegra210_admaif_pput_client_ch]
    rw [if_pos (hst)]

theorem cput_client_ch_stored (a : tegra_admaif) (idx : Nat) (v : Int)
    (hi : idx < (a.client_ch_override ADMAIF_RX_PATH).length) :
    load (tegra210_admaif_cput_client_ch a idx v).1.client_ch_override ADMAIF_RX_PATH idx
      = int_to_u32 (to_s32 v) := by
  unfold tegra210_admaif_cput_client_ch
  simp only []
  split
  · next e => exact e
  · exact load_store_same _ _ _ _ hi

theorem cput_client_ch_reports_change (a : tegra_admaif) (idx : Nat) (v : Int)
    (hi : idx < (a.client_ch_override ADMAIF_RX_PATH).length) :
    reports_change (fun s x => tegra210_admaif_cput_client_ch s idx x)
      (fun s => (tegra210_admaif_cget_client_ch s idx).1) (fun x => x % 4294967296) a v := by
  have hst := cput_client_ch_stored a idx v hi
  have hc := cast_eq_mod_iff v (load a.client_ch_override ADMAIF_RX_PATH idx)
  refine ⟨?_, ?_, ?_⟩
  · simp only [tegra210_admaif_cput_client_ch, tegra210_admaif_cget_client_ch]
    split
    · next e => simpa using hc.mp (e.symm)
    · next e => simpa using fun q => e ((hc.mpr q).symm)
  · intro q
    have e := hc.mpr q
    simp only [tegra210_admaif_cput_client_ch]
    rw [if_pos (e.symm)]
  · show (tegra210_admaif_cput_client_ch (tegra210_admaif_cput_client_ch a idx v).1 idx v).2 = 0
    generalize hb : (tegra210_admaif_cput_client_ch a idx v).1 = b at hst
    simp only [tegra210_admaif_cput_client_ch]
    rw [if_pos (hst)]

theorem put_reg_dump_reports_change (a : tegra_admaif) (v : Int) :
    reports_change tegra210_admaif_put_reg_dump
      (fun s => (tegra210_admaif_get_reg_dump s).1) to_s32 a v := by
  refine ⟨?_, ?_, ?_⟩
  · simp only [tegra210_admaif_put_reg_dump, tegra210_admaif_get_reg_dump]
    split
    · next e => simp [e]
    · next e => simpa using fun q => e q.symm
  · intro q
    simp only [tegra210_admaif_get_reg_dump] at q
    simp only [tegra210_admaif_put_reg_dump]
    rw [if_pos q.symm]
  · simp only [tegra210_admaif_put_reg_dump]
    split <;> simp_all

theorem pput_mono_to_stereo_stored (a : tegra_admaif) (idx item : Nat)
    (hi : idx < (a.mono_to_stereo ADMAIF_TX_PATH).length) :
    load (tegra210_admaif_pput_mono_to_stereo a idx item).1.mono_to_stereo ADMAIF_TX_PATH idx = u32 item := by
  unfold tegra210_admaif_pput_mono_to_stereo
  simp only []
  split
  · next e => exact e.symm
  · exact load_store_same _ _ _ _ hi

theorem pput_mono_to_stereo_reports_change (a : tegra_admaif) (idx item : Nat)
    (hi : idx < (a.mono_to_stereo ADMAIF_TX_PATH).length) (hitem : item < 4294967296) :
    reports_change (fun s x => tegra210_admaif_pput_mono_to_stereo s idx x)
      (fun s => (tegra210_admaif_pget_mono_to_stereo s idx).1) id a item := by
  have hst := pput_mono_to_stereo_stored a idx item hi
  have hu := u32_of_lt hitem
  rw [hu] at hst
  refine ⟨?_, ?_, ?_⟩
  · simp only [tegra210_admaif_pput_mono_to_stereo, tegra210_admaif_pget_mono_to_stereo, hu, id]
    split
    · next e => simp [e]
    · next e => simpa using e
  · intro q
    simp only [tegra210_admaif_pget_mono_to_stereo, id] at q
    simp only [tegra210_admaif_pput_mono_to_stereo, hu]
    rw [if_pos q]
  · show (tegra210_admaif_pput_mono_to_stereo (tegra210_admaif_pput_mono_to_stereo a idx item).1 idx item).2 = 0
    generalize hb : (tegra210_admaif_pput_mono_to_stereo a idx item).1 = b at hst
    simp only [tegra210_admaif_pput_mono_to_stereo, hu]
    rw [if_pos hst.symm]

theorem cput_mono_to_stereo_stored (a : tegra_admaif) (idx item : Nat)
    (hi : idx < (a.mono_to_stereo ADMAIF_RX_PATH).length) :
    load (tegra210_admaif_cput_mono_to_stereo a idx item).1.mono_to_stereo ADMAIF_RX_PATH idx = u32 item := by
  unfold tegra210_admaif_cput_mono_to_stereo
  simp only []
  split
  · next e => exact e.symm
  · exact load_store_same _ _ _ _ hi

theorem cput_mono_to_stereo_reports_change (a : tegra_admaif) (idx item : Nat)
    (hi : idx < (a.mono_to_stereo ADMAIF_RX_PATH).length) (hitem : item < 4294967296) :
    reports_change (fun s x => tegra210_admaif_cput_mono_to_stereo s idx x)
      (fun s => (tegra210_admaif_cget_mono_to_stereo s idx).1) id a item := by
  have hst := cput_mono_to_stereo_stored a idx item hi
  have hu := u32_of_lt hitem
  rw [hu] at hst
  refine ⟨?_, ?_, ?_⟩
  · simp only [tegra210_admaif_cput_mono_to_stereo, tegra210_admaif_cget_mono_to_stereo, hu, id]
    split
    · next e => simp [e]
    · next e => simpa using e
  · intro q
    simp only [tegra210_admaif_cget_mono_to_stereo, id] at q
    simp only [tegra210_admaif_cput_mono_to_stereo, hu]
    rw [if_pos q]
  · show (tegra210_admaif_cput_mono_to_stereo (tegra210_admaif_cput_mono_to_stereo a idx item).1 idx item).2 = 0
    generalize hb : (tegra210_admaif_cput_mono_to_stereo a idx item).1 = b at hst
    simp only [tegra210_admaif_cput_mono_to_stereo, hu]
    rw [if_pos hst.symm]

theorem pput_stereo_to_mono_stored (a : tegra_admaif) (idx item : Nat)
    (hi : idx < (a.stereo_to_mono ADMAIF_TX_PATH).length) :
    load (tegra210_admaif_pput_stereo_to_mono a idx item).1.stereo_to_mono ADMAIF_TX_PATH idx = u32 item := by
  unfold tegra210_admaif_pput_stereo_to_mono
  simp only []
  split
  · next e => exact e.symm
  · exact load_store_same _ _ _ _ hi

theorem pput_stereo_to_mono_reports_change (a : tegra_admaif) (idx item : Nat)
    (hi : idx < (a.stereo_to_mono ADMAIF_TX_PATH).length) (hitem : item < 4294967296) :
    reports_change (fun s x => tegra210_admaif_pput_stereo_to_mono s idx x)
      (fun s => (tegra210_admaif_pget_stereo_to_mono s idx).1) id a item := by
  have hst := pput_stereo_to_mono_stored a idx item hi
  have hu := u32_of_lt hitem
  rw [hu] at hst
  refine ⟨?_, ?_, ?_⟩
  · simp only [tegra210_admaif_pput_stereo_to_mono, tegra210_admaif_pget_stereo_to_mono, hu, id]
    split
    · next e => simp [e]
    · next e => simpa using e
  · intro q
    simp only [tegra210_admaif_pget_stereo_to_mono, id] at q
    simp only [tegra210_admaif_pput_stereo_to_mono, hu]
    rw [if_pos q]
  · show (tegra210_admaif_pput_stereo_to_mono (tegra210_admaif_pput_stereo_to_mono a idx item).1 idx item).2 = 0
    generalize hb : (tegra210_admaif_pput_stereo_to_mono a idx item).1 = b at hst
    simp only [tegra210_admaif_pput_stereo_to_mono, hu]
    rw [if_pos hst.symm]

theorem cput_stereo_to_mono_stored (a : tegra_admaif) (idx item : Nat)
    (hi : idx < (a.stereo_to_mono ADMAIF_RX_PATH).length) :
    load (tegra210_admaif_cput_stereo_to_mono a idx item).1.stereo_to_mono ADMAIF_RX_PATH idx = u32 item := by
  unfold tegra210_admaif_cput_stereo_to_mono
  simp only []
  split
  · next e => exact e.symm
  · exact load_store_same _ _ _ _ hi

theorem cput_stereo_to_mono_reports_change (a : tegra_admaif) (idx item : Nat)
    (hi : idx < (a.stereo_to_mono ADMAIF_RX_PATH).length) (hitem : item < 4294967296) :
    reports_change (fun s x => tegra210_admaif_cput_stereo_to_mono s idx x)
      (fun s => (tegra210_admaif_cget_stereo_to_mono s idx).1) id a item := by
  have hst := cput_stereo_to_mono_stored a idx item hi
  have hu := u32_of_lt hitem
  rw [hu] at hst
  refine ⟨?_, ?_, ?_⟩
  · simp only [tegra210_admaif_cput_stereo_to_mono, tegra210_admaif_cget_stereo_to_mono, hu, id]
    split
    · next e => simp [e]
    · next e => simpa using e
  · intro q
    simp only [tegra210_admaif_cget_stereo_to_mono, id] at q
    simp only [tegra210_admaif_cput_stereo_to_mono, hu]
    rw [if_pos q]
  · show (tegra210_admaif_cput_stereo_to_mono (tegra210_admaif_cput_stereo_to_mono a idx item).1 idx item).2 = 0
    generalize hb : (tegra210_admaif_cput_stereo_to_mono a idx item).1 = b at hst
    simp only [tegra210_admaif_cput_stereo_to_mono, hu]
    rw [if_pos hst.symm]

theorem probe_state_sized (soc : tegra_admaif_soc_data) :
    arrays_sized (probe_state soc) (probe_state soc).soc_data.num_ch := by
  intro p
  simp [probe_state]

/-- C4: mixer control round trip. For each put/get pair (playback and capture audio
channels, playback and capture client channels, playback and capture mono-to-stereo,
playback and capture stereo-to-mono), every channel index below `num_ch` and every value in
the declared range of the control (`0..16` for the channel controls, the two items of the
mono-to-stereo enumeration, the three items of the stereo-to-mono enumeration), the get
that follows `put(v)` on the same control reports exactly `v`. -/
theorem C4_mixer_round_trip (a : tegra_admaif) (idx : Nat) (v : Int) (m t : Nat)
    (hs : arrays_sized a a.soc_data.num_ch) (hidx : idx < a.soc_data.num_ch)
    (hv : 0 ≤ v ∧ v ≤ 16) (hm : m < 2) (ht : t < 3) :
    (tegra210_admaif_pget_audio_ch (tegra210_admaif_pput_audio_ch a idx v).1 idx).1 = v ∧
    (tegra210_admaif_cget_audio_ch (tegra210_admaif_cput_audio_ch a idx v).1 idx).1 = v ∧
    (tegra210_admaif_pget_client_ch (tegra210_admaif_pput_client_ch a idx v).1 idx).1 = v ∧
    (tegra210_admaif_cget_client_ch (tegra210_admaif_cput_client_ch a idx v).1 idx).1 = v ∧
    (tegra210_admaif_pget_mono_to_stereo
      (tegra210_admaif_pput_mono_to_stereo a idx m).1 idx).1 = m ∧
    (tegra210_admaif_cget_mono_to_stereo
      (tegra210_admaif_cput_mono_to_stereo a idx m).1 idx).1 = m ∧
    (tegra210_admaif_pget_stereo_to_mono
      (tegra210_admaif_pput_stereo_to_mono a idx t).1 idx).1 = t ∧
    (tegra210_admaif_cget_stereo_to_mono
      (tegra210_admaif_cput_stereo_to_mono a idx t).1 idx).1 = t := by
  have hcast : ((int_to_u32 (to_s32 v) : Nat) : Int) = v := by
    rw [int_to_u32_to_s32, int_to_u32_cast]; omega
  have hum : u32 m = m := u32_of_lt (by omega)
  have hut : u32 t = t := u32_of_lt (by omega)
  have hlen := fun p => hs p
  refine ⟨?_, ?_, ?_, ?_, ?_, ?_, ?_, ?_⟩
  · show ((load _ ADMAIF_TX_PATH idx : Nat) : Int) = v
    rw [pput_audio_ch_stored a idx v (by rw [(hlen _).1]; exact hidx), hcast]
  · show ((load _ ADMAIF_RX_PATH idx : Nat) : Int) = v
    rw [cput_audio_ch_stored a idx v (by rw [(hlen _).1]; exact hidx), hcast]
  · show ((load _ ADMAIF_TX_PATH idx : Nat) : Int) = v
    rw [pput_client_ch_stored a idx v (by rw [(hlen _).2.1]; exact hidx), hcast]
  · show ((load _ ADMAIF_RX_PATH idx : Nat) : Int) = v
    rw [cput_client_ch_stored a idx v (by rw [(hlen _).2.1]; exact hidx), hcast]
  · show load _ ADMAIF_TX_PATH idx = m
    rw [pput_mono_to_stereo_stored a idx m (by rw [(hlen _).2.2.1]; exact hidx), hum]
  · show load _ ADMAIF_RX_PATH idx = m
    rw [cput_mono_to_stereo_stored a idx m (by rw [(hlen _).2.2.1]; exact hidx), hum]
  · show load _ ADMAIF_TX_PATH idx = t
    rw [pput_stereo_to_mono_stored a idx t (by rw [(hlen _).2.2.2]; exact hidx), hut]
  · show load _ ADMAIF_RX_PATH idx = t
    rw [cput_stereo_to_mono_stored a idx t (by rw [(hlen _).2.2.2]; exact hidx), hut]

/-- Instance of C4: the freshly probed ten-channel state, channel index 9, the values 16,
`Copy` (item 1) and `AVG` (item 2). -/
theorem C4_mixer_round_trip_witness :
    (tegra210_admaif_pput_audio_ch (probe_state sample_soc) 9 16).2 = 1 ∧
    ((tegra210_admaif_pget_audio_ch
        (tegra210_admaif_pput_audio_ch (probe_state sample_soc) 9 16).1 9).1 = 16 ∧
     (tegra210_admaif_cget_audio_ch
        (tegra210_admaif_cput_audio_ch (probe_state sample_soc) 9 16).1 9).1 = 16 ∧
     (tegra210_admaif_pget_client_ch
        (tegra210_admaif_pput_client_ch (probe_state sample_soc) 9 16).1 9).1 = 16 ∧
     (tegra210_admaif_cget_client_ch
        (tegra210_admaif_cput_client_ch (probe_state sample_soc) 9 16).1 9).1 = 16 ∧
     (tegra210_admaif_pget_mono_to_stereo
        (tegra210_admaif_pput_mono_to_stereo (probe_state sample_soc) 9 1).1 9).1 = 1 ∧
     (tegra210_admaif_cget_mono_to_stereo
        (tegra210_admaif_cput_mono_to_stereo (probe_state sample_soc) 9 1).1 9).1 = 1 ∧
     (tegra210_admaif_pget_stereo_to_mono
        (tegra210_admaif_pput_stereo_to_mono (probe_state sample_soc) 9 2).1 9).1 = 2 ∧
     (tegra210_admaif_cget_stereo_to_mono
        (tegra210_admaif_cput_stereo_to_mono (probe_state sample_soc) 9 2).1 9).1 = 2) :=
  ⟨by decide,
    C4_mixer_round_trip (probe_state sample_soc) 9 16 1 2 (probe_state_sized sample_soc)
      (by decide) (by decide) (by decide) (by decide)⟩

/-- C5, as stated, fails: on the freshly probed state the playback audio-channel control of
channel 0 stores 0; a put of the different value `2^32` returns 0, not 1. -/
theorem C5_put_change_counterexample :
    ¬ ((tegra210_admaif_pput_audio_ch (probe_state sample_soc) 0 4294967296).2 = 1 ↔
        (4294967296 : Int) ≠ (tegra210_admaif_pget_audio_ch (probe_state sample_soc) 0).1) := by
  decide

/-- C5, amended: each put callback returns 1 exactly when the request, as the callback
compares it, differs from the value the control currently reports, and otherwise returns 0
and leaves the state as it was; a second put of the same request returns 0. The channel
controls read the `long` request into a 32-bit local, so they compare it modulo `2^32`
(for a request in `0..2^32-1` that is the request itself); the reg-dump control compares the
request converted to `int`; the enumerated controls compare the `unsigned int` item as it
is. -/
theorem C5_put_reports_change (a : tegra_admaif) (idx : Nat) (v : Int) (item : Nat)
    (hs : arrays_sized a a.soc_data.num_ch) (hidx : idx < a.soc_data.num_ch)
    (hitem : item < 4294967296) :
    reports_change (fun s x => tegra210_admaif_pput_audio_ch s idx x)
      (fun s => (tegra210_admaif_pget_audio_ch s idx).1) (fun x => x % 4294967296) a v ∧
    reports_change (fun s x => tegra210_admaif_cput_audio_ch s idx x)
      (fun s => (tegra210_admaif_cget_audio_ch s idx).1) (fun x => x % 4294967296) a v ∧
    reports_change (fun s x => tegra210_admaif_pput_client_ch s idx x)
      (fun s => (tegra210_admaif_pget_client_ch s idx).1) (fun x => x % 4294967296) a v ∧
    reports_change (fun s x => tegra210_admaif_cput_client_ch s idx x)
      (fun s => (tegra210_admaif_cget_client_ch s idx).1) (fun x => x % 4294967296) a v ∧
    reports_change tegra210_admaif_put_reg_dump
      (fun s => (tegra210_admaif_get_reg_dump s).1) to_s32 a v ∧
    reports_change (fun s x => tegra210_admaif_pput_mono_to_stereo s idx x)
      (fun s => (tegra210_admaif_pget_mono_to_stereo s idx).1) id a item ∧
    reports_change (fun s x => tegra210_admaif_cput_mono_to_stereo s idx x)
      (fun s => (tegra210_admaif_cget_mono_to_stereo s idx).1) id a item ∧
    reports_change (fun s x => tegra210_admaif_pput_stereo_to_mono s idx x)
      (fun s => (tegra210_admaif_pget_stereo_to_mono s idx).1) id a item ∧
    reports_change (fun s x => tegra210_admaif_cput_stereo_to_mono s idx x)
      (fun s => (tegra210_admaif_cget_stereo_to_mono s idx).1) id a item := by
  have hlen := fun p => hs p
  exact ⟨pput_audio_ch_reports_change a idx v (by rw [(hlen _).1]; exact hidx),
    cput_audio_ch_reports_change a idx v (by rw [(hlen _).1]; exact hidx),
    pput_client_ch_reports_change a idx v (by rw [(hlen _).2.1]; exact hidx),
    cput_client_ch_reports_change a idx v (by rw [(hlen _).2.1]; exact hidx),
    put_reg_dump_reports_change a v,
    pput_mono_to_stereo_reports_change a idx item (by rw [(hlen _).2.2.1]; exact hidx) hitem,
    cput_mono_to_stereo_reports_change a idx item (by rw [(hlen _).2.2.1]; exact hidx) hitem,
    pput_stereo_to_mono_reports_change a idx item (by rw [(hlen _).2.2.2]; exact hidx) hitem,
    cput_stereo_to_mono_reports_change a idx item (by rw [(hlen _).2.2.2]; exact hidx) hitem⟩

/-- Instance of C5: the freshly probed ten-channel state, channel index 3, the request 5
and the item 1. The first put of 5 returns 1 and a repeated put returns 0. -/
theorem C5_put_reports_change_witness :
    (tegra210_admaif_pput_audio_ch (probe_state sample_soc) 3 5).2 = 1 ∧
    (tegra210_admaif_pput_audio_ch
      (tegra210_admaif_pput_audio_ch (probe_state sample_soc) 3 5).1 3 5).2 = 0 ∧
    (reports_change (fun s x => tegra210_admaif_pput_audio_ch s 3 x)
      (fun s => (tegra210_admaif_pget_audio_ch s 3).1) (fun x => x % 4294967296)
      (probe_state sample_soc) 5 ∧
    reports_change (fun s x => tegra210_admaif_cput_audio_ch s 3 x)
      (fun s => (tegra210_admaif_cget_audio_ch s 3).1) (fun x => x % 4294967296)
      (probe_state sample_soc) 5 ∧
    reports_change (fun s x => tegra210_admaif_pput_client_ch s 3 x)
      (fun s => (tegra210_admaif_pget_client_ch s 3).1) (fun x => x % 4294967296)
      (probe_state sample_soc) 5 ∧
    reports_change (fun s x => tegra210_admaif_cput_client_ch s 3 x)
      (fun s => (tegra210_admaif_cget_client_ch s 3).1) (fun x => x % 4294967296)
      (probe_state sample_soc) 5 ∧
    reports_change tegra210_admaif_put_reg_dump
      (fun s => (tegra210_admaif_get_reg_dump s).1) to_s32 (probe_state sample_soc) 5 ∧
    reports_change (fun s x => tegra210_admaif_pput_mono_to_stereo s 3 x)
      (fun s => (tegra210_admaif_pget_mono_to_stereo s 3).1) id (probe_state sample_soc) 1 ∧
    reports_change (fun s x => tegra210_admaif_cput_mono_to_stereo s 3 x)
      (fun s => (tegra210_admaif_cget_mono_to_stereo s 3).1) id (probe_state sample_soc) 1 ∧
    reports_change (fun s x => tegra210_admaif_pput_stereo_to_mono s 3 x)
      (fun s => (tegra210_admaif_pget_stereo_to_mono s 3).1) id (probe_state sample_soc) 1 ∧
    reports_change (fun s x => tegra210_admaif_cput_stereo_to_mono s 3 x)
      (fun s => (tegra210_admaif_cget_stereo_to_mono s 3).1) id (probe_state sample_soc) 1) :=
  ⟨by decide, by decide,
    C5_put_reports_change (probe_state sample_soc) 3 5 1 (probe_state_sized sample_soc)
      (by decide) (by decide)⟩

/-! ## Stream parameters -/

theorem set_pack_mode_target (h : admaif_hdr) (reg : Nat) (valid_bit : Int) :
    ∀ op ∈ (tegra_admaif_set_pack_mode h reg valid_bit).1, op.target = reg := by
  intro op hop
  unfold tegra_admaif_set_pack_mode at hop
  split at hop
  · simp at hop; rcases hop with e | e <;> simp [e, reg_op.target]
  · split at hop
    · simp at hop; rcases hop with e | e <;> simp [e, reg_op.target]
    · split at hop
      · simp at hop; rcases hop with e | e <;> simp [e, reg_op.target]
      · simp at hop

theorem hw_params_format_supported (h : admaif_hdr) (format : Int)
    (hfmt : format = SNDRV_PCM_FORMAT_S8 ∨ format = SNDRV_PCM_FORMAT_S16_LE ∨
      format = SNDRV_PCM_FORMAT_S24_LE ∨ format = SNDRV_PCM_FORMAT_S32_LE) :
    ∃ ab cb vb, hw_params_format h format = some (ab, cb, vb) ∧
      (vb = h.DATA_8BIT ∨ vb = h.DATA_16BIT ∨ vb = h.DATA_32BIT) := by
  rcases hfmt with e | e | e | e <;> subst e
  · exact ⟨_, _, _, rfl, Or.inl rfl⟩
  · exact ⟨_, _, _, rfl, Or.inr (Or.inl rfl)⟩
  · exact ⟨_, _, _, rfl, Or.inr (Or.inr rfl)⟩
  · exact ⟨_, _, _, rfl, Or.inr (Or.inr rfl)⟩

theorem set_pack_mode_nonempty (h : admaif_hdr) (reg : Nat) (vb : Int)
    (hvb : vb = h.DATA_8BIT ∨ vb = h.DATA_16BIT ∨ vb = h.DATA_32BIT) :
    (tegra_admaif_set_pack_mode h reg vb).1 ≠ [] ∧
    (tegra_admaif_set_pack_mode h reg vb).2 = 0 := by
  unfold tegra_admaif_set_pack_mode
  split
  · simp
  · split
    · simp
    · split
      · simp
      · rcases hvb with e | e | e <;> contradiction

/-- C6: `tegra_admaif_hw_params` programs exactly one register, the CIF control register of
the direction and channel of the stream: `tx_base + TEGRA_ADMAIF_CH_ACIF_TX_CTRL +
TEGRA_ADMAIF_CHANNEL_REG_STRIDE * dai->id` (in `unsigned int` arithmetic) for a playback
substream, and the RX counterpart for any other substream. No call is ever addressed to
another register, and for a supported format the calls issued are the pack-mode update on
that register, which is not empty and succeeds, followed by the CIF configuration of that
register. -/
theorem C6_hw_params_single_register (h : admaif_hdr) (a : tegra_admaif) (format : Int)
    (channels : Nat) (stream : Int) (id : Nat) :
    ∃ reg,
      reg = (if stream = SNDRV_PCM_STREAM_PLAYBACK then
          u32 (a.soc_data.tx_base + h.TEGRA_ADMAIF_CH_ACIF_TX_CTRL
            + h.TEGRA_ADMAIF_CHANNEL_REG_STRIDE * id)
        else
          u32 (a.soc_data.rx_base + h.TEGRA_ADMAIF_CH_ACIF_RX_CTRL
            + h.TEGRA_ADMAIF_CHANNEL_REG_STRIDE * id)) ∧
      (∀ op ∈ (tegra_admaif_hw_params h a format channels stream id).1, op.target = reg) ∧
      ((format = SNDRV_PCM_FORMAT_S8 ∨ format = SNDRV_PCM_FORMAT_S16_LE ∨
          format = SNDRV_PCM_FORMAT_S24_LE ∨ format = SNDRV_PCM_FORMAT_S32_LE) →
        ∃ valid_bit conf,
          (tegra_admaif_hw_params h a format channels stream id).1
            = (tegra_admaif_set_pack_mode h reg valid_bit).1 ++ [reg_op.set_cif reg conf] ∧
          (tegra_admaif_set_pack_mode h reg valid_bit).1 ≠ [] ∧
          (tegra_admaif_set_pack_mode h reg valid_bit).2 = 0) := by
  have hreg : (hw_params_path_reg h a stream id).2
      = (if stream = SNDRV_PCM_STREAM_PLAYBACK then
          u32 (a.soc_data.tx_base + h.TEGRA_ADMAIF_CH_ACIF_TX_CTRL
            + h.TEGRA_ADMAIF_CHANNEL_REG_STRIDE * id)
        else
          u32 (a.soc_data.rx_base + h.TEGRA_ADMAIF_CH_ACIF_RX_CTRL
            + h.TEGRA_ADMAIF_CHANNEL_REG_STRIDE * id)) := by
    unfold hw_params_path_reg CH_TX_REG CH_RX_REG CH_REG
    split <;> rfl
  refine ⟨(hw_params_path_reg h a stream id).2, hreg, ?_, ?_⟩
  · intro op hop
    unfold tegra_admaif_hw_params at hop
    split at hop
    · simp at hop
    · simp only [List.mem_append, List.mem_singleton] at hop
      rcases hop with hop | hop
      · exact set_pack_mode_target h _ _ op hop
      · rw [hop]; rfl
  · intro hfmt
    obtain ⟨ab, cb, vb, hf, hvb⟩ := hw_params_format_supported h format hfmt
    obtain ⟨hne, hz⟩ := set_pack_mode_nonempty h (hw_params_path_reg h a stream id).2 vb hvb
    refine ⟨vb,
      { audio_ch :=
          if load a.audio_ch_override (hw_params_path_reg h a stream id).1 id ≠ 0 then
            load a.audio_ch_override (hw_params_path_reg h a stream id).1 id
          else channels
        client_ch :=
          if load a.client_ch_override (hw_params_path_reg h a stream id).1 id ≠ 0 then
            load a.client_ch_override (hw_params_path_reg h a stream id).1 id
          else channels
        audio_bits := ab
        client_bits := cb
        mono_conv := load a.mono_to_stereo (hw_params_path_reg h a stream id).1 id
        stereo_conv := load a.stereo_to_mono (hw_params_path_reg h a stream id).1 id },
      ?_, hne, hz⟩
    simp only [tegra_admaif_hw_params, hf]

/-- Instance of C6: a 16-bit playback stream with two channels on channel 2 of the sample
layout issues three calls, all on register `0x3a0`. -/
theorem C6_hw_params_single_register_witness :
    (tegra_admaif_hw_params sample_hdr (probe_state sample_soc) SNDRV_PCM_FORMAT_S16_LE 2
        SNDRV_PCM_STREAM_PLAYBACK 2).1.map reg_op.target = [0x3a0, 0x3a0, 0x3a0] ∧
    ∃ reg, reg = 0x3a0 ∧
      (∀ op ∈ (tegra_admaif_hw_params sample_hdr (probe_state sample_soc)
          SNDRV_PCM_FORMAT_S16_LE 2 SNDRV_PCM_STREAM_PLAYBACK 2).1, op.target = reg) ∧
      ∃ valid_bit conf,
        (tegra_admaif_hw_params sample_hdr (probe_state sample_soc) SNDRV_PCM_FORMAT_S16_LE 2
            SNDRV_PCM_STREAM_PLAYBACK 2).1
          = (tegra_admaif_set_pack_mode sample_hdr reg valid_bit).1
              ++ [reg_op.set_cif reg conf] ∧
        (tegra_admaif_set_pack_mode sample_hdr reg valid_bit).1 ≠ [] ∧
        (tegra_admaif_set_pack_mode sample_hdr reg valid_bit).2 = 0 :=
  ⟨by decide,
    (C6_hw_params_single_register sample_hdr (probe_state sample_soc) SNDRV_PCM_FORMAT_S16_LE
      2 SNDRV_PCM_STREAM_PLAYBACK 2).elim
      fun reg hr => ⟨reg, hr.1.trans (by decide), hr.2.1, hr.2.2 (Or.inr (Or.inl rfl))⟩⟩

/-- C7: `tegra_admaif_hw_params` maps the sample format to the CIF configuration: `S8`
gives `audio_bits = client_bits = TEGRA_ACIF_BITS_8` with pack mode `DATA_8BIT`; `S16_LE`
gives `TEGRA_ACIF_BITS_16` for both with `DATA_16BIT`; `S24_LE` gives
`audio_bits = TEGRA_ACIF_BITS_32`, `client_bits = TEGRA_ACIF_BITS_24` with `DATA_32BIT`;
`S32_LE` gives `TEGRA_ACIF_BITS_32` for both with `DATA_32BIT`; and the function returns 0.
The pack mode is the argument of the pack-mode update that precedes the CIF write. -/
theorem C7_hw_params_format_mapping (h : admaif_hdr) (a : tegra_admaif) (channels : Nat)
    (stream : Int) (id : Nat) :
    (∃ reg conf,
      tegra_admaif_hw_params h a SNDRV_PCM_FORMAT_S8 channels stream id
        = ((tegra_admaif_set_pack_mode h reg h.DATA_8BIT).1 ++ [reg_op.set_cif reg conf], 0) ∧
      conf.audio_bits = h.TEGRA_ACIF_BITS_8 ∧ conf.client_bits = h.TEGRA_ACIF_BITS_8) ∧
    (∃ reg conf,
      tegra_admaif_hw_params h a SNDRV_PCM_FORMAT_S16_LE channels stream id
        = ((tegra_admaif_set_pack_mode h reg h.DATA_16BIT).1 ++ [reg_op.set_cif reg conf], 0) ∧
      conf.audio_bits = h.TEGRA_ACIF_BITS_16 ∧ conf.client_bits = h.TEGRA_ACIF_BITS_16) ∧
    (∃ reg conf,
      tegra_admaif_hw_params h a SNDRV_PCM_FORMAT_S24_LE channels stream id
        = ((tegra_admaif_set_pack_mode h reg h.DATA_32BIT).1 ++ [reg_op.set_cif reg conf], 0) ∧
      conf.audio_bits = h.TEGRA_ACIF_BITS_32 ∧ conf.client_bits = h.TEGRA_ACIF_BITS_24) ∧
    (∃ reg conf,
      tegra_admaif_hw_params h a SNDRV_PCM_FORMAT_S32_LE channels stream id
        = ((tegra_admaif_set_pack_mode h reg h.DATA_32BIT).1 ++ [reg_op.set_cif reg conf], 0) ∧
      conf.audio_bits = h.TEGRA_ACIF_BITS_32 ∧ conf.client_bits = h.TEGRA_ACIF_BITS_32) :=
  ⟨⟨_, _, rfl, rfl, rfl⟩, ⟨_, _, rfl, rfl, rfl⟩, ⟨_, _, rfl, rfl, rfl⟩, ⟨_, _, rfl, rfl, rfl⟩⟩

/-- C8: `tegra_admaif_hw_params` rejects unsupported formats atomically. For every format
other than `S8`, `S16_LE`, `S24_LE` and `S32_LE` it returns `-EOPNOTSUPP` and issues no
register-map call at all: neither the pack-mode update nor the CIF configuration. -/
theorem C8_hw_params_unsupported_format (h : admaif_hdr) (a : tegra_admaif) (format : Int)
    (channels : Nat) (stream : Int) (id : Nat)
    (h8 : format ≠ SNDRV_PCM_FORMAT_S8) (h16 : format ≠ SNDRV_PCM_FORMAT_S16_LE)
    (h24 : format ≠ SNDRV_PCM_FORMAT_S24_LE) (h32 : format ≠ SNDRV_PCM_FORMAT_S32_LE) :
    tegra_admaif_hw_params h a format channels stream id = ([], -EOPNOTSUPP) := by
  have hf : hw_params_format h format = none := by
    unfold hw_params_format
    rw [if_neg h8, if_neg h16, if_neg h24, if_neg h32]
  simp only [tegra_admaif_hw_params, hf]

/-- Instance of C8: format 1 (`SNDRV_PCM_FORMAT_U8`) on a capture stream of channel 0. -/
theorem C8_hw_params_unsupported_format_witness :
    (-EOPNOTSUPP = -95) ∧
    tegra_admaif_hw_params sample_hdr (probe_state sample_soc) 1 2 SNDRV_PCM_STREAM_CAPTURE 0
      = ([], -EOPNOTSUPP) :=
  ⟨by decide,
    C8_hw_params_unsupported_format sample_hdr (probe_state sample_soc) 1 2
      SNDRV_PCM_STREAM_CAPTURE 0 (by decide) (by decide) (by decide) (by decide)⟩

/-! ## Runtime power management -/

/-- C19: register-cache backed power management. `tegra_admaif_runtime_suspend` always
returns 0 and leaves the register map in cache-only mode with the cache marked dirty;
`tegra_admaif_runtime_resume` always returns 0 and leaves it out of cache-only mode with the
cache synced; hence after any sequence of suspend and resume calls the register map is in
cache-only mode if and only if the last call was a suspend. -/
theorem C19_regcache_power_management (regmap : regmap_cache) (calls : List pm_call)
    (last : pm_call) :
    tegra_admaif_runtime_suspend regmap = (⟨true, true⟩, 0) ∧
    tegra_admaif_runtime_resume regmap = (⟨false, false⟩, 0) ∧
    ((pm_run regmap (calls ++ [last])).cache_only = true ↔ last = pm_call.suspend) := by
  refine ⟨rfl, rfl, ?_⟩
  unfold pm_run
  rw [List.foldl_append]
  cases last <;> simp [pm_step, tegra_admaif_runtime_suspend, tegra_admaif_runtime_resume,
    regcache_cache_only, regcache_mark_dirty, regcache_sync]

/-! ## Stopping a channel -/

/-- C20: the result of `tegra_admaif_stop` depends only on the direction and on the
soft-reset poll. For a direction other than playback and capture it returns `-EINVAL`
without any register access. For playback or capture it returns the error of the soft-reset
poll when that poll fails and 0 when it succeeds, whatever the poll on the channel status
returned: a failure of that first poll adds a warning only, the register accesses are the
same, and among them is the soft-reset write. -/
theorem C20_stop_result (h : admaif_hdr) (admaif : tegra_admaif) (direction : Int) (id : Nat)
    (status_poll reset_poll : Int) :
    ((direction ≠ SNDRV_PCM_STREAM_PLAYBACK ∧ direction ≠ SNDRV_PCM_STREAM_CAPTURE) →
      tegra_admaif_stop h admaif direction id status_poll reset_poll = ([], -EINVAL)) ∧
    ((direction = SNDRV_PCM_STREAM_PLAYBACK ∨ direction = SNDRV_PCM_STREAM_CAPTURE) →
      (tegra_admaif_stop h admaif direction id status_poll reset_poll).2
        = (if reset_poll = 0 then 0 else reset_poll) ∧
      register_accesses (tegra_admaif_stop h admaif direction id status_poll reset_poll).1
        = register_accesses (tegra_admaif_stop h admaif direction id 0 reset_poll).1 ∧
      stop_event.write (.update_bits
          (if direction = SNDRV_PCM_STREAM_PLAYBACK then
            CH_TX_REG h admaif.soc_data h.TEGRA_ADMAIF_TX_SOFT_RESET id
          else CH_RX_REG h admaif.soc_data h.TEGRA_ADMAIF_RX_SOFT_RESET id)
          h.SW_RESET_MASK h.SW_RESET)
        ∈ (tegra_admaif_stop h admaif direction id status_poll reset_poll).1) := by
  constructor
  · rintro ⟨hp, hc⟩
    simp only [tegra_admaif_stop, if_neg hp, if_neg hc]
  · intro hd
    have hcp : SNDRV_PCM_STREAM_CAPTURE ≠ SNDRV_PCM_STREAM_PLAYBACK := by decide
    rcases hd with hd | hd <;> subst hd
    · simp only [tegra_admaif_stop, if_true, register_accesses]
      by_cases hs : status_poll < 0 <;> by_cases hr : reset_poll = 0 <;>
        simp [hs, hr, List.filter]
    · simp only [tegra_admaif_stop, if_neg hcp, if_true, register_accesses]
      by_cases hs : status_poll < 0 <;> by_cases hr : reset_poll = 0 <;>
        simp [hs, hr, List.filter]

/-- Instance of C20: a playback stop on channel 1 of the sample layout whose status poll
times out (`-110`) and whose soft-reset poll succeeds returns 0 after four register accesses
and one warning; with a failing soft-reset poll it returns that error; direction 2 returns
`-EINVAL` at once. -/
theorem C20_stop_result_witness :
    tegra_admaif_stop sample_hdr (probe_state sample_soc) SNDRV_PCM_STREAM_PLAYBACK 1 (-110) 0
      = ([stop_event.write (.update_bits 0x340 1 4294967294), stop_event.read_poll 0x34c,
          stop_event.dev_warn, stop_event.write (.update_bits 0x344 1 1),
          stop_event.read_poll 0x344], 0) ∧
    (tegra_admaif_stop sample_hdr (probe_state sample_soc) SNDRV_PCM_STREAM_PLAYBACK 1 0
      (-110)).2 = -110 ∧
    tegra_admaif_stop sample_hdr (probe_state sample_soc) 2 1 0 0 = ([], -EINVAL) ∧
    ((tegra_admaif_stop sample_hdr (probe_state sample_soc) SNDRV_PCM_STREAM_PLAYBACK 1
        (-110) 0).2 = (if (0 : Int) = 0 then 0 else 0) ∧
      register_accesses (tegra_admaif_stop sample_hdr (probe_state sample_soc)
          SNDRV_PCM_STREAM_PLAYBACK 1 (-110) 0).1
        = register_accesses (tegra_admaif_stop sample_hdr (probe_state sample_soc)
          SNDRV_PCM_STREAM_PLAYBACK 1 0 0).1 ∧
      stop_event.write (.update_bits
          (if SNDRV_PCM_STREAM_PLAYBACK = SNDRV_PCM_STREAM_PLAYBACK then
            CH_TX_REG sample_hdr (probe_state sample_soc).soc_data
              sample_hdr.TEGRA_ADMAIF_TX_SOFT_RESET 1
          else CH_RX_REG sample_hdr (probe_state sample_soc).soc_data
              sample_hdr.TEGRA_ADMAIF_RX_SOFT_RESET 1)
          sample_hdr.SW_RESET_MASK sample_hdr.SW_RESET)
        ∈ (tegra_admaif_stop sample_hdr (probe_state sample_soc) SNDRV_PCM_STREAM_PLAYBACK 1
            (-110) 0).1) :=
  ⟨by decide, by decide,
    (C20_stop_result sample_hdr (probe_state sample_soc) 2 1 0 0).1 ⟨by decide, by decide⟩,
    (C20_stop_result sample_hdr (probe_state sample_soc) SNDRV_PCM_STREAM_PLAYBACK 1
      (-110) 0).2 (Or.inl rfl)⟩

/-! ## Probe: DMA slave data -/

theorem modify_dma_length (arr : List snd_dmaengine_dai_dma_data) (i : Nat)
    (f : snd_dmaengine_dai_dma_data → snd_dmaengine_dai_dma_data) :
    (modify_dma arr i f).length = arr.length := by
  simp [modify_dma]

theorem modify_dma_other (arr : List snd_dmaengine_dai_dma_data) (i j : Nat)
    (f : snd_dmaengine_dai_dma_data → snd_dmaengine_dai_dma_data) (hne : j ≠ i) :
    (modify_dma arr i f)[j]? = arr[j]? := by
  simp [modify_dma, List.getElem?_set, Ne.symm hne]

theorem modify_dma_same (arr : List snd_dmaengine_dai_dma_data) (i : Nat)
    (f : snd_dmaengine_dai_dma_data → snd_dmaengine_dai_dma_data) (hi : i < arr.length) :
    (modify_dma arr i f)[i]? = some (f (arr.getD i ⟨0, 0, none⟩)) := by
  simp [modify_dma, List.getElem?_set, hi]

theorem modify_dma_getD (arr : List snd_dmaengine_dai_dma_data) (i : Nat)
    (f : snd_dmaengine_dai_dma_data → snd_dmaengine_dai_dma_data) (hi : i < arr.length) :
    (modify_dma arr i f).getD i ⟨0, 0, none⟩ = f (arr.getD i ⟨0, 0, none⟩) := by
  rw [List.getD_eq_getElem?_getD, modify_dma_same arr i f hi]
  rfl

/-- With enough names, the probe loop started at channel `i` with `n` channels to go runs to
its end, fills the entries `i .. i+n-1` of both arrays and leaves the others, and reads the
name indices `2*i .. 2*(i+n)-1`, each once. -/
theorem probe_dma_loop_spec (h : admaif_hdr) (soc : tegra_admaif_soc_data) (res_start : Nat)
    (dma_names : List String) :
    ∀ (n i : Nat) (st : probe_dma),
      2 * (i + n) ≤ dma_names.length →
      i + n ≤ st.playback_dma_data.length → i + n ≤ st.capture_dma_data.length →
      (probe_dma_loop h soc res_start dma_names n i st).1 = 0 ∧
      (∀ j, i ≤ j → j < i + n →
        (probe_dma_loop h soc res_start dma_names n i st).2.playback_dma_data[j]?
          = some ⟨u64 (res_start + CH_TX_REG h soc h.TEGRA_ADMAIF_TX_FIFO_WRITE j), 32,
              dma_names[2 * j + 1]?⟩ ∧
        (probe_dma_loop h soc res_start dma_names n i st).2.capture_dma_data[j]?
          = some ⟨u64 (res_start + CH_RX_REG h soc h.TEGRA_ADMAIF_RX_FIFO_READ j), 32,
              dma_names[2 * j]?⟩) ∧
      (∀ j, j < i →
        (probe_dma_loop h soc res_start dma_names n i st).2.playback_dma_data[j]?
          = st.playback_dma_data[j]? ∧
        (probe_dma_loop h soc res_start dma_names n i st).2.capture_dma_data[j]?
          = st.capture_dma_data[j]?) ∧
      (∀ x, x ∈ (probe_dma_loop h soc res_start dma_names n i st).2.name_reads ↔
        x ∈ st.name_reads ∨ (2 * i ≤ x ∧ x < 2 * (i + n))) ∧
      (st.name_reads.Nodup → (∀ x ∈ st.name_reads, x < 2 * i) →
        (probe_dma_loop h soc res_start dma_names n i st).2.name_reads.Nodup) := by
  intro n
  induction n with
  | zero =>
    intro i st _ _ _
    refine ⟨rfl, fun j h1 h2 => absurd h2 (by omega), fun _ _ => ⟨rfl, rfl⟩, ?_, fun hn _ => hn⟩
    intro x
    show x ∈ st.name_reads ↔ _
    constructor
    · exact Or.inl
    · rintro (hx | hx)
      · exact hx
      · omega
  | succ n ih =>
    intro i st hnames hpb hcp
    unfold probe_dma_loop
    simp only [List.get?_eq_getElem?]
    have hp : ∃ pname, dma_names[i * 2 + 1]? = some pname := by
      cases hq : dma_names[i * 2 + 1]? with
      | none => have := List.getElem?_eq_none_iff.mp hq; omega
      | some p => exact ⟨p, rfl⟩
    have hc : ∃ cname, dma_names[i * 2]? = some cname := by
      cases hq : dma_names[i * 2]? with
      | none => have := List.getElem?_eq_none_iff.mp hq; omega
      | some p => exact ⟨p, rfl⟩
    obtain ⟨pname, hp⟩ := hp
    obtain ⟨cname, hc⟩ := hc
    simp only [hp, hc]
    -- the state after iteration `i`
    have hi_pb : i < st.playback_dma_data.length := by omega
    have hi_cp : i < st.capture_dma_data.length := by omega
    generalize hst' : (probe_dma.mk
      (modify_dma (modify_dma (modify_dma st.playback_dma_data i (fun d =>
          { d with addr := u64 (res_start + CH_TX_REG h soc h.TEGRA_ADMAIF_TX_FIFO_WRITE i) }))
        i (fun d => { d with addr_width := 32 })) i (fun d => { d with chan_name := some pname }))
      (modify_dma (modify_dma (modify_dma st.capture_dma_data i (fun d =>
          { d with addr := u64 (res_start + CH_RX_REG h soc h.TEGRA_ADMAIF_RX_FIFO_READ i) }))
        i (fun d => { d with addr_width := 32 })) i (fun d => { d with chan_name := some cname }))
      (st.name_reads ++ [i * 2 + 1] ++ [i * 2])) = st'
    have e_pb_len : st'.playback_dma_data.length = st.playback_dma_data.length := by
      rw [← hst']; simp only [modify_dma_length]
    have e_cp_len : st'.capture_dma_data.length = st.capture_dma_data.length := by
      rw [← hst']; simp only [modify_dma_length]
    have e_pb_i : st'.playback_dma_data[i]?
        = some ⟨u64 (res_start + CH_TX_REG h soc h.TEGRA_ADMAIF_TX_FIFO_WRITE i), 32,
            some pname⟩ := by
      rw [← hst']
      simp only []
      rw [modify_dma_same _ _ _ (by simp only [modify_dma_length]; exact hi_pb),
        modify_dma_getD _ _ _ (by simp only [modify_dma_length]; exact hi_pb),
        modify_dma_getD _ _ _ hi_pb]
    have e_cp_i : st'.capture_dma_data[i]?
        = some ⟨u64 (res_start + CH_RX_REG h soc h.TEGRA_ADMAIF_RX_FIFO_READ i), 32,
            some cname⟩ := by
      rw [← hst']
      simp only []
      rw [modify_dma_same _ _ _ (by simp only [modify_dma_length]; exact hi_cp),
        modify_dma_getD _ _ _ (by simp only [modify_dma_length]; exact hi_cp),
        modify_dma_getD _ _ _ hi_cp]
    have e_pb_o : ∀ j, j ≠ i → st'.playback_dma_data[j]? = st.playback_dma_data[j]? := by
      intro j hj
      rw [← hst']
      simp only []
      rw [modify_dma_other _ _ _ _ hj, modify_dma_other _ _ _ _ hj, modify_dma_other _ _ _ _ hj]
    have e_cp_o : ∀ j, j ≠ i → st'.capture_dma_data[j]? = st.capture_dma_data[j]? := by
      intro j hj
      rw [← hst']
      simp only []
      rw [modify_dma_other _ _ _ _ hj, modify_dma_other _ _ _ _ hj, modify_dma_other _ _ _ _ hj]
    have e_rd : st'.name_reads = st.name_reads ++ [i * 2 + 1] ++ [i * 2] := by
      rw [← hst']
    obtain ⟨r1, r2, r3, r4, r5⟩ := ih (i + 1) st' (by omega) (by omega) (by omega)
    refine ⟨r1, ?_, ?_, ?_, ?_⟩
    · intro j hj1 hj2
      by_cases hji : j = i
      · subst hji
        obtain ⟨a, b⟩ := r3 j (by omega)
        rw [a, b, e_pb_i, e_cp_i]
        rw [show 2 * j + 1 = j * 2 + 1 by omega, show 2 * j = j * 2 by omega, hp, hc]
        exact ⟨rfl, rfl⟩
      · exact r2 j (by omega) (by omega)
    · intro j hj
      obtain ⟨a, b⟩ := r3 j (by omega)
      rw [a, b, e_pb_o j (by omega), e_cp_o j (by omega)]
      exact ⟨rfl, rfl⟩
    · intro x
      rw [r4 x, e_rd]
      simp only [List.mem_append, List.mem_singleton]
      constructor
      · rintro (((hx | hx) | hx) | hx)
        · exact Or.inl hx
        · exact Or.inr (by omega)
        · exact Or.inr (by omega)
        · exact Or.inr (by omega)
      · rintro (hx | hx)
        · exact Or.inl (Or.inl (Or.inl hx))
        · by_cases h1 : x = i * 2 + 1
          · exact Or.inl (Or.inl (Or.inr h1))
          · by_cases h2 : x = i * 2
            · exact Or.inl (Or.inr h2)
            · exact Or.inr (by omega)
    · intro hnd hlt
      apply r5
      · rw [e_rd]
        rw [List.nodup_append, List.nodup_append]
        refine ⟨⟨hnd, List.nodup_singleton _, ?_⟩, List.nodup_singleton _, ?_⟩
        · intro x hx hx'
          have := hlt x hx
          rw [List.mem_singleton] at hx'
          omega
        · intro x hx hx'
          rw [List.mem_singleton] at hx'
          rw [List.mem_append, List.mem_singleton] at hx
          rcases hx with hx | hx
          · have := hlt x hx; omega
          · omega
      · intro x hx
        rw [e_rd] at hx
        simp only [List.mem_append, List.mem_singleton] at hx
        rcases hx with (hx | hx) | hx
        · have := hlt x hx; omega
        · omega
        · omega

theorem ch_reg_value (h : admaif_hdr) (base off id n : Nat)
    (hoff : off < h.TEGRA_ADMAIF_CHANNEL_REG_STRIDE) (hid : id < n)
    (hw : base + n * h.TEGRA_ADMAIF_CHANNEL_REG_STRIDE < 4294967296) :
    CH_REG h base off id = base + off + h.TEGRA_ADMAIF_CHANNEL_REG_STRIDE * id := by
  have hm : h.TEGRA_ADMAIF_CHANNEL_REG_STRIDE * (id + 1)
      ≤ h.TEGRA_ADMAIF_CHANNEL_REG_STRIDE * n := Nat.mul_le_mul_left _ hid
  rw [Nat.mul_succ, Nat.mul_comm _ n] at hm
  unfold CH_REG
  exact u32_of_lt (by omega)

/-- Two different channels have different DMA addresses when the channel registers do not
wrap and the FIFO offset is below the stride. -/
theorem dma_addr_injective (h : admaif_hdr) (res_start base off n i j : Nat)
    (hoff : off < h.TEGRA_ADMAIF_CHANNEL_REG_STRIDE)
    (hw : base + n * h.TEGRA_ADMAIF_CHANNEL_REG_STRIDE < 4294967296)
    (hres : res_start + 4294967296 ≤ 18446744073709551616)
    (hi : i < n) (hj : j < n) (hij : i ≠ j) :
    u64 (res_start + CH_REG h base off i) ≠ u64 (res_start + CH_REG h base off j) := by
  have hmi : h.TEGRA_ADMAIF_CHANNEL_REG_STRIDE * (i + 1)
      ≤ h.TEGRA_ADMAIF_CHANNEL_REG_STRIDE * n := Nat.mul_le_mul_left _ hi
  have hmj : h.TEGRA_ADMAIF_CHANNEL_REG_STRIDE * (j + 1)
      ≤ h.TEGRA_ADMAIF_CHANNEL_REG_STRIDE * n := Nat.mul_le_mul_left _ hj
  rw [Nat.mul_succ, Nat.mul_comm _ n] at hmi hmj
  rw [ch_reg_value h base off i n hoff hi hw, ch_reg_value h base off j n hoff hj hw]
  unfold u64
  rcases Nat.lt_or_gt_of_ne hij with hlt | hlt
  · have hm : h.TEGRA_ADMAIF_CHANNEL_REG_STRIDE * (i + 1)
        ≤ h.TEGRA_ADMAIF_CHANNEL_REG_STRIDE * j := Nat.mul_le_mul_left _ hlt
    rw [Nat.mul_succ] at hm
    omega
  · have hm : h.TEGRA_ADMAIF_CHANNEL_REG_STRIDE * (j + 1)
        ≤ h.TEGRA_ADMAIF_CHANNEL_REG_STRIDE * i := Nat.mul_le_mul_left _ hlt
    rw [Nat.mul_succ] at hm
    omega

/-- C18: `tegra_admaif_probe` configures the DMA slave data per channel. When the
`"dma-names"` property has the `2 * num_ch` names the loop asks for, the loop completes,
and for every channel `i < num_ch` the playback DMA address is `res->start + tx_base +
TEGRA_ADMAIF_TX_FIFO_WRITE + TEGRA_ADMAIF_CHANNEL_REG_STRIDE * i` and the capture DMA address
is `res->start + rx_base + TEGRA_ADMAIF_RX_FIFO_READ + TEGRA_ADMAIF_CHANNEL_REG_STRIDE * i`
(the register in `unsigned int`, the sum in 64 bits), both with `addr_width` 32; the capture
channel name is entry `2 * i` and the playback channel name entry `2 * i + 1` of
`"dma-names"`; every name index in `0 .. 2 * num_ch - 1` is used exactly once; and, for a
register layout that does not wrap, distinct channels get distinct addresses. -/
theorem C18_probe_dma_data (h : admaif_hdr) (soc : tegra_admaif_soc_data) (res_start : Nat)
    (dma_names : List String) (hnames : 2 * soc.num_ch ≤ dma_names.length) :
    ∃ st, tegra_admaif_probe_dma h soc res_start dma_names = (0, st) ∧
      (∀ i, i < soc.num_ch →
        st.playback_dma_data[i]?
          = some ⟨u64 (res_start + u32 (soc.tx_base + h.TEGRA_ADMAIF_TX_FIFO_WRITE
              + h.TEGRA_ADMAIF_CHANNEL_REG_STRIDE * i)), 32, dma_names[2 * i + 1]?⟩ ∧
        st.capture_dma_data[i]?
          = some ⟨u64 (res_start + u32 (soc.rx_base + h.TEGRA_ADMAIF_RX_FIFO_READ
              + h.TEGRA_ADMAIF_CHANNEL_REG_STRIDE * i)), 32, dma_names[2 * i]?⟩) ∧
      st.name_reads.Perm (List.range (2 * soc.num_ch)) ∧
      ((h.TEGRA_ADMAIF_TX_FIFO_WRITE < h.TEGRA_ADMAIF_CHANNEL_REG_STRIDE ∧
          h.TEGRA_ADMAIF_RX_FIFO_READ < h.TEGRA_ADMAIF_CHANNEL_REG_STRIDE ∧
          soc.tx_base + soc.num_ch * h.TEGRA_ADMAIF_CHANNEL_REG_STRIDE < 4294967296 ∧
          soc.rx_base + soc.num_ch * h.TEGRA_ADMAIF_CHANNEL_REG_STRIDE < 4294967296 ∧
          res_start + 4294967296 ≤ 18446744073709551616) →
        ∀ i j a b, i < soc.num_ch → j < soc.num_ch → i ≠ j →
          (st.playback_dma_data[i]? = some a → st.playback_dma_data[j]? = some b →
            a.addr ≠ b.addr) ∧
          (st.capture_dma_data[i]? = some a → st.capture_dma_data[j]? = some b →
            a.addr ≠ b.addr)) := by
  obtain ⟨r1, r2, _, r4, r5⟩ := probe_dma_loop_spec h soc res_start dma_names soc.num_ch 0
    ⟨List.replicate soc.num_ch ⟨0, 0, none⟩, List.replicate soc.num_ch ⟨0, 0, none⟩, []⟩
    (by omega) (by simp) (by simp)
  have hent : ∀ i, i < soc.num_ch →
      (tegra_admaif_probe_dma h soc res_start dma_names).2.playback_dma_data[i]?
        = some ⟨u64 (res_start + CH_REG h soc.tx_base h.TEGRA_ADMAIF_TX_FIFO_WRITE i), 32,
            dma_names[2 * i + 1]?⟩ ∧
      (tegra_admaif_probe_dma h soc res_start dma_names).2.capture_dma_data[i]?
        = some ⟨u64 (res_start + CH_REG h soc.rx_base h.TEGRA_ADMAIF_RX_FIFO_READ i), 32,
            dma_names[2 * i]?⟩ :=
    fun i hi => r2 i (Nat.zero_le _) (by omega)
  refine ⟨(tegra_admaif_probe_dma h soc res_start dma_names).2, Prod.ext r1 rfl, hent, ?_, ?_⟩
  · refine (List.perm_ext_iff_of_nodup ?_ (List.nodup_range _)).mpr ?_
    · exact r5 List.nodup_nil (fun x hx => absurd hx (List.not_mem_nil x))
    · intro x
      show x ∈ (probe_dma_loop h soc res_start dma_names soc.num_ch 0 _).2.name_reads ↔ _
      rw [r4 x, List.mem_range]
      constructor
      · rintro (hx | hx)
        · exact absurd hx (List.not_mem_nil x)
        · omega
      · intro hx
        exact Or.inr (by omega)
  · rintro ⟨htx, hrx, htw, hrw, hres⟩ i j a b hi hj hij
    obtain ⟨pi, ci⟩ := hent i hi
    obtain ⟨pj, cj⟩ := hent j hj
    constructor
    · intro ha hb
      rw [pi] at ha
      rw [pj] at hb
      rw [← Option.some.inj ha, ← Option.some.inj hb]
      exact dma_addr_injective h res_start soc.tx_base _ soc.num_ch i j htx htw hres hi hj hij
    · intro ha hb
      rw [ci] at ha
      rw [cj] at hb
      rw [← Option.some.inj ha, ← Option.some.inj hb]
      exact dma_addr_injective h res_start soc.rx_base _ soc.num_ch i j hrx hrw hres hi hj hij

/-- Instance of C18: two channels, registers at `0x702d0000`, names `rx1 tx1 rx2 tx2`. -/
theorem C18_probe_dma_data_witness :
    (tegra_admaif_probe_dma sample_hdr sample_soc2 0x702d0000 sample_dma_names).1 = 0 ∧
    (tegra_admaif_probe_dma sample_hdr sample_soc2 0x702d0000
        sample_dma_names).2.playback_dma_data
      = [⟨0x702d032c, 32, some "tx1"⟩, ⟨0x702d036c, 32, some "tx2"⟩] ∧
    (tegra_admaif_probe_dma sample_hdr sample_soc2 0x702d0000
        sample_dma_names).2.capture_dma_data
      = [⟨0x702d002c, 32, some "rx1"⟩, ⟨0x702d006c, 32, some "rx2"⟩] ∧
    (tegra_admaif_probe_dma sample_hdr sample_soc2 0x702d0000 sample_dma_names).2.name_reads
      = [1, 0, 3, 2] ∧
    ∃ st, tegra_admaif_probe_dma sample_hdr sample_soc2 0x702d0000 sample_dma_names = (0, st) ∧
      (∀ i, i < sample_soc2.num_ch →
        st.playback_dma_data[i]?
          = some ⟨u64 (0x702d0000 + u32 (sample_soc2.tx_base
              + sample_hdr.TEGRA_ADMAIF_TX_FIFO_WRITE
              + sample_hdr.TEGRA_ADMAIF_CHANNEL_REG_STRIDE * i)), 32,
              sample_dma_names[2 * i + 1]?⟩ ∧
        st.capture_dma_data[i]?
          = some ⟨u64 (0x702d0000 + u32 (sample_soc2.rx_base
              + sample_hdr.TEGRA_ADMAIF_RX_FIFO_READ
              + sample_hdr.TEGRA_ADMAIF_CHANNEL_REG_STRIDE * i)), 32,
              sample_dma_names[2 * i]?⟩) ∧
      st.name_reads.Perm (List.range (2 * sample_soc2.num_ch)) ∧
      ∀ i j a b, i < sample_soc2.num_ch → j < sample_soc2.num_ch → i ≠ j →
        (st.playback_dma_data[i]? = some a → st.playback_dma_data[j]? = some b →
          a.addr ≠ b.addr) ∧
        (st.capture_dma_data[i]? = some a → st.capture_dma_data[j]? = some b →
          a.addr ≠ b.addr) :=
  ⟨by decide, by decide, by decide, by decide,
    (C18_probe_dma_data sample_hdr sample_soc2 0x702d0000 sample_dma_names (by decide)).elim
      fun st hs => ⟨st, hs.1, hs.2.1, hs.2.2.1,
        hs.2.2.2 ⟨by decide, by decide, by decide, by decide, by decide⟩⟩⟩

/-! ## Inclusions between the register classes -/

/-- C24: the readable set contains the writeable set and the volatile set. For every SoC
data and every register number `reg`, if `tegra_admaif_wr_reg` or
`tegra_admaif_volatile_reg` is true at `reg`, then `tegra_admaif_rd_reg` is true at `reg`. -/
theorem C24_readable_contains_writeable_volatile (h : admaif_hdr)
    (soc : tegra_admaif_soc_data) (reg : Nat)
    (hwv : tegra_admaif_wr_reg h soc reg = true ∨ tegra_admaif_volatile_reg h soc reg = true) :
    tegra_admaif_rd_reg h soc reg = true := by
  unfold tegra_admaif_wr_reg tegra_admaif_volatile_reg at hwv
  unfold tegra_admaif_rd_reg
  simp only [] at hwv ⊢
  by_cases hrx : soc.rx_base ≤ reg ∧ reg < rx_max h soc
  · simp only [if_pos hrx] at hwv ⊢
    rcases hwv with hw | hv
    · split at hw
      · next hc =>
        rw [if_pos]
        rcases hc with e | e | e | e
        · exact Or.inl e
        · exact Or.inr (Or.inr (Or.inr (Or.inl e)))
        · exact Or.inr (Or.inr (Or.inr (Or.inr (Or.inl e))))
        · exact Or.inr (Or.inr (Or.inr (Or.inr (Or.inr e))))
      · cases hw
    · split at hv
      · next hc =>
        rw [if_pos]
        rcases hc with e | e | e | e
        · exact Or.inl e
        · exact Or.inr (Or.inl e)
        · exact Or.inr (Or.inr (Or.inl e))
        · exact Or.inr (Or.inr (Or.inr (Or.inr (Or.inl e))))
      · cases hv
  · simp only [if_neg hrx] at hwv ⊢
    by_cases htx : soc.tx_base ≤ reg ∧ reg < tx_max h soc
    · simp only [if_pos htx] at hwv ⊢
      rcases hwv with hw | hv
      · split at hw
        · next hc =>
          rw [if_pos]
          rcases hc with e | e | e | e
          · exact Or.inl e
          · exact Or.inr (Or.inr (Or.inr (Or.inl e)))
          · exact Or.inr (Or.inr (Or.inr (Or.inr (Or.inl e))))
          · exact Or.inr (Or.inr (Or.inr (Or.inr (Or.inr e))))
        · cases hw
      · split at hv
        · next hc =>
          rw [if_pos]
          rcases hc with e | e | e | e
          · exact Or.inl e
          · exact Or.inr (Or.inl e)
          · exact Or.inr (Or.inr (Or.inl e))
          · exact Or.inr (Or.inr (Or.inr (Or.inr (Or.inl e))))
        · cases hv
    · simp only [if_neg htx] at hwv ⊢
      by_cases hg : soc.global_base ≤ reg ∧ reg < soc.max_register
      · simp only [if_pos hg] at hwv ⊢
        rcases hwv with hw | hv
        · split at hw
          · next hc =>
            rw [if_pos]
            exact Or.inl hc
          · cases hw
        · split at hv
          · next hc =>
            rw [if_pos]
            rcases hc with e | e | e
            · exact Or.inr (Or.inr (Or.inl e))
            · exact Or.inr (Or.inr (Or.inr (Or.inl e)))
            · exact Or.inr (Or.inr (Or.inr (Or.inr e)))
          · cases hv
      · simp only [if_neg hg] at hwv
        rcases hwv with hw | hv
        · cases hw
        · cases hv

/-- Instance of C24: the TX soft-reset register of channel 2 of the sample layout (`0x384`)
is writeable and volatile, and readable; the global status register (`0x710`) is volatile
and not writeable, and readable. -/
theorem C24_readable_contains_writeable_volatile_witness :
    tegra_admaif_wr_reg sample_hdr sample_soc 0x384 = true ∧
    tegra_admaif_wr_reg sample_hdr sample_soc 0x710 = false ∧
    tegra_admaif_volatile_reg sample_hdr sample_soc 0x710 = true ∧
    tegra_admaif_rd_reg sample_hdr sample_soc 0x384 = true ∧
    tegra_admaif_rd_reg sample_hdr sample_soc 0x710 = true :=
  ⟨by decide, by decide, by decide,
    C24_readable_contains_writeable_volatile sample_hdr sample_soc 0x384 (Or.inl (by decide)),
    by decide⟩

/-! ## Channel-count overrides -/

/-- C22: channel-count overrides in `tegra_admaif_hw_params`. For a supported format the
calls are pack-mode updates followed by one CIF configuration, and in that configuration,
for the path (TX for a playback substream, RX otherwise) and channel of the stream:
`audio_ch` is the stored audio-channel override when that is non-zero and
`params_channels` otherwise; independently `client_ch` is the stored client-channel
override when non-zero and `params_channels` otherwise; `mono_conv` and `stereo_conv` are
the stored mono-to-stereo and stereo-to-mono settings. A stored override of 0 means no
override. -/
theorem C22_channel_overrides (h : admaif_hdr) (a : tegra_admaif) (format : Int)
    (channels : Nat) (stream : Int) (id : Nat)
    (hfmt : format = SNDRV_PCM_FORMAT_S8 ∨ format = SNDRV_PCM_FORMAT_S16_LE ∨
      format = SNDRV_PCM_FORMAT_S24_LE ∨ format = SNDRV_PCM_FORMAT_S32_LE) :
    ∃ pack reg conf,
      (tegra_admaif_hw_params h a format channels stream id).1
        = pack ++ [reg_op.set_cif reg conf] ∧
      (∀ op ∈ pack, ∃ r m v, op = reg_op.update_bits r m v) ∧
      conf.audio_ch
        = (if load a.audio_ch_override
              (if stream = SNDRV_PCM_STREAM_PLAYBACK then ADMAIF_TX_PATH else ADMAIF_RX_PATH)
              id ≠ 0 then
            load a.audio_ch_override
              (if stream = SNDRV_PCM_STREAM_PLAYBACK then ADMAIF_TX_PATH else ADMAIF_RX_PATH)
              id
          else channels) ∧
      conf.client_ch
        = (if load a.client_ch_override
              (if stream = SNDRV_PCM_STREAM_PLAYBACK then ADMAIF_TX_PATH else ADMAIF_RX_PATH)
              id ≠ 0 then
            load a.client_ch_override
              (if stream = SNDRV_PCM_STREAM_PLAYBACK then ADMAIF_TX_PATH else ADMAIF_RX_PATH)
              id
          else channels) ∧
      conf.mono_conv
        = load a.mono_to_stereo
            (if stream = SNDRV_PCM_STREAM_PLAYBACK then ADMAIF_TX_PATH else ADMAIF_RX_PATH)
            id ∧
      conf.stereo_conv
        = load a.stereo_to_mono
            (if stream = SNDRV_PCM_STREAM_PLAYBACK then ADMAIF_TX_PATH else ADMAIF_RX_PATH)
            id := by
  obtain ⟨ab, cb, vb, hf, _⟩ := hw_params_format_supported h format hfmt
  have hpath : (hw_params_path_reg h a stream id).1
      = (if stream = SNDRV_PCM_STREAM_PLAYBACK then ADMAIF_TX_PATH else ADMAIF_RX_PATH) := by
    unfold hw_params_path_reg
    split <;> rfl
  rw [← hpath]
  refine ⟨(tegra_admaif_set_pack_mode h (hw_params_path_reg h a stream id).2 vb).1,
    (hw_params_path_reg h a stream id).2,
    { audio_ch :=
        if load a.audio_ch_override (hw_params_path_reg h a stream id).1 id ≠ 0 then
          load a.audio_ch_override (hw_params_path_reg h a stream id).1 id
        else channels
      client_ch :=
        if load a.client_ch_override (hw_params_path_reg h a stream id).1 id ≠ 0 then
          load a.client_ch_override (hw_params_path_reg h a stream id).1 id
        else channels
      audio_bits := ab
      client_bits := cb
      mono_conv := load a.mono_to_stereo (hw_params_path_reg h a stream id).1 id
      stereo_conv := load a.stereo_to_mono (hw_params_path_reg h a stream id).1 id },
    ?_, ?_, rfl, rfl, rfl, rfl⟩
  · simp only [tegra_admaif_hw_params, hf]
  · intro op hop
    unfold tegra_admaif_set_pack_mode at hop
    split at hop
    · simp at hop; rcases hop with e | e <;> exact ⟨_, _, _, e⟩
    · split at hop
      · simp at hop; rcases hop with e | e <;> exact ⟨_, _, _, e⟩
      · split at hop
        · simp at hop; rcases hop with e | e <;> exact ⟨_, _, _, e⟩
        · simp at hop

/-- Instance of C22: after the playback audio-channel override of channel 2 is set to 8, a
stereo 16-bit playback stream on channel 2 is configured with `audio_ch = 8` and
`client_ch = 2`; on the capture side both stay 2. -/
theorem C22_channel_overrides_witness :
    (tegra_admaif_hw_params sample_hdr
        (tegra210_admaif_pput_audio_ch (probe_state sample_soc) 2 8).1
        SNDRV_PCM_FORMAT_S16_LE 2 SNDRV_PCM_STREAM_PLAYBACK 2).1.getLast?
      = some (reg_op.set_cif 0x3a0 ⟨8, 2, 3, 3, 0, 0⟩) ∧
    (tegra_admaif_hw_params sample_hdr
        (tegra210_admaif_pput_audio_ch (probe_state sample_soc) 2 8).1
        SNDRV_PCM_FORMAT_S16_LE 2 SNDRV_PCM_STREAM_CAPTURE 2).1.getLast?
      = some (reg_op.set_cif 0xa0 ⟨2, 2, 3, 3, 0, 0⟩) ∧
    ∃ pack reg conf,
      (tegra_admaif_hw_params sample_hdr
          (tegra210_admaif_pput_audio_ch (probe_state sample_soc) 2 8).1
          SNDRV_PCM_FORMAT_S16_LE 2 SNDRV_PCM_STREAM_PLAYBACK 2).1
        = pack ++ [reg_op.set_cif reg conf] ∧
      (∀ op ∈ pack, ∃ r m v, op = reg_op.update_bits r m v) ∧
      conf.audio_ch = 8 ∧ conf.client_ch = 2 ∧ conf.mono_conv = 0 ∧ conf.stereo_conv = 0 :=
  ⟨by decide, by decide,
    (C22_channel_overrides sample_hdr
      (tegra210_admaif_pput_audio_ch (probe_state sample_soc) 2 8).1
      SNDRV_PCM_FORMAT_S16_LE 2 SNDRV_PCM_STREAM_PLAYBACK 2 (Or.inr (Or.inl rfl))).elim
      fun pack hp => hp.elim fun reg hr => hr.elim fun conf hc =>
        ⟨pack, reg, conf, hc.1, hc.2.1, hc.2.2.1.trans (by decide),
          hc.2.2.2.1.trans (by decide), hc.2.2.2.2.1.trans (by decide),
          hc.2.2.2.2.2.trans (by decide)⟩⟩

/-! ## The enable write -/

theorem testBit_u32_not (x i : Nat) (hx : x < 4294967296) :
    (u32_not x).testBit i = (decide (i < 32) && !x.testBit i) := by
  have e : u32_not x = 2 ^ 32 - (x + 1) := by
    unfold u32_not
    rw [u32_of_lt hx]
    omega
  rw [e]
  exact Nat.testBit_two_pow_sub_succ (by omega) i

theorem testBit_of_u32 (x i : Nat) (hx : x < 4294967296) (hi : 32 ≤ i) :
    x.testBit i = false := by
  apply Nat.testBit_lt_two_pow
  calc x < 2 ^ 32 := by omega
    _ ≤ 2 ^ i := Nat.pow_le_pow_right (by omega) hi

/-- Writing the complement of the mask under the mask clears the bits of the mask and keeps
the others. -/
theorem update_bits_clear (old mask i : Nat) (hold : old < 4294967296)
    (hmask : mask < 4294967296) :
    (regmap_update_bits old mask (u32_not mask)).testBit i
      = (old.testBit i && !mask.testBit i) := by
  unfold regmap_update_bits
  rw [Nat.testBit_lor, Nat.testBit_land, Nat.testBit_land, testBit_u32_not mask i hmask]
  by_cases hi : i < 32
  · cases old.testBit i <;> cases mask.testBit i <;> simp [hi]
  · rw [testBit_of_u32 old i hold (by omega)]
    simp [hi]

/-- Writing the mask under the mask sets the bits of the mask and keeps the others. -/
theorem update_bits_set (old mask i : Nat) (hold : old < 4294967296)
    (hmask : mask < 4294967296) :
    (regmap_update_bits old mask mask).testBit i = (old.testBit i || mask.testBit i) := by
  unfold regmap_update_bits
  rw [Nat.testBit_lor, Nat.testBit_land, Nat.testBit_land, testBit_u32_not mask i hmask]
  by_cases hi : i < 32
  · cases old.testBit i <;> cases mask.testBit i <;> simp [hi]
  · rw [testBit_of_u32 old i hold (by omega), testBit_of_u32 mask i hmask (by omega)]
    simp

/-- C21: the "Disable TX/RX channel" write of `tegra_admaif_stop` is
`regmap_update_bits(enable_reg, mask, ~enable)`, the first event of the function. With
`regmap_update_bits` taken as `new = (old & ~mask) | (val & mask)` and the enable value
equal to the enable mask, it clears the enable bit of the channel and leaves every other bit
of the enable register as it was, for every previous register value; symmetrically the
write of `tegra_admaif_start`, `regmap_update_bits(enable_reg, mask, enable)`, sets the
enable bit and leaves every other bit as it was. -/
theorem C21_enable_write_frame (h : admaif_hdr) (admaif : tegra_admaif) (id : Nat)
    (status_poll reset_poll : Int) (old i : Nat)
    (htx : h.TX_ENABLE = h.TX_ENABLE_MASK) (hrx : h.RX_ENABLE = h.RX_ENABLE_MASK)
    (hmtx : h.TX_ENABLE_MASK < 4294967296) (hmrx : h.RX_ENABLE_MASK < 4294967296)
    (hold : old < 4294967296) :
    ((tegra_admaif_stop h admaif SNDRV_PCM_STREAM_PLAYBACK id status_poll reset_poll).1.head?
        = some (stop_event.write (.update_bits
            (CH_TX_REG h admaif.soc_data h.TEGRA_ADMAIF_TX_ENABLE id)
            h.TX_ENABLE_MASK (u32_not h.TX_ENABLE))) ∧
      (regmap_update_bits old h.TX_ENABLE_MASK (u32_not h.TX_ENABLE)).testBit i
        = (old.testBit i && !h.TX_ENABLE_MASK.testBit i)) ∧
    ((tegra_admaif_stop h admaif SNDRV_PCM_STREAM_CAPTURE id status_poll reset_poll).1.head?
        = some (stop_event.write (.update_bits
            (CH_RX_REG h admaif.soc_data h.TEGRA_ADMAIF_RX_ENABLE id)
            h.RX_ENABLE_MASK (u32_not h.RX_ENABLE))) ∧
      (regmap_update_bits old h.RX_ENABLE_MASK (u32_not h.RX_ENABLE)).testBit i
        = (old.testBit i && !h.RX_ENABLE_MASK.testBit i)) ∧
    (tegra_admaif_start h admaif SNDRV_PCM_STREAM_PLAYBACK id
        = ([.update_bits (CH_TX_REG h admaif.soc_data h.TEGRA_ADMAIF_TX_ENABLE id)
            h.TX_ENABLE_MASK h.TX_ENABLE], 0) ∧
      (regmap_update_bits old h.TX_ENABLE_MASK h.TX_ENABLE).testBit i
        = (old.testBit i || h.TX_ENABLE_MASK.testBit i)) ∧
    (tegra_admaif_start h admaif SNDRV_PCM_STREAM_CAPTURE id
        = ([.update_bits (CH_RX_REG h admaif.soc_data h.TEGRA_ADMAIF_RX_ENABLE id)
            h.RX_ENABLE_MASK h.RX_ENABLE], 0) ∧
      (regmap_update_bits old h.RX_ENABLE_MASK h.RX_ENABLE).testBit i
        = (old.testBit i || h.RX_ENABLE_MASK.testBit i)) := by
  have hcp : SNDRV_PCM_STREAM_CAPTURE ≠ SNDRV_PCM_STREAM_PLAYBACK := by decide
  refine ⟨⟨?_, ?_⟩, ⟨?_, ?_⟩, ⟨?_, ?_⟩, ⟨?_, ?_⟩⟩
  · simp only [tegra_admaif_stop, if_true]
    split <;> split <;> rfl
  · rw [htx]; exact update_bits_clear old _ i hold hmtx
  · simp only [tegra_admaif_stop, if_neg hcp, if_true]
    split <;> split <;> rfl
  · rw [hrx]; exact update_bits_clear old _ i hold hmrx
  · simp only [tegra_admaif_start, if_true]
  · rw [htx]; exact update_bits_set old _ i hold hmtx
  · simp only [tegra_admaif_start, if_neg hcp, if_true]
  · rw [hrx]; exact update_bits_set old _ i hold hmrx

/-- Instance of C21: with the sample constants (enable value and mask both 1) and a register
holding 5, the stop write leaves 4 and the start write applied to 4 leaves 5; bit 0 is the
enable bit. -/
theorem C21_enable_write_frame_witness :
    regmap_update_bits 5 sample_hdr.TX_ENABLE_MASK (u32_not sample_hdr.TX_ENABLE) = 4 ∧
    regmap_update_bits 4 sample_hdr.TX_ENABLE_MASK sample_hdr.TX_ENABLE = 5 ∧
    (((tegra_admaif_stop sample_hdr (probe_state sample_soc) SNDRV_PCM_STREAM_PLAYBACK 1 0
          0).1.head?
        = some (stop_event.write (.update_bits
            (CH_TX_REG sample_hdr (probe_state sample_soc).soc_data
              sample_hdr.TEGRA_ADMAIF_TX_ENABLE 1)
            sample_hdr.TX_ENABLE_MASK (u32_not sample_hdr.TX_ENABLE))) ∧
      (regmap_update_bits 5 sample_hdr.TX_ENABLE_MASK (u32_not sample_hdr.TX_ENABLE)).testBit 0
        = (Nat.testBit 5 0 && !sample_hdr.TX_ENABLE_MASK.testBit 0)) ∧
    ((tegra_admaif_stop sample_hdr (probe_state sample_soc) SNDRV_PCM_STREAM_CAPTURE 1 0
          0).1.head?
        = some (stop_event.write (.update_bits
            (CH_RX_REG sample_hdr (probe_state sample_soc).soc_data
              sample_hdr.TEGRA_ADMAIF_RX_ENABLE 1)
            sample_hdr.RX_ENABLE_MASK (u32_not sample_hdr.RX_ENABLE))) ∧
      (regmap_update_bits 5 sample_hdr.RX_ENABLE_MASK (u32_not sample_hdr.RX_ENABLE)).testBit 0
        = (Nat.testBit 5 0 && !sample_hdr.RX_ENABLE_MASK.testBit 0)) ∧
    (tegra_admaif_start sample_hdr (probe_state sample_soc) SNDRV_PCM_STREAM_PLAYBACK 1
        = ([.update_bits (CH_TX_REG sample_hdr (probe_state sample_soc).soc_data
              sample_hdr.TEGRA_ADMAIF_TX_ENABLE 1)
            sample_hdr.TX_ENABLE_MASK sample_hdr.TX_ENABLE], 0) ∧
      (regmap_update_bits 5 sample_hdr.TX_ENABLE_MASK sample_hdr.TX_ENABLE).testBit 0
        = (Nat.testBit 5 0 || sample_hdr.TX_ENABLE_MASK.testBit 0)) ∧
    (tegra_admaif_start sample_hdr (probe_state sample_soc) SNDRV_PCM_STREAM_CAPTURE 1
        = ([.update_bits (CH_RX_REG sample_hdr (probe_state sample_soc).soc_data
              sample_hdr.TEGRA_ADMAIF_RX_ENABLE 1)
            sample_hdr.RX_ENABLE_MASK sample_hdr.RX_ENABLE], 0) ∧
      (regmap_update_bits 5 sample_hdr.RX_ENABLE_MASK sample_hdr.RX_ENABLE).testBit 0
        = (Nat.testBit 5 0 || sample_hdr.RX_ENABLE_MASK.testBit 0))) :=
  ⟨by decide, by decide,
    C21_enable_write_frame sample_hdr (probe_state sample_soc) 1 0 0 5 0 rfl rfl
      (by decide) (by decide) (by decide)⟩

/-! ## Range of the stored overrides -/

theorem mem_store_le (arr : admaif_path → List Nat) (p q : admaif_path) (i v n : Nat)
    (harr : ∀ x ∈ arr q, x ≤ n) (hv : v ≤ n) : ∀ x ∈ store arr p i v q, x ≤ n := by
  intro x hx
  unfold store at hx
  split at hx
  · rcases List.mem_or_eq_of_mem_set hx with h1 | h1
    · exact harr x h1
    · rw [h1]; exact hv
  · exact harr x hx

theorem int_to_u32_to_s32_le (v : Int) (h0 : 0 ≤ v) (h16 : v ≤ 16) :
    int_to_u32 (to_s32 v) ≤ 16 := by
  unfold int_to_u32 to_s32
  omega

/-- One put call with a requested value in the declared range keeps the overrides within
`0..16`. -/
theorem put_step_overrides_le (a : tegra_admaif) (c : put_call) (hc : c.in_channel_range)
    (ha : overrides_le a 16) : overrides_le (put_step a c) 16 := by
  cases c with
  | pput_audio_ch r v =>
    have hv := int_to_u32_to_s32_le v hc.1 hc.2
    intro p
    simp only [put_step, tegra210_admaif_pput_audio_ch]
    split
    · exact ha p
    · exact ⟨mem_store_le _ _ p _ _ 16 (ha p).1 hv, (ha p).2⟩
  | cput_audio_ch r v =>
    have hv := int_to_u32_to_s32_le v hc.1 hc.2
    intro p
    simp only [put_step, tegra210_admaif_cput_audio_ch]
    split
    · exact ha p
    · exact ⟨mem_store_le _ _ p _ _ 16 (ha p).1 hv, (ha p).2⟩
  | pput_client_ch r v =>
    have hv := int_to_u32_to_s32_le v hc.1 hc.2
    intro p
    simp only [put_step, tegra210_admaif_pput_client_ch]
    split
    · exact ha p
    · exact ⟨(ha p).1, mem_store_le _ _ p _ _ 16 (ha p).2 hv⟩
  | cput_client_ch r v =>
    have hv := int_to_u32_to_s32_le v hc.1 hc.2
    intro p
    simp only [put_step, tegra210_admaif_cput_client_ch]
    split
    · exact ha p
    · exact ⟨(ha p).1, mem_store_le _ _ p _ _ 16 (ha p).2 hv⟩
  | put_reg_dump v =>
    intro p
    simp only [put_step, tegra210_admaif_put_reg_dump]
    split
    · exact ha p
    · split <;> exact ha p
  | pput_mono_to_stereo r v =>
    intro p
    simp only [put_step, tegra210_admaif_pput_mono_to_stereo]
    split <;> exact ha p
  | cput_mono_to_stereo r v =>
    intro p
    simp only [put_step, tegra210_admaif_cput_mono_to_stereo]
    split <;> exact ha p
  | pput_stereo_to_mono r v =>
    intro p
    simp only [put_step, tegra210_admaif_pput_stereo_to_mono]
    split <;> exact ha p
  | cput_stereo_to_mono r v =>
    intro p
    simp only [put_step, tegra210_admaif_cput_stereo_to_mono]
    split <;> exact ha p

theorem run_puts_overrides_le (calls : List put_call) :
    ∀ (a : tegra_admaif), (∀ c ∈ calls, c.in_channel_range) → overrides_le a 16 →
      overrides_le (run_puts a calls) 16 := by
  induction calls with
  | nil => intro a _ ha; exact ha
  | cons c rest ih =>
    intro a hc ha
    show overrides_le (run_puts (put_step a c) rest) 16
    exact ih _ (fun c' hc' => hc c' (List.mem_cons_of_mem _ hc'))
      (put_step_overrides_le a c (hc c (List.mem_cons_self _ _)) ha)

theorem probe_state_overrides_le (soc : tegra_admaif_soc_data) :
    overrides_le (probe_state soc) 16 := by
  intro p
  constructor <;>
  · intro x hx
    have := List.eq_of_mem_replicate hx
    omega

/-- C23, as stated, fails: from the zero-initialised state a single put of 17 on the
playback audio-channel control of channel 0 stores 17, which is above 16. -/
theorem C23_override_range_counterexample :
    ¬ overrides_le
        (run_puts (probe_state sample_soc) [put_call.pput_audio_ch 0 17]) 16 := by
  intro hle
  have h17 := (hle ADMAIF_TX_PATH).1 17 (by decide)
  omega

theorem load_store_other (arr : admaif_path → List Nat) (p q : admaif_path) (i j v : Nat)
    (hne : q ≠ p ∨ j ≠ i) : load (store arr p i v) q j = load arr q j := by
  unfold load store
  by_cases hq : q = p
  · have hj : j ≠ i := by
      rcases hne with h | h
      · exact absurd hq h
      · exact h
    rw [if_pos hq, List.getD_eq_getElem?_getD, List.getD_eq_getElem?_getD,
      List.getElem?_set, if_neg (Ne.symm hj)]
  · rw [if_neg hq]

theorem pput_audio_ch_stores_request (a : tegra_admaif) (idx : Nat) (v : Int)
    (hi : idx < (a.audio_ch_override ADMAIF_TX_PATH).length) :
    stores_request tegra210_admaif_pput_audio_ch (fun s => s.audio_ch_override)
      (fun s => s.client_ch_override) ADMAIF_TX_PATH a idx v := by
  refine ⟨?_, ?_, ?_⟩
  · show ((load (tegra210_admaif_pput_audio_ch a idx v).1.audio_ch_override
        ADMAIF_TX_PATH idx : Nat) : Int) = _
    rw [pput_audio_ch_stored a idx v hi, int_to_u32_to_s32, int_to_u32_cast]
  · intro q j hne
    simp only [tegra210_admaif_pput_audio_ch]
    split
    · rfl
    · exact load_store_other _ _ _ _ _ _ hne
  · simp only [tegra210_admaif_pput_audio_ch]
    split <;> rfl

theorem cput_audio_ch_stores_request (a : tegra_admaif) (idx : Nat) (v : Int)
    (hi : idx < (a.audio_ch_override ADMAIF_RX_PATH).length) :
    stores_request tegra210_admaif_cput_audio_ch (fun s => s.audio_ch_override)
      (fun s => s.client_ch_override) ADMAIF_RX_PATH a idx v := by
  refine ⟨?_, ?_, ?_⟩
  · show ((load (tegra210_admaif_cput_audio_ch a idx v).1.audio_ch_override
        ADMAIF_RX_PATH idx : Nat) : Int) = _
    rw [cput_audio_ch_stored a idx v hi, int_to_u32_to_s32, int_to_u32_cast]
  · intro q j hne
    simp only [tegra210_admaif_cput_audio_ch]
    split
    · rfl
    · exact load_store_other _ _ _ _ _ _ hne
  · simp only [tegra210_admaif_cput_audio_ch]
    split <;> rfl

theorem pput_client_ch_stores_request (a : tegra_admaif) (idx : Nat) (v : Int)
    (hi : idx < (a.client_ch_override ADMAIF_TX_PATH).length) :
    stores_request tegra210_admaif_pput_client_ch (fun s => s.client_ch_override)
      (fun s => s.audio_ch_override) ADMAIF_TX_PATH a idx v := by
  refine ⟨?_, ?_, ?_⟩
  · show ((load (tegra210_admaif_pput_client_ch a idx v).1.client_ch_override
        ADMAIF_TX_PATH idx : Nat) : Int) = _
    rw [pput_client_ch_stored a idx v hi, int_to_u32_to_s32, int_to_u32_cast]
  · intro q j hne
    simp only [tegra210_admaif_pput_client_ch]
    split
    · rfl
    · exact load_store_other _ _ _ _ _ _ hne
  · simp only [tegra210_admaif_pput_client_ch]
    split <;> rfl

theorem cput_client_ch_stores_request (a : tegra_admaif) (idx : Nat) (v : Int)
    (hi : idx < (a.client_ch_override ADMAIF_RX_PATH).length) :
    stores_request tegra210_admaif_cput_client_ch (fun s => s.client_ch_override)
      (fun s => s.audio_ch_override) ADMAIF_RX_PATH a idx v := by
  refine ⟨?_, ?_, ?_⟩
  · show ((load (tegra210_admaif_cput_client_ch a idx v).1.client_ch_override
        ADMAIF_RX_PATH idx : Nat) : Int) = _
    rw [cput_client_ch_stored a idx v hi, int_to_u32_to_s32, int_to_u32_cast]
  · intro q j hne
    simp only [tegra210_admaif_cput_client_ch]
    split
    · rfl
    · exact load_store_other _ _ _ _ _ _ hne
  · simp only [tegra210_admaif_cput_client_ch]
    split <;> rfl

/-- C23, amended: the put callbacks of the "Audio Channels" and "Client Channels" controls
do not check the request against the declared range `0..16`. For every state, every channel
index below `num_ch` and every requested value, each of the four callbacks leaves in the
entry of its control the request reduced modulo `2^32` (the request itself when it lies in
`0..2^32-1`, so a request of 17 stores 17) and changes no other override entry. Hence,
starting from the zero-initialised state, after any sequence of put calls whose requested
audio-channel and client-channel values lie in `0..16`, every entry of `audio_ch_override`
and `client_ch_override` is at most 16. -/
theorem C23_override_range (a : tegra_admaif) (idx : Nat) (v : Int)
    (soc : tegra_admaif_soc_data) (calls : List put_call)
    (hs : arrays_sized a a.soc_data.num_ch) (hidx : idx < a.soc_data.num_ch)
    (hcalls : ∀ c ∈ calls, c.in_channel_range) :
    stores_request tegra210_admaif_pput_audio_ch (fun s => s.audio_ch_override)
      (fun s => s.client_ch_override) ADMAIF_TX_PATH a idx v ∧
    stores_request tegra210_admaif_cput_audio_ch (fun s => s.audio_ch_override)
      (fun s => s.client_ch_override) ADMAIF_RX_PATH a idx v ∧
    stores_request tegra210_admaif_pput_client_ch (fun s => s.client_ch_override)
      (fun s => s.audio_ch_override) ADMAIF_TX_PATH a idx v ∧
    stores_request tegra210_admaif_cput_client_ch (fun s => s.client_ch_override)
      (fun s => s.audio_ch_override) ADMAIF_RX_PATH a idx v ∧
    overrides_le (run_puts (probe_state soc) calls) 16 := by
  have hlen := fun p => hs p
  exact ⟨pput_audio_ch_stores_request a idx v (by rw [(hlen _).1]; exact hidx),
    cput_audio_ch_stores_request a idx v (by rw [(hlen _).1]; exact hidx),
    pput_client_ch_stores_request a idx v (by rw [(hlen _).2.1]; exact hidx),
    cput_client_ch_stores_request a idx v (by rw [(hlen _).2.1]; exact hidx),
    run_puts_overrides_le calls (probe_state soc) hcalls (probe_state_overrides_le soc)⟩

/-- Instance of C23: on the zero-initialised two-channel sample a put of 17 on channel 0
stores 17 and a put of `2^32 + 3` stores 3; three puts within the declared range leave the
overrides `[16, 0]` (playback audio) and `[0, 3]` (capture client), all at most 16. -/
theorem C23_override_range_witness :
    (tegra210_admaif_pput_audio_ch (probe_state sample_soc2) 0 17).1.audio_ch_override
        ADMAIF_TX_PATH = [17, 0] ∧
    (tegra210_admaif_cput_client_ch (probe_state sample_soc2) 1 4294967299).1.client_ch_override
        ADMAIF_RX_PATH = [0, 3] ∧
    (run_puts (probe_state sample_soc2)
        [put_call.pput_audio_ch 0 16, put_call.cput_client_ch 1 3,
          put_call.pput_mono_to_stereo 0 1]).audio_ch_override ADMAIF_TX_PATH = [16, 0] ∧
    (run_puts (probe_state sample_soc2)
        [put_call.pput_audio_ch 0 16, put_call.cput_client_ch 1 3,
          put_call.pput_mono_to_stereo 0 1]).client_ch_override ADMAIF_RX_PATH = [0, 3] ∧
    (stores_request tegra210_admaif_pput_audio_ch (fun s => s.audio_ch_override)
        (fun s => s.client_ch_override) ADMAIF_TX_PATH (probe_state sample_soc2) 0 17 ∧
      stores_request tegra210_admaif_cput_audio_ch (fun s => s.audio_ch_override)
        (fun s => s.client_ch_override) ADMAIF_RX_PATH (probe_state sample_soc2) 0 17 ∧
      stores_request tegra210_admaif_pput_client_ch (fun s => s.client_ch_override)
        (fun s => s.audio_ch_override) ADMAIF_TX_PATH (probe_state sample_soc2) 0 17 ∧
      stores_request tegra210_admaif_cput_client_ch (fun s => s.client_ch_override)
        (fun s => s.audio_ch_override) ADMAIF_RX_PATH (probe_state sample_soc2) 0 17 ∧
      overrides_le
        (run_puts (probe_state sample_soc2)
          [put_call.pput_audio_ch 0 16, put_call.cput_client_ch 1 3,
            put_call.pput_mono_to_stereo 0 1]) 16) :=
  ⟨by decide, by decide, by decide, by decide,
    C23_override_range (probe_state sample_soc2) 0 17 sample_soc2
      [put_call.pput_audio_ch 0 16, put_call.cput_client_ch 1 3,
        put_call.pput_mono_to_stereo 0 1]
      (probe_state_sized sample_soc2) (by decide)
      (by
        intro c hc
        simp only [List.mem_cons, List.mem_singleton, List.not_mem_nil, or_false] at hc
        rcases hc with e | e | e <;> subst e
        · exact ⟨by decide, by decide⟩
        · exact ⟨by decide, by decide⟩
        · exact True.intro)⟩

end Admaif

namespace RtwRm

/-- C9: `translate_dbm_to_rcpi` computes `RCPI = (power in dBm + 110) * 2` in the documented
range: for every power `P` with `-110 < P < 0` the returned `u8` equals exactly
`2 * (P + 110)`, without truncation, a value between 2 and 218. -/
theorem C9_rcpi_in_documented_range (P : Int) (hlo : -110 < P) (hhi : P < 0) :
    (translate_dbm_to_rcpi P : Int) = 2 * (P + 110) ∧
    2 ≤ translate_dbm_to_rcpi P ∧ translate_dbm_to_rcpi P ≤ 218 := by
  unfold translate_dbm_to_rcpi int_to_u8
  omega

/-- Instance of C9: the two ends of the documented range, `-109` dBm and `-1` dBm. -/
theorem C9_rcpi_in_documented_range_witness :
    translate_dbm_to_rcpi (-109) = 2 ∧ translate_dbm_to_rcpi (-1) = 218 ∧
    ((translate_dbm_to_rcpi (-1) : Int) = 2 * (-1 + 110) ∧
      2 ≤ translate_dbm_to_rcpi (-1) ∧ translate_dbm_to_rcpi (-1) ≤ 218) :=
  ⟨by decide, by decide, C9_rcpi_in_documented_range (-1) (by decide) (by decide)⟩

/-- C10, evaluated on the code: at `-110` dBm the function returns 0, but below it the
result wraps around instead of staying 0: `-111` dBm gives 254 and `-128` dBm gives 220. -/
theorem C10_rcpi_below_range_wraps :
    translate_dbm_to_rcpi (-110) = 0 ∧ translate_dbm_to_rcpi (-111) = 254 ∧
    translate_dbm_to_rcpi (-128) = 220 := by
  decide


/-- C11: `translate_percentage_to_rcpi` translates a percentage `y` to dBm as `y - 100` and
then to RCPI. For every 32-bit unsigned `y` the result is `(2 * y + 20) mod 256`; for every
`y` in `0..100` it is `translate_dbm_to_rcpi (y - 100) = 2 * y + 20`, with no wrap-around;
and `rm_get_bcn_rcpi` returns this value for the `SignalStrength` of the network. -/
theorem C11_percentage_to_rcpi (y : Nat) (PhyInfo : wlan_phy_info) :
    (y < 4294967296 → translate_percentage_to_rcpi y = (2 * y + 20) % 256) ∧
    (y ≤ 100 →
      translate_percentage_to_rcpi y = translate_dbm_to_rcpi ((y : Int) - 100) ∧
      translate_percentage_to_rcpi y = 2 * y + 20) ∧
    rm_get_bcn_rcpi PhyInfo = translate_percentage_to_rcpi PhyInfo.SignalStrength := by
  refine ⟨?_, ?_, rfl⟩
  · intro _
    unfold translate_percentage_to_rcpi translate_dbm_to_rcpi int_to_u8 to_s8
    omega
  · intro hy
    unfold translate_percentage_to_rcpi translate_dbm_to_rcpi int_to_u8 to_s8
    omega

/-- Instance of C11: `y = 100` gives 220, `y = 0` gives 20, and `y = 200` wraps to
`420 mod 256 = 164`. -/
theorem C11_percentage_to_rcpi_witness :
    translate_percentage_to_rcpi 200 = 164 ∧
    translate_percentage_to_rcpi 0 = 20 ∧
    translate_percentage_to_rcpi 100 = (2 * 100 + 20) % 256 ∧
    (translate_percentage_to_rcpi 100 = translate_dbm_to_rcpi ((100 : Nat) - 100 : Int) ∧
      translate_percentage_to_rcpi 100 = 2 * 100 + 20) ∧
    rm_get_bcn_rcpi ⟨100, 0, []⟩ = 220 :=
  ⟨by decide, by decide,
    (C11_percentage_to_rcpi 100 ⟨100, 0, []⟩).1 (by decide),
    (C11_percentage_to_rcpi 100 ⟨100, 0, []⟩).2.1 (by decide),
    by decide⟩

/-- C12: in `rm_get_bcn_rsni` the value 255 means exactly that RSNI is unavailable. For
every network and every RF path count `rf_path >= 1` the function returns 255 if and only
if the `is_cck_rate` flag is set; in the non-CCK arm the result is
`((u8)(avg_snr + 10) * 2) mod 256`, which is never 255. -/
theorem C12_rsni_255_iff_cck (PhyInfo : wlan_phy_info) (rf_path : Nat) (_hrf : 1 ≤ rf_path) :
    (rm_get_bcn_rsni PhyInfo rf_path = 255 ↔ PhyInfo.is_cck_rate ≠ 0) ∧
    (PhyInfo.is_cck_rate = 0 →
      rm_get_bcn_rsni PhyInfo rf_path
        = ((bcn_avg_snr PhyInfo rf_path + 10) % 256 * 2) % 256 ∧
      rm_get_bcn_rsni PhyInfo rf_path ≠ 255) := by
  have hval : PhyInfo.is_cck_rate = 0 →
      rm_get_bcn_rsni PhyInfo rf_path
        = ((bcn_avg_snr PhyInfo rf_path + 10) % 256 * 2) % 256 := by
    intro h0
    simp only [rm_get_bcn_rsni, h0, ne_eq, not_true_eq_false, if_false, int_to_u8]
    omega
  refine ⟨?_, fun h0 => ⟨hval h0, ?_⟩⟩
  · by_cases hc : PhyInfo.is_cck_rate = 0
    · have := hval hc
      constructor
      · intro h; omega
      · intro h; exact absurd hc h
    · simp [rm_get_bcn_rsni, hc]
  · have := hval h0
    omega

/-- Instance of C12: two RF paths with SNR 30 and 34 give an average of 32 and an RSNI of
84; with the CCK flag set the result is 255. -/
theorem C12_rsni_255_iff_cck_witness :
    rm_get_bcn_rsni ⟨50, 0, [30, 34]⟩ 2 = 84 ∧
    rm_get_bcn_rsni ⟨50, 1, [30, 34]⟩ 2 = 255 ∧
    ((rm_get_bcn_rsni ⟨50, 0, [30, 34]⟩ 2 = 255 ↔ (0 : Nat) ≠ 0) ∧
      ((0 : Nat) = 0 →
        rm_get_bcn_rsni ⟨50, 0, [30, 34]⟩ 2
          = ((bcn_avg_snr ⟨50, 0, [30, 34]⟩ 2 + 10) % 256 * 2) % 256 ∧
        rm_get_bcn_rsni ⟨50, 0, [30, 34]⟩ 2 ≠ 255)) :=
  ⟨by decide, by decide, C12_rsni_255_iff_cck ⟨50, 0, [30, 34]⟩ 2 (by decide)⟩

open MGN_RATE channel_width

theorem rx_sensitivity_of_rate_eq_stated (rate : MGN_RATE) :
    rx_sensitivity_of_rate rate = stated_base rate := by
  cases rate <;> rfl

theorem rx_sensitivity_of_rate_bounds (rate : MGN_RATE) :
    (rx_sensitivity_of_rate rate).all (fun b => decide (-101 ≤ b ∧ b ≤ -57)) = true := by
  cases rate <;> rfl

theorem rx_sensitivity_of_rate_listed (rate : MGN_RATE) (hr : rate ≠ MGN_other) :
    ∃ b, rx_sensitivity_of_rate rate = some b ∧ -101 ≤ b ∧ b ≤ -57 := by
  have hb := rx_sensitivity_of_rate_bounds rate
  cases hs : rx_sensitivity_of_rate rate with
  | none => cases rate <;> first | exact absurd rfl hr | simp [rx_sensitivity_of_rate] at hs
  | some b =>
    rw [hs] at hb
    simp only [Option.all_some, decide_eq_true_eq] at hb
    exact ⟨b, rfl, hb⟩

/-- C13: `rm_get_rx_sensitivity` outputs the 20 MHz sensitivity of the rate lowered by 3 dB
per doubling of bandwidth. For every rate named in its `switch` and every bandwidth among
20, 40, 80 and 160 MHz it returns 0 and sets `*pwr = base(rate) - 3 * k`, with `k = 0, 1, 2,
3` for 20, 40, 80, 160 MHz and `base` the stated table (`stated_base`: the legacy values,
and the MCS values by MCS index, the HT index taken modulo 8, whatever the number of spatial
streams); every such output lies in `[-110, -57]` and so fits in `s8`. -/
theorem C13_rx_sensitivity_table (bw : channel_width) (rate : MGN_RATE) (pwr : Int)
    (hrate : rate ≠ MGN_other)
    (hbw : bw = CHANNEL_WIDTH_20 ∨ bw = CHANNEL_WIDTH_40 ∨ bw = CHANNEL_WIDTH_80 ∨
      bw = CHANNEL_WIDTH_160) :
    ∃ base k, stated_base rate = some base ∧ stated_bw_doublings bw = some k ∧
      rm_get_rx_sensitivity bw rate pwr = (0, base - 3 * k) ∧
      -110 ≤ base - 3 * k ∧ base - 3 * k ≤ -57 ∧
      to_s8 (base - 3 * k) = base - 3 * k := by
  obtain ⟨b, hb, hlo, hhi⟩ := rx_sensitivity_of_rate_listed rate hrate
  have hst : stated_base rate = some b := by rw [← rx_sensitivity_of_rate_eq_stated, hb]
  rcases hbw with e | e | e | e <;> subst e
  · refine ⟨b, 0, hst, rfl, ?_, by omega, by omega, by unfold to_s8; omega⟩
    simp only [rm_get_rx_sensitivity, hb]
    simp
  · refine ⟨b, 1, hst, rfl, ?_, by omega, by omega, by unfold to_s8; omega⟩
    simp only [rm_get_rx_sensitivity, hb, to_s8]
    refine Prod.ext rfl ?_
    show (b - 3 + 128) % 256 - 128 = b - 3 * 1
    omega
  · refine ⟨b, 2, hst, rfl, ?_, by omega, by omega, by unfold to_s8; omega⟩
    simp only [rm_get_rx_sensitivity, hb, to_s8]
    refine Prod.ext rfl ?_
    show (b - 6 + 128) % 256 - 128 = b - 3 * 2
    omega
  · refine ⟨b, 3, hst, rfl, ?_, by omega, by omega, by unfold to_s8; omega⟩
    simp only [rm_get_rx_sensitivity, hb, to_s8]
    refine Prod.ext rfl ?_
    show (b - 9 + 128) % 256 - 128 = b - 3 * 3
    omega

/-- Instance of C13: `MGN_1M` at 160 MHz gives the lowest output, `-110`; `MGN_MCS13`
(HT index 13, MCS table entry 5) at 40 MHz gives `-69`; `MGN_VHT3SS_MCS9` at 20 MHz gives the
highest output, `-57`. -/
theorem C13_rx_sensitivity_table_witness :
    rm_get_rx_sensitivity CHANNEL_WIDTH_160 MGN_1M 0 = (0, -110) ∧
    rm_get_rx_sensitivity CHANNEL_WIDTH_40 MGN_MCS13 0 = (0, -69) ∧
    rm_get_rx_sensitivity CHANNEL_WIDTH_20 MGN_VHT3SS_MCS9 0 = (0, -57) ∧
    stated_base MGN_MCS13 = some (-66) ∧
    ∃ base k, stated_base MGN_MCS13 = some base ∧
      stated_bw_doublings CHANNEL_WIDTH_40 = some k ∧
      rm_get_rx_sensitivity CHANNEL_WIDTH_40 MGN_MCS13 0 = (0, base - 3 * k) ∧
      -110 ≤ base - 3 * k ∧ base - 3 * k ≤ -57 ∧
      to_s8 (base - 3 * k) = base - 3 * k :=
  ⟨by decide, by decide, by decide, by decide,
    C13_rx_sensitivity_table CHANNEL_WIDTH_40 MGN_MCS13 0 (by decide) (Or.inr (Or.inl rfl))⟩

/-- C14: `rm_get_rx_sensitivity` fails exactly on unsupported inputs and then leaves its
output untouched. It returns `-1` if and only if the rate is not one of the rates named in
its `switch` or the bandwidth is not one of 20, 40, 80, 160 MHz (so 5, 10 and 80+80 MHz
fail); otherwise it returns 0; and in every failing call `*pwr` keeps its previous value, so
the initial default of the local is not what an unsupported rate reports. -/
theorem C14_rx_sensitivity_failure (bw : channel_width) (rate : MGN_RATE) (pwr : Int) :
    ((rm_get_rx_sensitivity bw rate pwr).1 = -1 ↔
      (rate = MGN_other ∨
        (bw ≠ CHANNEL_WIDTH_20 ∧ bw ≠ CHANNEL_WIDTH_40 ∧ bw ≠ CHANNEL_WIDTH_80 ∧
          bw ≠ CHANNEL_WIDTH_160))) ∧
    ((rm_get_rx_sensitivity bw rate pwr).1 = 0 ∨
      rm_get_rx_sensitivity bw rate pwr = (-1, pwr)) ∧
    (rm_get_rx_sensitivity CHANNEL_WIDTH_5 rate pwr).1 = -1 ∧
    (rm_get_rx_sensitivity CHANNEL_WIDTH_10 rate pwr).1 = -1 ∧
    (rm_get_rx_sensitivity CHANNEL_WIDTH_80_80 rate pwr).1 = -1 := by
  by_cases hr : rate = MGN_other
  · subst hr
    simp [rm_get_rx_sensitivity, rx_sensitivity_of_rate]
  · obtain ⟨b, hb, _, _⟩ := rx_sensitivity_of_rate_listed rate hr
    cases bw <;> simp [rm_get_rx_sensitivity, hb, hr]

open band_type

/-! ## Channel sets -/

theorem store_ch_same (ps : ch_array) (k : Nat) (v : rtw_ieee80211_channel) :
    store_ch ps k v k = v := by
  simp [store_ch]

theorem store_ch_other (ps : ch_array) (k i : Nat) (v : rtw_ieee80211_channel)
    (hne : i ≠ k) : store_ch ps k v i = ps i := by
  simp [store_ch, hne]

/-- The inner copy loop advances `k` by the number of iterations, writes the channels at
`k, k+1, ...` and leaves every other entry as it was. -/
theorem bcn_req_copy_spec (rpt : RT_OPERATING_CLASS) (band : band_type) :
    ∀ (n j k : Nat) (ps : ch_array),
      (bcn_req_copy rpt band n j k ps).1 = k + n ∧
      (∀ i, i < k ∨ k + n ≤ i → (bcn_req_copy rpt band n j k ps).2 i = ps i) ∧
      (∀ t, t < n →
        (bcn_req_copy rpt band n j k ps).2 (k + t) = ⟨rpt.Channel.getD (j + t) 0, band⟩) := by
  intro n
  induction n with
  | zero =>
    intro j k ps
    refine ⟨rfl, fun _ _ => rfl, fun t ht => absurd ht (Nat.not_lt_zero t)⟩
  | succ n ih =>
    intro j k ps
    obtain ⟨h1, h2, h3⟩ := ih (j + 1) (k + 1)
      (store_ch ps k ⟨rpt.Channel.getD j 0, band⟩)
    refine ⟨?_, ?_, ?_⟩
    · show (bcn_req_copy rpt band n (j + 1) (k + 1) _).1 = k + (n + 1)
      rw [h1]; omega
    · intro i hi
      show (bcn_req_copy rpt band n (j + 1) (k + 1) _).2 i = ps i
      rw [h2 i (by omega), store_ch_other _ _ _ _ (by omega)]
    · intro t ht
      show (bcn_req_copy rpt band n (j + 1) (k + 1) _).2 (k + t) = _
      cases t with
      | zero =>
        rw [h2 (k + 0) (by omega)]
        exact store_ch_same _ _ _
      | succ t =>
        have := h3 t (by omega)
        rw [show k + (t + 1) = k + 1 + t by omega, this,
          show j + 1 + t = j + (t + 1) by omega]

/-- The outer loop never lets `k` exceed the capacity and writes only below the final `k`
and not below the initial one. -/
theorem bcn_req_loop_bound (band_of : Nat → band_type) (opt : bcn_req_opt) (pch_num : Nat) :
    ∀ (n i k : Nat) (ps : ch_array), k ≤ pch_num →
      k ≤ (bcn_req_loop band_of opt pch_num n i k ps).1 ∧
      (bcn_req_loop band_of opt pch_num n i k ps).1 ≤ pch_num ∧
      (∀ x, x < k ∨ (bcn_req_loop band_of opt pch_num n i k ps).1 ≤ x →
        (bcn_req_loop band_of opt pch_num n i k ps).2 x = ps x) := by
  intro n
  induction n with
  | zero =>
    intro i k ps hk
    exact ⟨Nat.le_refl _, hk, fun _ _ => rfl⟩
  | succ n ih =>
    intro i k ps hk
    unfold bcn_req_loop
    cases hrpt : opt.ap_ch_rpt.getD i none with
    | none => exact ⟨Nat.le_refl _, hk, fun _ _ => rfl⟩
    | some rpt =>
      simp only []
      split
      · exact ⟨Nat.le_refl _, hk, fun _ _ => rfl⟩
      · next hfit =>
        have c := bcn_req_copy_spec rpt
          (if band_of rpt.global_op_class = BAND_MAX then BAND_ON_24G
            else band_of rpt.global_op_class) rpt.Len 0 k ps
        generalize bcn_req_copy rpt
          (if band_of rpt.global_op_class = BAND_MAX then BAND_ON_24G
            else band_of rpt.global_op_class) rpt.Len 0 k ps = r at c ⊢
        obtain ⟨c1, c2, _⟩ := c
        obtain ⟨l1, l2, l3⟩ := ih (i + 1) r.1 r.2 (by omega)
        refine ⟨by omega, l2, ?_⟩
        intro x hx
        rw [l3 x (by omega), c2 x (by omega)]

/-- C15: `rm_get_ch_set_from_bcn_req_opt` never overruns the channel array of its caller.
For every option set and every capacity `pch_num` (a `u8`), the returned count is at most
`pch_num`, every entry at or above the returned count is left as it was, and the count,
accumulated in the `int` `k`, is returned as `u8` without truncation. -/
theorem C15_bcn_req_no_overrun (band_of : Nat → band_type) (opt : bcn_req_opt)
    (pch_set : ch_array) (pch_num : Nat) (hpn : pch_num < 256) :
    (rm_get_ch_set_from_bcn_req_opt band_of opt pch_set pch_num).1 ≤ pch_num ∧
    (∀ x, (rm_get_ch_set_from_bcn_req_opt band_of opt pch_set pch_num).1 ≤ x →
      (rm_get_ch_set_from_bcn_req_opt band_of opt pch_set pch_num).2 x = pch_set x) ∧
    (rm_get_ch_set_from_bcn_req_opt band_of opt pch_set pch_num).1
      = (bcn_req_loop band_of opt pch_num opt.ap_ch_rpt_num 0 0 pch_set).1 := by
  obtain ⟨_, l2, l3⟩ :=
    bcn_req_loop_bound band_of opt pch_num opt.ap_ch_rpt_num 0 0 pch_set (Nat.zero_le _)
  have htr : (rm_get_ch_set_from_bcn_req_opt band_of opt pch_set pch_num).1
      = (bcn_req_loop band_of opt pch_num opt.ap_ch_rpt_num 0 0 pch_set).1 := by
    show (bcn_req_loop band_of opt pch_num opt.ap_ch_rpt_num 0 0 pch_set).1 % 256 = _
    omega
  refine ⟨by rw [htr]; exact l2, ?_, htr⟩
  intro x hx
  rw [htr] at hx
  exact l3 x (Or.inr hx)

/-- Instance of C15: with room for 5 entries the first two reports fit (3 entries) and the
third (3 more) does not; entry 3 is untouched. -/
theorem C15_bcn_req_no_overrun_witness :
    (rm_get_ch_set_from_bcn_req_opt sample_band_of sample_opt sample_pch_set 5).1 = 3 ∧
    (rm_get_ch_set_from_bcn_req_opt sample_band_of sample_opt sample_pch_set 5).2 3
      = ⟨0, BAND_MAX⟩ ∧
    ((rm_get_ch_set_from_bcn_req_opt sample_band_of sample_opt sample_pch_set 5).1 ≤ 5 ∧
    (∀ x, (rm_get_ch_set_from_bcn_req_opt sample_band_of sample_opt sample_pch_set 5).1 ≤ x →
      (rm_get_ch_set_from_bcn_req_opt sample_band_of sample_opt sample_pch_set 5).2 x
        = sample_pch_set x) ∧
    (rm_get_ch_set_from_bcn_req_opt sample_band_of sample_opt sample_pch_set 5).1
      = (bcn_req_loop sample_band_of sample_opt 5 sample_opt.ap_ch_rpt_num 0 0
          sample_pch_set).1) :=
  ⟨by decide, by decide,
    C15_bcn_req_no_overrun sample_band_of sample_opt sample_pch_set 5 (by decide)⟩

theorem candidates_none (l : List (Option RT_OPERATING_CLASS)) (n i : Nat)
    (h : l.getD i none = none) :
    (((l.drop i).take (n + 1)).takeWhile Option.isSome).reduceOption = [] := by
  by_cases hi : i < l.length
  · rw [List.getD_eq_getElem _ _ hi] at h
    rw [List.drop_eq_getElem_cons hi, h]
    simp
  · rw [List.drop_eq_nil_of_le (by omega)]
    simp

theorem candidates_some (l : List (Option RT_OPERATING_CLASS)) (n i : Nat)
    (r : RT_OPERATING_CLASS) (h : l.getD i none = some r) :
    (((l.drop i).take (n + 1)).takeWhile Option.isSome).reduceOption
      = r :: (((l.drop (i + 1)).take n).takeWhile Option.isSome).reduceOption := by
  by_cases hi : i < l.length
  · rw [List.getD_eq_getElem _ _ hi] at h
    rw [List.drop_eq_getElem_cons hi, h]
    simp [List.reduceOption_cons_of_some]
  · rw [List.getD_eq_default _ _ (by omega)] at h
    cases h

theorem stated_entries_length (band_of : Nat → band_type) (r : RT_OPERATING_CLASS) :
    (stated_entries band_of r).length = r.Len := by
  simp [stated_entries]

theorem stated_entries_getElem? (band_of : Nat → band_type) (r : RT_OPERATING_CLASS)
    (t : Nat) (ht : t < r.Len) :
    (stated_entries band_of r)[t]? = some ⟨r.Channel.getD t 0, stated_band band_of r⟩ := by
  simp [stated_entries, List.getElem?_map, List.getElem?_range ht]

/-- The outer loop, started with `k` entries written, takes the stated reports and writes
their stated entries from index `k` on. -/
theorem bcn_req_loop_spec (band_of : Nat → band_type) (opt : bcn_req_opt) (pch_num : Nat) :
    ∀ (n i k : Nat) (ps : ch_array), k ≤ pch_num →
      (bcn_req_loop band_of opt pch_num n i k ps).1
        = k + ((stated_taken pch_num k
            ((((opt.ap_ch_rpt.drop i).take n).takeWhile Option.isSome).reduceOption)).map
              RT_OPERATING_CLASS.Len).sum ∧
      ∀ t v,
        ((stated_taken pch_num k
            ((((opt.ap_ch_rpt.drop i).take n).takeWhile Option.isSome).reduceOption)).flatMap
              (stated_entries band_of))[t]? = some v →
        (bcn_req_loop band_of opt pch_num n i k ps).2 (k + t) = v := by
  intro n
  induction n with
  | zero =>
    intro i k ps _
    simp [bcn_req_loop, stated_taken]
  | succ n ih =>
    intro i k ps hk
    unfold bcn_req_loop
    cases hrpt : opt.ap_ch_rpt.getD i none with
    | none =>
      rw [candidates_none _ _ _ hrpt]
      simp [stated_taken]
    | some rpt =>
      rw [candidates_some _ _ _ _ hrpt]
      simp only []
      unfold stated_taken
      split
      · simp
      · next hfit =>
        have c := bcn_req_copy_spec rpt
          (if band_of rpt.global_op_class = BAND_MAX then BAND_ON_24G
            else band_of rpt.global_op_class) rpt.Len 0 k ps
        have hb := fun ps1 => bcn_req_loop_bound band_of opt pch_num n (i + 1)
          (k + rpt.Len) ps1 (by omega)
        generalize bcn_req_copy rpt
          (if band_of rpt.global_op_class = BAND_MAX then BAND_ON_24G
            else band_of rpt.global_op_class) rpt.Len 0 k ps = r at c ⊢
        obtain ⟨c1, _, c3⟩ := c
        obtain ⟨l1, l2⟩ := ih (i + 1) r.1 r.2 (by omega)
        rw [c1] at l1 l2
        rw [c1]
        refine ⟨?_, ?_⟩
        · rw [l1, List.map_cons, List.sum_cons]; omega
        · intro t v hv
          rw [List.flatMap_cons] at hv
          by_cases ht : t < rpt.Len
          · rw [List.getElem?_append_left (by rw [stated_entries_length]; exact ht),
              stated_entries_getElem? _ _ _ ht] at hv
            obtain ⟨_, _, f3⟩ := hb r.2
            rw [f3 (k + t) (Or.inl (by omega)), c3 t ht, ← Option.some.inj hv]
            simp [stated_band]
          · rw [List.getElem?_append_right (by rw [stated_entries_length]; omega),
              stated_entries_length] at hv
            have := l2 (t - rpt.Len) v hv
            rw [show k + rpt.Len + (t - rpt.Len) = k + t by omega] at this
            exact this

theorem stated_entries_flatMap_length (band_of : Nat → band_type)
    (l : List RT_OPERATING_CLASS) :
    (l.flatMap (stated_entries band_of)).length = (l.map RT_OPERATING_CLASS.Len).sum := by
  induction l with
  | nil => rfl
  | cons r rest ih =>
    rw [List.flatMap_cons, List.length_append, stated_entries_length, ih, List.map_cons,
      List.sum_cons]

/-- C16: `rm_get_ch_set_from_bcn_req_opt` returns the channels of the longest fitting prefix
of AP channel reports. Taking the reports before the first `NULL` entry (at most
`ap_ch_rpt_num` of them) in order and stopping at the first report whose `Len` would make
the running total exceed `pch_num`, the returned count is the sum of `Len` over the reports
taken, and the entries `pch_set[0 .. k-1]` are, in order, the channels of these reports,
each with the band of the operating class of its report, or `BAND_ON_24G` when
`rtw_get_band_by_op_class` yields `BAND_MAX`. -/
theorem C16_bcn_req_fitting_prefix (band_of : Nat → band_type) (opt : bcn_req_opt)
    (pch_set : ch_array) (pch_num : Nat) (hpn : pch_num < 256) :
    (rm_get_ch_set_from_bcn_req_opt band_of opt pch_set pch_num).1
      = ((stated_taken pch_num 0 (stated_candidates opt)).map RT_OPERATING_CLASS.Len).sum ∧
    (List.range (rm_get_ch_set_from_bcn_req_opt band_of opt pch_set pch_num).1).map
        (rm_get_ch_set_from_bcn_req_opt band_of opt pch_set pch_num).2
      = (stated_taken pch_num 0 (stated_candidates opt)).flatMap (stated_entries band_of) := by
  obtain ⟨_, b2, _⟩ :=
    bcn_req_loop_bound band_of opt pch_num opt.ap_ch_rpt_num 0 0 pch_set (Nat.zero_le _)
  obtain ⟨l1, l2⟩ :=
    bcn_req_loop_spec band_of opt pch_num opt.ap_ch_rpt_num 0 0 pch_set (Nat.zero_le _)
  simp only [List.drop_zero, Nat.zero_add] at l1 l2
  have htr : (rm_get_ch_set_from_bcn_req_opt band_of opt pch_set pch_num).1
      = (bcn_req_loop band_of opt pch_num opt.ap_ch_rpt_num 0 0 pch_set).1 := by
    show (bcn_req_loop band_of opt pch_num opt.ap_ch_rpt_num 0 0 pch_set).1 % 256 = _
    omega
  have h2 : (rm_get_ch_set_from_bcn_req_opt band_of opt pch_set pch_num).2
      = (bcn_req_loop band_of opt pch_num opt.ap_ch_rpt_num 0 0 pch_set).2 := rfl
  have hk : (rm_get_ch_set_from_bcn_req_opt band_of opt pch_set pch_num).1
      = ((stated_taken pch_num 0 (stated_candidates opt)).map RT_OPERATING_CLASS.Len).sum := by
    rw [htr, l1]; rfl
  refine ⟨hk, ?_⟩
  apply List.ext_getElem?
  intro t
  have hlen := stated_entries_flatMap_length band_of
    (stated_taken pch_num 0 (stated_candidates opt))
  by_cases ht : t < (rm_get_ch_set_from_bcn_req_opt band_of opt pch_set pch_num).1
  · have htl : t < ((stated_taken pch_num 0 (stated_candidates opt)).flatMap
        (stated_entries band_of)).length := by rw [hlen, ← hk]; exact ht
    rw [List.getElem?_map, List.getElem?_range ht, List.getElem?_eq_getElem htl, h2]
    have := l2 t _ (List.getElem?_eq_getElem htl)
    simp [this]
  · have htl : ((stated_taken pch_num 0 (stated_candidates opt)).flatMap
        (stated_entries band_of)).length ≤ t := by rw [hlen, ← hk]; omega
    rw [List.getElem?_eq_none (by simpa using Nat.le_of_not_lt ht),
      List.getElem?_eq_none htl]

/-- Instance of C16: with room for 5 entries the sample option set yields the channels 1, 6
on 2.4 GHz and 36 on 5 GHz; with room for 6 the third report is taken too, and its class,
which has no band, is filed under 2.4 GHz. -/
theorem C16_bcn_req_fitting_prefix_witness :
    (stated_taken 5 0 (stated_candidates sample_opt)).map RT_OPERATING_CLASS.Len = [2, 1] ∧
    (List.range 3).map
        (rm_get_ch_set_from_bcn_req_opt sample_band_of sample_opt sample_pch_set 5).2
      = [⟨1, BAND_ON_24G⟩, ⟨6, BAND_ON_24G⟩, ⟨36, BAND_ON_5G⟩] ∧
    (List.range 6).map
        (rm_get_ch_set_from_bcn_req_opt sample_band_of sample_opt sample_pch_set 6).2
      = [⟨1, BAND_ON_24G⟩, ⟨6, BAND_ON_24G⟩, ⟨36, BAND_ON_5G⟩, ⟨40, BAND_ON_24G⟩,
          ⟨44, BAND_ON_24G⟩, ⟨48, BAND_ON_24G⟩] ∧
    ((rm_get_ch_set_from_bcn_req_opt sample_band_of sample_opt sample_pch_set 5).1
      = ((stated_taken 5 0 (stated_candidates sample_opt)).map RT_OPERATING_CLASS.Len).sum ∧
    (List.range (rm_get_ch_set_from_bcn_req_opt sample_band_of sample_opt sample_pch_set 5).1).map
        (rm_get_ch_set_from_bcn_req_opt sample_band_of sample_opt sample_pch_set 5).2
      = (stated_taken 5 0 (stated_candidates sample_opt)).flatMap
          (stated_entries sample_band_of)) :=
  ⟨by decide, by decide, by decide,
    C16_bcn_req_fitting_prefix sample_band_of sample_opt sample_pch_set 5 (by decide)⟩

theorem rm_get_ch_set_copy_spec (e : op_class_t) :
    ∀ (n i : Nat) (ps : ch_array),
      (rm_get_ch_set_copy e n i ps).1 = i + n ∧
      (∀ x, x < i ∨ i + n ≤ x → (rm_get_ch_set_copy e n i ps).2 x = ps x) ∧
      (∀ t, t < n →
        (rm_get_ch_set_copy e n i ps).2 (i + t) = ⟨e.ch_list.getD (i + t) 0, e.band⟩) := by
  intro n
  induction n with
  | zero =>
    intro i ps
    exact ⟨rfl, fun _ _ => rfl, fun t ht => absurd ht (Nat.not_lt_zero t)⟩
  | succ n ih =>
    intro i ps
    obtain ⟨h1, h2, h3⟩ := ih (i + 1) (store_ch ps i ⟨e.ch_list.getD i 0, e.band⟩)
    refine ⟨?_, ?_, ?_⟩
    · show (rm_get_ch_set_copy e n (i + 1) _).1 = i + (n + 1)
      rw [h1]; omega
    · intro x hx
      show (rm_get_ch_set_copy e n (i + 1) _).2 x = ps x
      rw [h2 x (by omega), store_ch_other _ _ _ _ (by omega)]
    · intro t ht
      show (rm_get_ch_set_copy e n (i + 1) _).2 (i + t) = _
      cases t with
      | zero =>
        rw [h2 (i + 0) (by omega)]
        exact store_ch_same _ _ _
      | succ t =>
        have := h3 t (by omega)
        rw [show i + (t + 1) = i + 1 + t by omega, this]

/-- C17: `rm_get_ch_set` is all-or-nothing. When the pointer found for the operating class
is not an entry of `global_op_class` (it lies below the table, as `NULL` does, or is not at
a multiple of the entry size), or when the capacity `pch_num` is smaller than the length
`n` of the channel list of the class, it returns 0 and writes no entry; otherwise it returns
`n` and, for every `i < n`, sets `pch_set[i].hw_value` to channel `i` of the class and
`pch_set[i].band` to the band of the class, leaving the entries from `n` on as they were. -/
theorem C17_rm_get_ch_set_all_or_nothing (global_op_class : List op_class_t)
    (sizeof_op_class_t : Nat) (opc : Int) (pch_set : ch_array) (pch_num : Nat)
    (hsz : 0 < sizeof_op_class_t) (hpn : pch_num < 256) :
    ((opc < 0 ∨ opc % (sizeof_op_class_t : Int) ≠ 0) →
      rm_get_ch_set global_op_class sizeof_op_class_t opc pch_set pch_num = (0, pch_set)) ∧
    (∀ (idx : Nat) (e : op_class_t),
      opc = (sizeof_op_class_t : Int) * idx → global_op_class[idx]? = some e →
      (pch_num < e.ch_list.length →
        rm_get_ch_set global_op_class sizeof_op_class_t opc pch_set pch_num
          = (0, pch_set)) ∧
      (e.ch_list.length ≤ pch_num →
        (rm_get_ch_set global_op_class sizeof_op_class_t opc pch_set pch_num).1
          = e.ch_list.length ∧
        (∀ i, i < e.ch_list.length →
          (rm_get_ch_set global_op_class sizeof_op_class_t opc pch_set pch_num).2 i
            = ⟨e.ch_list.getD i 0, e.band⟩) ∧
        (∀ x, e.ch_list.length ≤ x →
          (rm_get_ch_set global_op_class sizeof_op_class_t opc pch_set pch_num).2 x
            = pch_set x))) := by
  refine ⟨fun hbad => by simp only [rm_get_ch_set, if_pos hbad], ?_⟩
  intro idx e hopc he
  have hok : ¬ (opc < 0 ∨ opc % (sizeof_op_class_t : Int) ≠ 0) := by
    subst hopc
    have h1 : (0 : Int) ≤ (sizeof_op_class_t : Int) * idx := by positivity
    have h2 : ((sizeof_op_class_t : Int) * idx) % (sizeof_op_class_t : Int) = 0 :=
      Int.mul_emod_right _ _
    omega
  have hidx : (opc / (sizeof_op_class_t : Int)).toNat = idx := by
    subst hopc
    rw [Int.mul_ediv_cancel_left _ (by omega)]
    rfl
  have hlt : idx < global_op_class.length := by
    by_contra hge
    rw [List.getElem?_eq_none (by omega)] at he
    cases he
  have hget : global_op_class.getD idx default = e := by
    rw [List.getD_eq_getElem _ _ hlt]
    rw [List.getElem?_eq_getElem hlt] at he
    exact Option.some.inj he
  constructor
  · intro hsmall
    simp only [rm_get_ch_set, if_neg hok, hidx, hget, if_pos hsmall]
  · intro hfit
    obtain ⟨c1, c2, c3⟩ := rm_get_ch_set_copy_spec e e.ch_list.length 0 pch_set
    have hres : rm_get_ch_set global_op_class sizeof_op_class_t opc pch_set pch_num
        = ((rm_get_ch_set_copy e e.ch_list.length 0 pch_set).1 % 256,
            (rm_get_ch_set_copy e e.ch_list.length 0 pch_set).2) := by
      simp only [rm_get_ch_set, if_neg hok, hidx, hget, if_neg (Nat.not_lt.mpr hfit)]
    rw [hres]
    refine ⟨?_, ?_, ?_⟩
    · show (rm_get_ch_set_copy e e.ch_list.length 0 pch_set).1 % 256 = _
      rw [c1]; omega
    · intro i hi
      have := c3 i hi
      rw [Nat.zero_add] at this
      exact this
    · intro x hx
      exact c2 x (Or.inr (by omega))

/-- Instance of C17: the second class of the sample table (entry size 16, so the pointer is
16 bytes into the table) with room for 4 entries yields its four channels on 5 GHz; with
room for 3 nothing is written; a `NULL` pointer yields 0. -/
theorem C17_rm_get_ch_set_all_or_nothing_witness :
    (rm_get_ch_set sample_global_op_class 16 16 sample_pch_set 4).1 = 4 ∧
    (List.range 5).map (rm_get_ch_set sample_global_op_class 16 16 sample_pch_set 4).2
      = [⟨36, BAND_ON_5G⟩, ⟨40, BAND_ON_5G⟩, ⟨44, BAND_ON_5G⟩, ⟨48, BAND_ON_5G⟩,
          ⟨0, BAND_MAX⟩] ∧
    (rm_get_ch_set sample_global_op_class 16 16 sample_pch_set 3).1 = 0 ∧
    rm_get_ch_set sample_global_op_class 16 (-4096) sample_pch_set 4 = (0, sample_pch_set) ∧
    rm_get_ch_set sample_global_op_class 16 16 sample_pch_set 3 = (0, sample_pch_set) :=
  ⟨by decide, by decide, by decide,
    (C17_rm_get_ch_set_all_or_nothing sample_global_op_class 16 (-4096) sample_pch_set 4
      (by decide) (by decide)).1 (Or.inl (by decide)),
    ((C17_rm_get_ch_set_all_or_nothing sample_global_op_class 16 16 sample_pch_set 3
      (by decide) (by decide)).2 1 ⟨BAND_ON_5G, [36, 40, 44, 48]⟩ (by decide) rfl).1
      (by decide)⟩
end RtwRm
